import Mathlib

/-!
Verification development for the Algomation `apis/1.0` rendering library
(`element.js`, `surface.js`, `worker_core.js`, `core.js`).

The JavaScript sources are shallowly embedded below:

* JS property values (scalars, arrays of scalars used as multi-tick
  sequence values, element references, and state-definition lists) become
  the inductive types `Scalar` and `Val`.
* A JS options/property object becomes an insertion-ordered association
  list `PropMap`; `setP` updates an existing key in place (as JS property
  assignment does) and appends new keys at the end.
* Elements (`algo.render.Element`) become a registry of records keyed by
  their numeric id (the source uses the strings `'algoid-' + n`; the string
  form is kept wherever a value flows into a command payload).
* Mutating methods become state transformers on a `Surface` record; code
  paths that throw in JS (`throw new Error(...)`, `TypeError` on calling a
  method of `undefined`) return `Except Err`.  JS recursion through the
  object graph is modelled with an explicit fuel parameter; fuel exhaustion
  is the analogue of a JS stack overflow and is reported as `Err.fuel`.
-/

/-- A JS primitive value as it occurs in element property bags: numbers,
strings, booleans and `undefined`.  Colors (`algo.Color.iWHITE`, ...) are
opaque constants and are represented by their names as strings. -/
inductive Scalar
  | int (n : Int)
  | str (s : String)
  | bool (b : Bool)
  | undef
deriving DecidableEq, Repr

/-- A JS property value: a scalar, an array of scalars (a sequence value in
the tick protocol), a live element reference (kept as the element's numeric
id; the embedding has no aliasing so an element reference carries exactly
its id), or an array of display-state definitions (the value of the
reserved `states` key, a list of `{name, properties}` records whose
properties are scalars). -/
inductive Val
  | scalar (s : Scalar)
  | list (l : List Scalar)
  | ref (id : Nat)
  | states (defs : List (String × List (String × Scalar)))
deriving DecidableEq, Repr

/-- A JS object used as an options / property bag: an insertion-ordered
association list from property names to values. -/
abbrev PropMap := List (String × Val)

/-- The property subset defined by a display state (`state.properties` in
`element.js`): scalar-valued only. -/
abbrev StateProps := List (String × Scalar)

/-- JS property read `obj[k]`: the value at the first occurrence of `k`,
`none` when the key is absent (JS `undefined` through absence). -/
def getP : PropMap → String → Option Val
  | [], _ => none
  | (k', v) :: rest, k => if k' = k then some v else getP rest k

/-- JS property write `obj[k] = v`: updates an existing key in place
(keeping its position), otherwise appends the key at the end, as JS
object insertion order does. -/
def setP : PropMap → String → Val → PropMap
  | [], k, v => [(k, v)]
  | (k', v') :: rest, k, v =>
    if k' = k then (k', v) :: rest else (k', v') :: setP rest k v

/-- JS `delete obj[k]`. -/
def delP (m : PropMap) (k : String) : PropMap :=
  m.filter (fun kv => kv.1 ≠ k)

/-- `_.omit(options, 'states', 'state', 'shape')` in
`Surface.prototype.addCommand`: drops the reserved non-transmissible keys. -/
def omitReserved (m : PropMap) : PropMap :=
  m.filter (fun kv => kv.1 ≠ "states" ∧ kv.1 ≠ "state" ∧ kv.1 ≠ "shape")

/-- JS truthiness of a property value; an absent key (`none`) is falsy. -/
def truthy : Option Val → Bool
  | none => false
  | some (Val.scalar (Scalar.int n)) => n ≠ 0
  | some (Val.scalar (Scalar.str s)) => s ≠ ""
  | some (Val.scalar (Scalar.bool b)) => b
  | some (Val.scalar Scalar.undef) => false
  | some (Val.list _) => true
  | some (Val.ref _) => true
  | some (Val.states _) => true

/-- `_.extend(existingCommand.options, c)`: writes every key of the second
map onto the first, in order (last write wins per property). -/
def extendProps (base : PropMap) : PropMap → PropMap
  | [] => base
  | (k, v) :: rest => extendProps (setP base k v) rest

/-! ## `Surface.prototype.processOptions` (surface.js:502)

The source deletes `options.more`, then iterates the remaining keys once
(underscore's `_.each` snapshots the key list, so the `more` key added
during the loop is not itself visited): an array value is `shift`ed into
the returned clone, the emptied array is deleted from `options`, and
`options.more = true` is set while some array still has elements.  Scalar
values are copied to the clone unchanged. -/

/-- One pass over the (already `more`-stripped) options: returns the
mutated options object, the clone that is transmitted, and whether the
`more` flag was raised.  `value.shift()` on an already-empty array yields
`undefined` and the emptied key is deleted. -/
def processKeys : PropMap → PropMap × PropMap × Bool
  | [] => ([], [], false)
  | (k, v) :: rest =>
    let (ro, rc, rm) := processKeys rest
    match v with
    | Val.list [] => (ro, (k, Val.scalar Scalar.undef) :: rc, rm)
    | Val.list [v0] => (ro, (k, Val.scalar v0) :: rc, rm)
    | Val.list (v0 :: v1 :: tl) =>
      ((k, Val.list (v1 :: tl)) :: ro, (k, Val.scalar v0) :: rc, true)
    | v => ((k, v) :: ro, (k, v) :: rc, rm)

/-- `processOptions(options)`: returns the mutated retained options (with
the `more` flag appended as a fresh key when raised, exactly as the JS
`options.more = true` assignment appends a new key) and the transmitted
clone. -/
def processOptions (options : PropMap) : PropMap × PropMap :=
  let (o, c, m) := processKeys (delP options "more")
  (if m then o ++ [("more", Val.scalar (Scalar.bool true))] else o, c)

/-! ### Specification-level characterization of `processKeys` -/

/-- What one tick transmits for a single value: the head of an array as a
scalar (`undefined` for an already-empty array), scalars unchanged. -/
def cloneVal : Val → Val
  | Val.list [] => Val.scalar Scalar.undef
  | Val.list (v0 :: _) => Val.scalar v0
  | v => v

/-- What one tick retains for a single value: an array loses its head and
is deleted when that empties it, other values survive unchanged. -/
def shiftVal : Val → Option Val
  | Val.list [] => none
  | Val.list [_] => none
  | Val.list (_ :: v1 :: tl) => some (Val.list (v1 :: tl))
  | v => some v

/-- The options object after one tick, before the `more` flag is appended. -/
def shiftPayload (m : PropMap) : PropMap :=
  m.filterMap (fun kv => (shiftVal kv.2).map (fun v => (kv.1, v)))

/-- The transmitted clone of one tick. -/
def clonePayload (m : PropMap) : PropMap :=
  m.map (fun kv => (kv.1, cloneVal kv.2))

/-- `more` is raised exactly when some array still holds an element after
its head is consumed. -/
def morePayload (m : PropMap) : Bool :=
  m.any (fun kv =>
    match kv.2 with
    | Val.list (_ :: _ :: _) => true
    | _ => false)

/-! ## Draining a payload tick by tick

`WorkerApp.prototype.pause` sends the first tick of every update command;
`WorkerApp.prototype.pauseOrContinue` re-invokes `processOptions` on a
retained command while its options carry a truthy `more` flag
(worker_core.js:235).  `drainTicks` is that loop for a single payload: it
returns the list of transmitted clones and the final retained payload. -/

def drainTicks : Nat → PropMap → List PropMap × PropMap
  | 0, opts => ([], opts)
  | fuel + 1, opts =>
    let oc := processOptions opts
    if truthy (getP oc.1 "more") then
      let tf := drainTicks fuel oc.1
      (oc.2 :: tf.1, tf.2)
    else ([oc.2], oc.1)

/-- Keys of a property map, in order. -/
def keysOf (m : PropMap) : List String := m.map (·.1)

/-- Entries of the payload that are not sequence (array) valued. -/
def scalarEntries (m : PropMap) : PropMap :=
  m.filter (fun kv => match kv.2 with | Val.list _ => false | _ => true)

/-! ## Commands (`Surface.prototype.addCommand`, surface.js:273) -/

/-- The two command kinds the worker sends to the DOM:
`Surface.UPDATE_COMMAND = 'updateElement'` and
`Surface.DESTROY_COMMAND = 'destroyElement'`. -/
inductive CmdName
  | update
  | destroy
deriving DecidableEq, Repr

/-- A buffered command: `{name, options}` as pushed by `addCommand`. -/
structure Command where
  name : CmdName
  options : PropMap
deriving DecidableEq, Repr

/-- `'algoid-' + n`: the id string assigned at element construction. -/
def idStr (n : Nat) : String := "algoid-" ++ toString n

/-- The cloned, blacklist-stripped options of a command: reserved keys
removed, a truthy `parent` replaced by the parent's id (a non-element
truthy `parent` has no `.id` and serializes to `undefined`), and the
element's own id added under `id`. -/
def mkCommandOptions (elemId : Nat) (options : PropMap) : PropMap :=
  let c := omitReserved options
  let c :=
    match getP options "parent" with
    | some (Val.ref pid) => setP c "parent" (Val.scalar (Scalar.str (idStr pid)))
    | some v => if truthy (some v) then setP c "parent" (Val.scalar Scalar.undef) else c
    | none => c
  setP c "id" (Val.scalar (Scalar.str (idStr elemId)))

/-- The `UPDATE_COMMAND` path of `addCommand`: `_.find` the first pending
update command with the same `options.id` and `_.extend` it, otherwise push
a new command at the end of the buffer. -/
def mergeUpdate : List Command → PropMap → List Command
  | [], c => [⟨CmdName.update, c⟩]
  | cmd :: rest, c =>
    if cmd.name = CmdName.update ∧ getP cmd.options "id" = getP c "id" then
      ⟨CmdName.update, extendProps cmd.options c⟩ :: rest
    else cmd :: mergeUpdate rest c

/-! ## Elements and the surface state -/

/-- Error outcomes of JS code paths that throw. -/
inductive Err
  | fuel
  | doubleDestroy (id : Nat)
  | unregisteredState
  | typeError
  | noRoot
  | unknownKind (k : String)
  | missingFrame
  | missingElement
deriving DecidableEq, Repr

/-- One `algo.render.Element`: its own property bag (the `this[key] = value`
writes of `set`), its display-state table, the parent back-reference, the
ordered child id list (`children.elements`), and the terminal `destroyed`
flag (which also stands for deletion from `algo.render.Element.map`). -/
structure Element where
  props : PropMap
  states : List (String × StateProps)
  parent : Option Nat
  children : List Nat
  destroyed : Bool
deriving DecidableEq, Repr

/-- The static element class state: `Element.nextID` and `Element.map`
(elements are keyed by their numeric id; the list also retains destroyed
elements, standing for JS objects that are still referenced after their
map entry was deleted). -/
structure Registry where
  nextID : Nat
  elems : List (Nat × Element)
deriving DecidableEq, Repr

/-- The `algo.render.Surface` singleton together with the element class
state it operates on. `commands` is the worker-side command buffer;
`rootId` is `this.root`/`algo.ROOT`. -/
structure Surface where
  isDOM : Bool
  reg : Registry
  commands : List Command
  rootId : Option Nat
deriving DecidableEq, Repr

/-- Direct object access to an element by id (the JS object itself, whether
or not it is still in the map). -/
def lookupElem (s : Surface) (id : Nat) : Option Element :=
  (s.reg.elems.find? (fun p => p.1 = id)).map (·.2)

/-- Rewrite the registry entry of one element. -/
def updateElem (s : Surface) (id : Nat) (f : Element → Element) : Surface :=
  { s with reg := { s.reg with
      elems := s.reg.elems.map (fun p => if p.1 = id then (p.1, f p.2) else p) } }

/-- `algo.render.Element.findElement(id)` (element.js:298): map lookup by id
string; destroyed elements were deleted from the map. -/
def findElement (s : Surface) (idv : String) : Option Nat :=
  (s.reg.elems.find? (fun p => ¬p.2.destroyed ∧ idStr p.1 = idv)).map (·.1)

/-- `Element.prototype.addChild` (element.js:704): add to the duplicate-free
child group and set the parent back-reference. -/
def addChild (s : Surface) (parentId childId : Nat) : Surface :=
  let s := updateElem s parentId (fun e =>
    if childId ∈ e.children then e else { e with children := e.children ++ [childId] })
  updateElem s childId (fun e => { e with parent := some parentId })

/-- `Element.prototype.removeChild` (element.js:720). -/
def removeChild (s : Surface) (parentId childId : Nat) : Surface :=
  let s := updateElem s parentId (fun e => { e with children := e.children.erase childId })
  updateElem s childId (fun e => { e with parent := none })

/-- In-place update of a display-state table entry, appending new names. -/
def setStateEntry : List (String × StateProps) → String → StateProps →
    List (String × StateProps)
  | [], n, p => [(n, p)]
  | (n', p') :: rest, n, p =>
    if n' = n then (n', p) :: rest else (n', p') :: setStateEntry rest n p

/-- `Element.prototype.addStates` (element.js:487): later registrations for
the same name overwrite the property subset. -/
def addStatesList (cur : List (String × StateProps)) :
    List (String × StateProps) → List (String × StateProps)
  | [] => cur
  | (n, p) :: rest => addStatesList (setStateEntry cur n p) rest

/-- Look a display state up by name. -/
def lookupState (sts : List (String × StateProps)) (name : String) :
    Option StateProps :=
  (sts.find? (fun p => p.1 = name)).map (·.2)

/-- A state's scalar property subset as a `set` argument. -/
def liftStateProps (props : StateProps) : PropMap :=
  props.map (fun kv => (kv.1, Val.scalar kv.2))

/-- `Surface.prototype.addCommand` (surface.js:273): ignored on the DOM
side; update commands merge into an existing pending update for the same
target, destroy commands are appended. -/
def addCommand (s : Surface) (name : CmdName) (elemId : Nat) (options : PropMap) :
    Surface :=
  if s.isDOM then s
  else
    let c := mkCommandOptions elemId options
    match name with
    | CmdName.update => { s with commands := mergeUpdate s.commands c }
    | CmdName.destroy => { s with commands := s.commands ++ [⟨CmdName.destroy, c⟩] }

/-- `Surface.prototype.elementUpdated` (surface.js:258). -/
def elementUpdated (s : Surface) (elemId : Nat) (options : PropMap) : Surface :=
  addCommand s CmdName.update elemId options

/-- `Surface.prototype.elementDestroyed` (surface.js:245). -/
def elementDestroyed (s : Surface) (elemId : Nat) : Surface :=
  addCommand s CmdName.destroy elemId []

/-- One `properties[key].push(value)` of the `setState` array branch:
appends to the existing array of that key (in place), creating the entry
at the end when absent. -/
def pushAcc (acc : List (String × List Scalar)) (k : String) (v : Scalar) :
    List (String × List Scalar) :=
  match acc with
  | [] => [(k, [v])]
  | (k', l) :: rest =>
    if k' = k then (k', l ++ [v]) :: rest else (k', l) :: pushAcc rest k v

/-- Fold one state's property subset into the accumulated
property-to-array map. -/
def accState (acc : List (String × List Scalar)) :
    StateProps → List (String × List Scalar)
  | [] => acc
  | (k, v) :: rest => accState (pushAcc acc k v) rest

/-! ## `Element.prototype.set` (element.js:370)

The recursion through `state` keys (`set` → `setState` → `set`) and through
`depth` is bounded by the explicit fuel; every function of the mutual block
consumes one unit of fuel per step, so more fuel never changes a non-`fuel`
outcome, it only lets deeper recursions finish. -/

mutual

/-- `set(options, depth)`: apply every entry of `options` (counting
changes), notify `elementUpdated` when anything changed, auto-attach a
parentless non-root element to the surface root, then recurse into the
children while `depth` is truthy. -/
def setM (fuel : Nat) (s : Surface) (elId : Nat) (options : PropMap)
    (depth : Nat) : Except Err Surface :=
  match fuel with
  | 0 => .error Err.fuel
  | fuel + 1 =>
    match lookupElem s elId with
    | none => .error Err.missingElement
    | some _ => do
      let sc ← setLoop fuel s elId options
      -- create update command, but apply only if there were changes
      let s1 := if sc.2 ≠ 0 then elementUpdated sc.1 elId options else sc.1
      -- if we have no parent AND no parent was specified AND this is not
      -- the root element then append to the root
      let s2 ←
        if ((lookupElem s1 elId).bind (·.parent)) = none ∧
            truthy (getP options "parent") = false ∧
            truthy (getP options "root") = false ∧ elId ≠ 0 then
          match s1.rootId with
          | none => .error Err.noRoot
          | some r => pure (addChild s1 r elId)
        else pure s1
      -- apply properties to children if depth is truthy
      if depth = 0 then pure s2
      else
        setChildren fuel s2 (((lookupElem s2 elId).map (·.children)).getD [])
          options (depth - 1)
termination_by structural fuel

/-- The `_.each` over `this.children.elements` at the end of `set`. -/
def setChildren (fuel : Nat) (s : Surface) (cs : List Nat) (options : PropMap)
    (depth : Nat) : Except Err Surface :=
  match fuel with
  | 0 => .error Err.fuel
  | fuel + 1 =>
    match cs with
    | [] => .ok s
    | c :: rest => do
      let s' ← setM fuel s c options depth
      setChildren fuel s' rest options depth
termination_by structural fuel

/-- The `_.each(options, ...)` switch of `set`: processes the entries in
order, returning the updated surface and the change count.  The reserved
keys: `parent` reparents (one change), `states` registers state
definitions (no change; `_.each` over a non-collection value iterates
nothing), `state` applies display states via `setState` (one change),
`shape` delegates to `fromShape` (one change; the base-class `fromShape`
writes nothing).  Any other key is a plain write that only counts when the
value differs from the current one. -/
def setLoop (fuel : Nat) (s : Surface) (elId : Nat) (options : PropMap) :
    Except Err (Surface × Nat) :=
  match fuel with
  | 0 => .error Err.fuel
  | fuel + 1 =>
    match options with
    | [] => .ok (s, 0)
    | (k, v) :: rest =>
      if k = "parent" then
        match v with
        | Val.ref pid => do
          let s1 :=
            match (lookupElem s elId).bind (·.parent) with
            | some oldp => removeChild s oldp elId
            | none => s
          let s2 := addChild s1 pid elId
          let sc ← setLoop fuel s2 elId rest
          .ok (sc.1, sc.2 + 1)
        | _ => .error Err.typeError
      else if k = "states" then
        match v with
        | Val.states defs =>
          let s1 := updateElem s elId
            (fun e => { e with states := addStatesList e.states defs })
          setLoop fuel s1 elId rest
        | _ => setLoop fuel s elId rest
      else if k = "state" then do
        let s1 ← setStateM fuel s elId v
        let sc ← setLoop fuel s1 elId rest
        .ok (sc.1, sc.2 + 1)
      else if k = "shape" then do
        let sc ← setLoop fuel s elId rest
        .ok (sc.1, sc.2 + 1)
      else
        match lookupElem s elId with
        | none => .error Err.missingElement
        | some e =>
          if getP e.props k = some v then setLoop fuel s elId rest
          else do
            let s1 := updateElem s elId (fun e => { e with props := setP e.props k v })
            let sc ← setLoop fuel s1 elId rest
            .ok (sc.1, sc.2 + 1)
termination_by structural fuel

/-- `Element.prototype.setState` (element.js:200): a single registered name
applies that state's property subset via `set`; an array of names
accumulates, name by name, a property-to-array-of-values map and calls
`set` with it after each name (the `this.set(properties)` call sits inside
the loop in the source); anything else is an unregistered state. -/
def setStateM (fuel : Nat) (s : Surface) (elId : Nat) (v : Val) :
    Except Err Surface :=
  match fuel with
  | 0 => .error Err.fuel
  | fuel + 1 =>
    match v with
    | Val.list names => setStateGo fuel s elId [] names
    | Val.scalar (Scalar.str name) =>
      match lookupElem s elId with
      | none => .error Err.missingElement
      | some e =>
        match lookupState e.states name with
        | some props => setM fuel s elId (liftStateProps props) 0
        | none => .error Err.unregisteredState
    | _ => .error Err.unregisteredState
termination_by structural fuel

/-- The array branch of `setState`: `acc` is the accumulated
property-to-array map (`properties` in the source). -/
def setStateGo (fuel : Nat) (s : Surface) (elId : Nat)
    (acc : List (String × List Scalar)) (names : List Scalar) :
    Except Err Surface :=
  match fuel with
  | 0 => .error Err.fuel
  | fuel + 1 =>
    match names with
    | [] => .ok s
    | n :: rest =>
      match n with
      | Scalar.str name =>
        match lookupElem s elId with
        | none => .error Err.missingElement
        | some e =>
          match lookupState e.states name with
          | none => .error Err.unregisteredState
          | some props =>
            let acc1 := accState acc props
            do
              let s1 ← setM fuel s elId
                (acc1.map (fun kp => (kp.1, Val.list kp.2))) 0
              setStateGo fuel s1 elId acc1 rest
      | _ => .error Err.unregisteredState
termination_by structural fuel

end

/-! ## `Element.prototype.destroy` (element.js:732) -/

mutual

/-- `destroy()`: refuse a second destroy, destroy the children first
(leaves before the subtree root), detach from the parent, record a destroy
command, then delete the map entry (re-checking it still exists, as the
source does) and flag the element. -/
def destroyM (fuel : Nat) (s : Surface) (elId : Nat) : Except Err Surface :=
  match fuel with
  | 0 => .error Err.fuel
  | fuel + 1 =>
    match lookupElem s elId with
    | none => .error Err.missingElement
    | some e =>
      if e.destroyed then .error (Err.doubleDestroy elId)
      else do
        -- destroy children first, iterating a `_.toArray` snapshot
        let s1 ← destroyChildren fuel s e.children
        -- `this.elements.length = 0` at the end of ElementGroup.destroy
        let s1 := updateElem s1 elId (fun e => { e with children := [] })
        -- now, ourselves: remove from parent
        let s2 :=
          match (lookupElem s1 elId).bind (·.parent) with
          | some p => removeChild s1 p elId
          | none => s1
        -- tell surface we have been removed
        let s3 := elementDestroyed s2 elId
        -- remove from element map ("Missing Element" if already gone)
        match lookupElem s3 elId with
        | none => .error Err.missingElement
        | some e3 =>
          if e3.destroyed then .error Err.missingElement
          else .ok (updateElem s3 elId (fun e => { e with destroyed := true }))
termination_by structural fuel

/-- `ElementGroup.prototype.destroy` (element.js:1551): destroy every
member of a snapshot of the group. -/
def destroyChildren (fuel : Nat) (s : Surface) (cs : List Nat) :
    Except Err Surface :=
  match fuel with
  | 0 => .error Err.fuel
  | fuel + 1 =>
    match cs with
    | [] => .ok s
    | c :: rest => do
      let s' ← destroyM fuel s c
      destroyChildren fuel s' rest
termination_by structural fuel

end

/-! ## Element construction (element.js:46) -/

/-- `algo.core.hasAny(options, ...)`: `_.has` on each listed key. -/
def hasAnyKey (m : PropMap) (ks : List String) : Bool :=
  ks.any (fun k => (getP m k).isSome)

/-- `_.defaults(m, d)`: fills in keys that are absent or `undefined`,
appending new keys in order. -/
def defaultsP (m : PropMap) : PropMap → PropMap
  | [] => m
  | (k, v) :: rest =>
    defaultsP
      (match getP m k with
       | none => m ++ [(k, v)]
       | some (Val.scalar Scalar.undef) => setP m k v
       | some _ => m) rest

/-- The built-in display states every element receives (element.js:82). -/
def defaultStates : List (String × StateProps) :=
  [("ks_normal", [("fill", Scalar.str "iWHITE"), ("stroke", Scalar.str "iBLUE"),
     ("pen", Scalar.str "iBLUE")]),
   ("ks_faded", [("fill", Scalar.str "iWHITE"), ("stroke", Scalar.str "iGRAY"),
     ("pen", Scalar.str "iGRAY")]),
   ("ks_blue", [("fill", Scalar.str "iBLUE"), ("stroke", Scalar.str "iBLUE"),
     ("pen", Scalar.str "iWHITE")]),
   ("ks_gray", [("fill", Scalar.str "iGRAY"), ("stroke", Scalar.str "iGRAY"),
     ("pen", Scalar.str "iWHITE")]),
   ("ks_orange", [("fill", Scalar.str "iORANGE"), ("stroke", Scalar.str "iORANGE"),
     ("pen", Scalar.str "iWHITE")]),
   ("ks_red", [("fill", Scalar.str "iRED"), ("stroke", Scalar.str "iRED"),
     ("pen", Scalar.str "iWHITE")]),
   ("ks_green", [("fill", Scalar.str "iGREEN"), ("stroke", Scalar.str "iGREEN"),
     ("pen", Scalar.str "iWHITE")]),
   ("ks_cyan", [("fill", Scalar.str "iCYAN"), ("stroke", Scalar.str "iCYAN"),
     ("pen", Scalar.str "iWHITE")])]

/-- The `algo.render.Element` constructor, preceded by the per-kind
defaults of `Rectangle` (element.js:826) / `Circle` (element.js:1053):
apply option defaults, fall back to the normal display state when no
styling option was given, default `x`/`y` to zero unless truthy or set via
a shape, assign the next id, register in the map, seed the built-in
states, and apply the options via `set`.  `Line`, `Arrow` and `LetterTile`
are not embedded. -/
def elementCtor (fuel : Nat) (s : Surface) (kind : String) (opts0 : PropMap) :
    Except Err (Surface × Nat) := do
  let opts1 ←
    if kind = "Rectangle" then
      pure (defaultsP opts0 [("type", Val.scalar (Scalar.str "Rectangle")),
        ("cornerRadius", Val.scalar (Scalar.int 0))])
    else if kind = "Circle" then
      pure (defaultsP opts0 [("type", Val.scalar (Scalar.str "Circle"))])
    else if kind = "Element" then
      pure opts0
    else .error (Err.unknownKind kind)
  let opts2 := defaultsP opts1 [("type", Val.scalar (Scalar.str "Element")),
    ("strokeWidth", Val.scalar (Scalar.int 1)),
    ("fontSize", Val.scalar (Scalar.str "40px")),
    ("rotation", Val.scalar (Scalar.int 0))]
  let opts3 :=
    if hasAnyKey opts2 ["state", "stroke", "fill", "pen"] then opts2
    else opts2 ++ [("state", Val.scalar (Scalar.str "ks_normal"))]
  let opts4 :=
    if truthy (getP opts3 "x") = false ∧ truthy (getP opts3 "shape") = false then
      setP opts3 "x" (Val.scalar (Scalar.int 0))
    else opts3
  let opts5 :=
    if truthy (getP opts4 "y") = false ∧ truthy (getP opts4 "shape") = false then
      setP opts4 "y" (Val.scalar (Scalar.int 0))
    else opts4
  let newId := s.reg.nextID
  let newElem : Element := ⟨[], addStatesList [] defaultStates, none, [], false⟩
  let s1 : Surface := { s with reg := ⟨newId + 1, s.reg.elems ++ [(newId, newElem)]⟩ }
  let s2 ← setM fuel s1 newId opts5 0
  .ok (s2, newId)

/-! ## Worker-side surface and app (worker_core.js) -/

/-- A fresh surface with an empty element class
(`algo.render.Element.resetClass`). -/
def initialSurface (isDOM : Bool) : Surface :=
  { isDOM := isDOM, reg := { nextID := 0, elems := [] }, commands := [],
    rootId := none }

/-- Worker-side `new algo.render.Surface({location: WORKER, bounds})`
(surface.js:48, constructed in worker_core.js:105 with bounds
`0,0,900,556`): reset the element class and construct the root rectangle;
the surface's `root` is assigned once the constructor returns. -/
def initWorkerSurface (fuel : Nat) : Except Err Surface := do
  let sr ← elementCtor fuel (initialSurface false) "Rectangle"
    [("root", Val.scalar (Scalar.bool true)),
     ("visible", Val.scalar (Scalar.bool false)),
     ("x", Val.scalar (Scalar.int 0)), ("y", Val.scalar (Scalar.int 0)),
     ("w", Val.scalar (Scalar.int 900)), ("h", Val.scalar (Scalar.int 556)),
     ("strokeWidth", Val.scalar (Scalar.int 0))]
  .ok { sr.1 with rootId := some sr.2 }

/-- `Surface.prototype.flushCommands` (surface.js:330). -/
def flushCommands (s : Surface) : Surface × List Command :=
  ({ s with commands := [] }, s.commands)

/-- The `WorkerApp` fields the tick protocol uses. -/
structure WorkerApp where
  surface : Surface
  currentCommands : List Command
deriving DecidableEq, Repr

/-- `WorkerApp.prototype.pause` (worker_core.js:190): flush the buffer into
`currentCommands`, convert every update command's options through
`processOptions` (mutating the retained command), and transmit the clones. -/
def workerPause (w : WorkerApp) : WorkerApp × List Command :=
  let fc := flushCommands w.surface
  let pairs := fc.2.map (fun cmd =>
    if cmd.name = CmdName.update then
      let oc := processOptions cmd.options
      ((⟨CmdName.update, oc.1⟩ : Command), (⟨CmdName.update, oc.2⟩ : Command))
    else (cmd, cmd))
  ({ surface := fc.1, currentCommands := pairs.map (·.1) }, pairs.map (·.2))

/-- `WorkerApp.prototype.pauseOrContinue` (worker_core.js:235): re-process
every retained update command whose options carry a truthy `more` flag;
transmit them if any remain, otherwise resume the algorithm (`none`). -/
def pauseOrContinue (w : WorkerApp) : WorkerApp × Option (List Command) :=
  let pairs := w.currentCommands.map (fun cmd =>
    if cmd.name = CmdName.update ∧ truthy (getP cmd.options "more") then
      let oc := processOptions cmd.options
      ((⟨CmdName.update, oc.1⟩ : Command), some (⟨CmdName.update, oc.2⟩ : Command))
    else (cmd, none))
  let active := pairs.filterMap (·.2)
  ({ w with currentCommands := pairs.map (·.1) },
   if active.isEmpty then none else some active)

/-! ## DOM-side command execution and history replay (surface.js) -/

/-- `Surface.prototype.handleDestroyCommand` (surface.js:539):
`findElement(options.id).destroy()`; an unknown id is a fatal error. -/
def handleDestroyCommand (fuel : Nat) (s : Surface) (options : PropMap) :
    Except Err Surface :=
  match getP options "id" with
  | some (Val.scalar (Scalar.str idv)) =>
    match findElement s idv with
    | some elId => destroyM fuel s elId
    | none => .error Err.missingElement
  | _ => .error Err.missingElement

/-- `Surface.prototype.handleUpdateCommand` (surface.js:474): construct the
element by type name when the id is unknown (assigning `this.root` when the
payload carries the root marker), then apply the payload via `set`. -/
def handleUpdateCommand (fuel : Nat) (s : Surface) (options : PropMap) :
    Except Err Surface := do
  let target :=
    match getP options "id" with
    | some (Val.scalar (Scalar.str idv)) => findElement s idv
    | _ => none
  match target with
  | some elId => setM fuel s elId options 0
  | none =>
    let kind ←
      match getP options "type" with
      | some (Val.scalar (Scalar.str t)) => pure t
      | _ => .error (Err.unknownKind "")
    let sn ← elementCtor fuel s kind options
    let s1 := if truthy (getP options "root") then { sn.1 with rootId := some sn.2 }
      else sn.1
    setM fuel s1 sn.2 options 0

/-- The parent fixup of `playHistory` (surface.js:425): a truthy serialized
parent id is replaced by the live element reference (an unknown or
non-string id yields `undefined`). -/
def fixParent (s : Surface) (params : PropMap) : PropMap :=
  match getP params "parent" with
  | some v =>
    if truthy (some v) then
      match v with
      | Val.scalar (Scalar.str pidv) =>
        match findElement s pidv with
        | some pid => setP params "parent" (Val.ref pid)
        | none => setP params "parent" (Val.scalar Scalar.undef)
      | _ => setP params "parent" (Val.scalar Scalar.undef)
    else params
  | none => params

/-- Dispatch one replayed command through `commandHandlers`. -/
def playCommand (fuel : Nat) (s : Surface) (cmd : Command) : Except Err Surface :=
  let params := fixParent s cmd.options
  match cmd.name with
  | CmdName.update => handleUpdateCommand fuel s params
  | CmdName.destroy => handleDestroyCommand fuel s params

/-- One recorded frame: the `renderCommands` of one transmitted message. -/
abbrev Frame := List Command

/-- The commands of one frame, applied in order. -/
def playFrame (fuel : Nat) (s : Surface) (f : Frame) : Except Err Surface :=
  f.foldlM (fun s c => playCommand fuel s c) s

/-- `Surface.prototype.playHistory` (surface.js:413): play frames
`[start, fin)` in order (`update`/`validate` are DOM rendering and
diagnostics with no effect on the registry). -/
def playHistory (fuel : Nat) (s : Surface) (h : List Frame) (start fin : Nat) :
    Except Err Surface :=
  (List.range' start (fin - start)).foldlM
    (fun s i =>
      match h.get? i with
      | some f => playFrame fuel s f
      | none => .error Err.missingFrame) s

/-- `Surface.prototype.resetElements` (surface.js:397) together with
`empty`: reset the element class and drop the root. -/
def resetElements (s : Surface) : Surface :=
  { s with reg := { nextID := 0, elems := [] }, rootId := none }

/-- The surface together with its replay cursor `this.historyFrame`
(`-1` = none); only `executeCommandHistory` reads or writes the cursor, so
it is carried alongside the surface state. -/
structure HistorySurface where
  surf : Surface
  historyFrame : Int
deriving DecidableEq, Repr

/-- `Surface.prototype.executeCommandHistory` (surface.js:374): play
forward from the present when seeking forward, otherwise rebuild from the
beginning; then move the cursor. -/
def executeCommandHistory (fuel : Nat) (hs : HistorySurface) (h : List Frame)
    (frameIndex : Nat) : Except Err HistorySurface := do
  let s' ←
    if hs.historyFrame = -1 ∨ (frameIndex : Int) < hs.historyFrame then
      playHistory fuel (resetElements hs.surf) h 0 frameIndex
    else
      playHistory fuel hs.surf h hs.historyFrame.toNat frameIndex
  .ok ⟨s', (frameIndex : Int)⟩

/-- A fresh DOM-side surface in history mode
(`Surface.enterHistoryMode`, surface.js:163: a new surface whose
`historyFrame` is `-1`; the root is only materialized by the first replayed
root command). -/
def domHistorySurface : HistorySurface := ⟨initialSurface true, -1⟩

/-! ## `algo.core.Array.prototype.updateElements` (core.js) -/

/-- A JS number as it occurs in the `updateElements` loop counter:
`undefined` (the hoisted uninitialized `var index`), `NaN`
(`undefined + 1`), or an actual number. -/
inductive JSNum
  | undef
  | nan
  | num (n : Int)
deriving DecidableEq, Repr

/-- JS addition of 1: `undefined + 1` and `NaN + 1` are `NaN`. -/
def jsAddOne : JSNum → JSNum
  | JSNum.num n => JSNum.num (n + 1)
  | _ => JSNum.nan

/-- JS `<` against a number: every comparison involving `NaN` (or
`undefined`, which coerces to `NaN`) is false. -/
def jsLtNum : JSNum → Int → Bool
  | JSNum.num a, b => a < b
  | _, _ => false

/-- The loop of `updateElements`:
`for (var index = index + 1; index < this.a.length; index += 1)`, returning
the visited indices. -/
def updateElementsLoop (fuel : Nat) (i : JSNum) (len : Int) : List JSNum :=
  match fuel with
  | 0 => []
  | f + 1 =>
    if jsLtNum i len then i :: updateElementsLoop f (jsAddOne i) len else []

/-- `updateElements` visits the loop body once per index in
`updateElementsVisited`; `var index` is hoisted and uninitialized, so the
loop counter starts at `undefined + 1`. -/
def updateElementsVisited (fuel : Nat) (len : Int) : List JSNum :=
  updateElementsLoop fuel (jsAddOne JSNum.undef) len

/-- One item of an `algo.core.Array`: `{value, element}`. -/
structure CoreArrayItem where
  value : Scalar
  element : Option Nat
deriving DecidableEq, Repr

/-- Callback invocations an `algo.core.Array` mutation performs. -/
inductive ArrayEvent
  | createElement (value : Scalar) (index : Nat)
  | updateElement (index : JSNum)
  | destroyElement (element : Nat)
deriving DecidableEq, Repr

/-- `algo.core.Array.prototype.insertAt` (core.js): validate the index,
splice in `{value, element: invoke('createElement', value, index)}`, then
call `updateElements`.  Returns the new backing array and the callback
invocations, `none` for an invalid index. -/
def coreArrayInsertAt (fuel : Nat) (a : List CoreArrayItem) (value : Scalar)
    (index : Nat) (newElement : Option Nat) :
    Option (List CoreArrayItem × List ArrayEvent) :=
  if index > a.length then none
  else
    let a' := a.take index ++ [⟨value, newElement⟩] ++ a.drop index
    some (a',
      [ArrayEvent.createElement value index] ++
        (updateElementsVisited fuel (Int.ofNat a'.length)).map
          (fun i => ArrayEvent.updateElement i))

/-- `algo.core.Array.prototype.removeAt` (core.js): validate, splice the
item out, `destroyElement` its element if present, then `updateElements`. -/
def coreArrayRemoveAt (fuel : Nat) (a : List CoreArrayItem) (index : Nat) :
    Option (List CoreArrayItem × List ArrayEvent) :=
  if index ≥ a.length then none
  else
    match a.get? index with
    | none => none
    | some item =>
      let a' := a.take index ++ a.drop (index + 1)
      some (a',
        (match item.element with
         | some e => [ArrayEvent.destroyElement e]
         | none => []) ++
          (updateElementsVisited fuel (Int.ofNat a'.length)).map
            (fun i => ArrayEvent.updateElement i))

/-! ## Operations for stating registry invariants over runs -/

/-- A mutator-side operation. -/
inductive WorkerOp
  | create (kind : String) (opts : PropMap)
  | setOp (elId : Nat) (opts : PropMap) (depth : Nat)
  | setStateOp (elId : Nat) (v : Val)
  | destroyOp (elId : Nat)
deriving DecidableEq, Repr

/-- Run one mutator operation. -/
def runOp (fuel : Nat) (s : Surface) : WorkerOp → Except Err Surface
  | WorkerOp.create kind opts => (elementCtor fuel s kind opts).map (·.1)
  | WorkerOp.setOp elId opts depth => setM fuel s elId opts depth
  | WorkerOp.setStateOp elId v => setStateM fuel s elId v
  | WorkerOp.destroyOp elId => destroyM fuel s elId

/-- Run a list of mutator operations. -/
def runOps (fuel : Nat) (s : Surface) : List WorkerOp → Except Err Surface
  | [] => .ok s
  | op :: rest => do
    let s' ← runOp fuel s op
    runOps fuel s' rest

/-- Exactly one live element per registry, the root (id 0), is unparented. -/
def liveUnparentedIffRoot (s : Surface) : Prop :=
  ∀ id el, lookupElem s id = some el → el.destroyed = false →
    (el.parent = none ↔ id = 0)

/-- No registered display state writes a reserved key. -/
def cleanStateDefs (defs : List (String × StateProps)) : Prop :=
  ∀ d ∈ defs, ∀ p ∈ d.2,
    p.1 ≠ "parent" ∧ p.1 ≠ "root" ∧ p.1 ≠ "state" ∧ p.1 ≠ "states" ∧ p.1 ≠ "shape"

/-- Every element's state table is clean. -/
def cleanElementStates (s : Surface) : Prop :=
  ∀ id el, lookupElem s id = some el → cleanStateDefs el.states

/-- The root id is never in a child group. -/
def rootNotChild (s : Surface) : Prop :=
  ∀ id el, lookupElem s id = some el → 0 ∉ el.children

/-- Options a well-behaved mutator passes: no root marker and only clean
state definitions. -/
def optsOk (opts : PropMap) : Prop :=
  truthy (getP opts "root") = false ∧
  ∀ kv ∈ opts, ∀ defs, kv.2 = Val.states defs → cleanStateDefs defs

/-- The constraints under which the single-unparented-root invariant is
stated: no operation introduces a root marker or dirty states, and the
root is never explicitly reparented. -/
def wfOp : WorkerOp → Prop
  | WorkerOp.create _ opts => optsOk opts
  | WorkerOp.setOp elId opts _ => optsOk opts ∧ (elId = 0 → getP opts "parent" = none)
  | WorkerOp.setStateOp _ _ => True
  | WorkerOp.destroyOp _ => True

/-- The full invariant of a worker registry. -/
def registryInv (s : Surface) : Prop :=
  1 ≤ s.reg.nextID ∧ liveUnparentedIffRoot s ∧ cleanElementStates s ∧
    rootNotChild s

/-- The root entry (id 0) carries no parent reference. -/
def rootUnparented (s : Surface) : Prop :=
  ∀ el, lookupElem s 0 = some el → el.parent = none

/-- `liveUnparentedIffRoot` with one id exempted (the element a `set` is
currently working on, which may be transiently unparented). -/
def liveUX (s : Surface) (x : Nat) : Prop :=
  ∀ id el, lookupElem s id = some el → el.destroyed = false → id ≠ x →
    (el.parent = none ↔ id = 0)

/-- The element, when present, carries a parent reference. -/
def elParented (s : Surface) (x : Nat) : Prop :=
  ∀ el, lookupElem s x = some el → el.parent ≠ none

/-- The element, when present and not destroyed, carries a parent
reference. -/
def elSafe (s : Surface) (x : Nat) : Prop :=
  ∀ el, lookupElem s x = some el → el.destroyed = false →
    el.parent ≠ none

/-- A `parent` entry, when present, is an element reference (anything
else makes `set` throw). -/
def parentOk (opts : PropMap) : Prop :=
  getP opts "parent" = none ∨ ∃ pid, getP opts "parent" = some (Val.ref pid)

/-- Every `states` entry of the options registers only clean state
definitions. -/
def cleanOpts (opts : PropMap) : Prop :=
  ∀ kv ∈ opts, ∀ defs, kv.2 = Val.states defs → cleanStateDefs defs

/-- The parts of the registry invariant that are not about the
transiently-unparented working element. -/
def invCore (s : Surface) : Prop :=
  1 ≤ s.reg.nextID ∧ cleanElementStates s ∧ rootNotChild s ∧
    rootUnparented s

/-! ## Definitions used by the claim statements -/

/-- The number of pending update commands in a buffer whose `options.id`
equals the given value. -/
def countUpdates (cmds : List Command) (v : Option Val) : Nat :=
  (cmds.filter (fun cmd =>
    cmd.name = CmdName.update ∧ getP cmd.options "id" = v)).length

/-- Scalar lookup in a state's property subset. -/
def lookupScalar (stp : StateProps) (k : String) : Option Scalar :=
  (stp.find? (fun p => p.1 = k)).map (·.2)

/-- The sequence-valued write an array of state names denotes: for each
property key of the (common) key list `ks`, the ordered list of the values
the named states define for it — the `i`-th named state contributing
position `i`. -/
def stateSeqWrite (sts : List (String × StateProps)) (ks : List String)
    (names : List String) : PropMap :=
  ks.map (fun k => (k, Val.list (names.map (fun n =>
    ((lookupState sts n).bind (fun stp => lookupScalar stp k)).getD
      Scalar.undef))))

/-- C2 scenario fixture: construct the worker root, then a child rectangle
with `fill: [RED, BLUE]`. -/
def c2Setup : Except Err Surface := do
  let s0 ← initWorkerSurface 60
  let sr ← elementCtor 60 s0 "Rectangle"
    [("fill", Val.list [Scalar.str "RED", Scalar.str "BLUE"])]
  .ok sr.1

/-- C2 scenario: the state and first transmitted batch at the first
suspension point. -/
def c2Pause1 : WorkerApp × List Command :=
  match c2Setup with
  | Except.ok s => workerPause ⟨s, []⟩
  | Except.error _ => (⟨initialSurface false, []⟩, [])

/-- C2 scenario: the state and transmitted batch after the first
acknowledge. -/
def c2Ack1 : WorkerApp × Option (List Command) := pauseOrContinue c2Pause1.1

/-- C2 scenario: the result of the second acknowledge (`none` = the
mutator is resumed). -/
def c2Ack2 : WorkerApp × Option (List Command) := pauseOrContinue c2Ack1.1

/-- C5 scenario fixture: the worker root, a parent rectangle and two child
rectangles; returns the surface and the ids (parent, child1, child2). -/
def c5Setup : Except Err (Surface × Nat × Nat × Nat) := do
  let s0 ← initWorkerSurface 60
  let sp ← elementCtor 60 s0 "Rectangle" []
  let sa ← elementCtor 60 sp.1 "Rectangle" [("parent", Val.ref sp.2)]
  let sb ← elementCtor 60 sa.1 "Rectangle" [("parent", Val.ref sp.2)]
  .ok (sb.1, sp.2, sa.2, sb.2)

/-- The destroy command recorded for an element. -/
def destroyCmdFor (elemId : Nat) : Command :=
  ⟨CmdName.destroy, [("id", Val.scalar (Scalar.str (idStr elemId)))]⟩

deriving instance DecidableEq for Except

/-- Evaluated fixture: the worker surface right after `initWorkerSurface 60` (certified by `c2S0_spec`). -/
def c2S0 : Surface :=
  { isDOM := false,
    reg := { nextID := 1,
             elems := [(0,
                        { props := [("root", Val.scalar (Scalar.bool true)),
                                    ("visible", Val.scalar (Scalar.bool false)),
                                    ("x", Val.scalar (Scalar.int 0)),
                                    ("y", Val.scalar (Scalar.int 0)),
                                    ("w", Val.scalar (Scalar.int 900)),
                                    ("h", Val.scalar (Scalar.int 556)),
                                    ("strokeWidth", Val.scalar (Scalar.int 0)),
                                    ("type", Val.scalar (Scalar.str "Rectangle")),
                                    ("cornerRadius", Val.scalar (Scalar.int 0)),
                                    ("fontSize", Val.scalar (Scalar.str "40px")),
                                    ("rotation", Val.scalar (Scalar.int 0)),
                                    ("fill", Val.scalar (Scalar.str "iWHITE")),
                                    ("stroke", Val.scalar (Scalar.str "iBLUE")),
                                    ("pen", Val.scalar (Scalar.str "iBLUE"))],
                          states := [("ks_normal",
                                      [("fill", Scalar.str "iWHITE"),
                                       ("stroke", Scalar.str "iBLUE"),
                                       ("pen", Scalar.str "iBLUE")]),
                                     ("ks_faded",
                                      [("fill", Scalar.str "iWHITE"),
                                       ("stroke", Scalar.str "iGRAY"),
                                       ("pen", Scalar.str "iGRAY")]),
                                     ("ks_blue",
                                      [("fill", Scalar.str "iBLUE"),
                                       ("stroke", Scalar.str "iBLUE"),
                                       ("pen", Scalar.str "iWHITE")]),
                                     ("ks_gray",
                                      [("fill", Scalar.str "iGRAY"),
                                       ("stroke", Scalar.str "iGRAY"),
                                       ("pen", Scalar.str "iWHITE")]),
                                     ("ks_orange",
                                      [("fill", Scalar.str "iORANGE"),
                                       ("stroke", Scalar.str "iORANGE"),
                                       ("pen", Scalar.str "iWHITE")]),
                                     ("ks_red",
                                      [("fill", Scalar.str "iRED"),
                                       ("stroke", Scalar.str "iRED"),
                                       ("pen", Scalar.str "iWHITE")]),
                                     ("ks_green",
                                      [("fill", Scalar.str "iGREEN"),
                                       ("stroke", Scalar.str "iGREEN"),
                                       ("pen", Scalar.str "iWHITE")]),
                                     ("ks_cyan",
                                      [("fill", Scalar.str "iCYAN"),
                                       ("stroke", Scalar.str "iCYAN"),
                                       ("pen", Scalar.str "iWHITE")])],
                          parent := none,
                          children := [],
                          destroyed := false })] },
    commands := [{ name := CmdName.update,
                   options := [("fill", Val.scalar (Scalar.str "iWHITE")),
                               ("stroke", Val.scalar (Scalar.str "iBLUE")),
                               ("pen", Val.scalar (Scalar.str "iBLUE")),
                               ("id", Val.scalar (Scalar.str "algoid-0")),
                               ("root", Val.scalar (Scalar.bool true)),
                               ("visible", Val.scalar (Scalar.bool false)),
                               ("x", Val.scalar (Scalar.int 0)),
                               ("y", Val.scalar (Scalar.int 0)),
                               ("w", Val.scalar (Scalar.int 900)),
                               ("h", Val.scalar (Scalar.int 556)),
                               ("strokeWidth", Val.scalar (Scalar.int 0)),
                               ("type", Val.scalar (Scalar.str "Rectangle")),
                               ("cornerRadius", Val.scalar (Scalar.int 0)),
                               ("fontSize", Val.scalar (Scalar.str "40px")),
                               ("rotation", Val.scalar (Scalar.int 0))] }],
    rootId := some 0 }

/-- Evaluated fixture: `c2S0` after constructing the child rectangle with `fill: [RED, BLUE]` (certified by `c2S1_spec`). -/
def c2S1 : Surface :=
  { isDOM := false,
    reg := { nextID := 2,
             elems := [(0,
                        { props := [("root", Val.scalar (Scalar.bool true)),
                                    ("visible", Val.scalar (Scalar.bool false)),
                                    ("x", Val.scalar (Scalar.int 0)),
                                    ("y", Val.scalar (Scalar.int 0)),
                                    ("w", Val.scalar (Scalar.int 900)),
                                    ("h", Val.scalar (Scalar.int 556)),
                                    ("strokeWidth", Val.scalar (Scalar.int 0)),
                                    ("type", Val.scalar (Scalar.str "Rectangle")),
                                    ("cornerRadius", Val.scalar (Scalar.int 0)),
                                    ("fontSize", Val.scalar (Scalar.str "40px")),
                                    ("rotation", Val.scalar (Scalar.int 0)),
                                    ("fill", Val.scalar (Scalar.str "iWHITE")),
                                    ("stroke", Val.scalar (Scalar.str "iBLUE")),
                                    ("pen", Val.scalar (Scalar.str "iBLUE"))],
                          states := [("ks_normal",
                                      [("fill", Scalar.str "iWHITE"),
                                       ("stroke", Scalar.str "iBLUE"),
                                       ("pen", Scalar.str "iBLUE")]),
                                     ("ks_faded",
                                      [("fill", Scalar.str "iWHITE"),
                                       ("stroke", Scalar.str "iGRAY"),
                                       ("pen", Scalar.str "iGRAY")]),
                                     ("ks_blue",
                                      [("fill", Scalar.str "iBLUE"),
                                       ("stroke", Scalar.str "iBLUE"),
                                       ("pen", Scalar.str "iWHITE")]),
                                     ("ks_gray",
                                      [("fill", Scalar.str "iGRAY"),
                                       ("stroke", Scalar.str "iGRAY"),
                                       ("pen", Scalar.str "iWHITE")]),
                                     ("ks_orange",
                                      [("fill", Scalar.str "iORANGE"),
                                       ("stroke", Scalar.str "iORANGE"),
                                       ("pen", Scalar.str "iWHITE")]),
                                     ("ks_red",
                                      [("fill", Scalar.str "iRED"),
                                       ("stroke", Scalar.str "iRED"),
                                       ("pen", Scalar.str "iWHITE")]),
                                     ("ks_green",
                                      [("fill", Scalar.str "iGREEN"),
                                       ("stroke", Scalar.str "iGREEN"),
                                       ("pen", Scalar.str "iWHITE")]),
                                     ("ks_cyan",
                                      [("fill", Scalar.str "iCYAN"),
                                       ("stroke", Scalar.str "iCYAN"),
                                       ("pen", Scalar.str "iWHITE")])],
                          parent := none,
                          children := [1],
                          destroyed := false }),
                       (1,
                        { props := [("fill", Val.list [Scalar.str "RED", Scalar.str "BLUE"]),
                                    ("type", Val.scalar (Scalar.str "Rectangle")),
                                    ("cornerRadius", Val.scalar (Scalar.int 0)),
                                    ("strokeWidth", Val.scalar (Scalar.int 1)),
                                    ("fontSize", Val.scalar (Scalar.str "40px")),
                                    ("rotation", Val.scalar (Scalar.int 0)),
                                    ("x", Val.scalar (Scalar.int 0)),
                                    ("y", Val.scalar (Scalar.int 0))],
                          states := [("ks_normal",
                                      [("fill", Scalar.str "iWHITE"),
                                       ("stroke", Scalar.str "iBLUE"),
                                       ("pen", Scalar.str "iBLUE")]),
                                     ("ks_faded",
                                      [("fill", Scalar.str "iWHITE"),
                                       ("stroke", Scalar.str "iGRAY"),
                                       ("pen", Scalar.str "iGRAY")]),
                                     ("ks_blue",
                                      [("fill", Scalar.str "iBLUE"),
                                       ("stroke", Scalar.str "iBLUE"),
                                       ("pen", Scalar.str "iWHITE")]),
                                     ("ks_gray",
                                      [("fill", Scalar.str "iGRAY"),
                                       ("stroke", Scalar.str "iGRAY"),
                                       ("pen", Scalar.str "iWHITE")]),
                                     ("ks_orange",
                                      [("fill", Scalar.str "iORANGE"),
                                       ("stroke", Scalar.str "iORANGE"),
                                       ("pen", Scalar.str "iWHITE")]),
                                     ("ks_red",
                                      [("fill", Scalar.str "iRED"),
                                       ("stroke", Scalar.str "iRED"),
                                       ("pen", Scalar.str "iWHITE")]),
                                     ("ks_green",
                                      [("fill", Scalar.str "iGREEN"),
                                       ("stroke", Scalar.str "iGREEN"),
                                       ("pen", Scalar.str "iWHITE")]),
                                     ("ks_cyan",
                                      [("fill", Scalar.str "iCYAN"),
                                       ("stroke", Scalar.str "iCYAN"),
                                       ("pen", Scalar.str "iWHITE")])],
                          parent := some 0,
                          children := [],
                          destroyed := false })] },
    commands := [{ name := CmdName.update,
                   options := [("fill", Val.scalar (Scalar.str "iWHITE")),
                               ("stroke", Val.scalar (Scalar.str "iBLUE")),
                               ("pen", Val.scalar (Scalar.str "iBLUE")),
                               ("id", Val.scalar (Scalar.str "algoid-0")),
                               ("root", Val.scalar (Scalar.bool true)),
                               ("visible", Val.scalar (Scalar.bool false)),
                               ("x", Val.scalar (Scalar.int 0)),
                               ("y", Val.scalar (Scalar.int 0)),
                               ("w", Val.scalar (Scalar.int 900)),
                               ("h", Val.scalar (Scalar.int 556)),
                               ("strokeWidth", Val.scalar (Scalar.int 0)),
                               ("type", Val.scalar (Scalar.str "Rectangle")),
                               ("cornerRadius", Val.scalar (Scalar.int 0)),
                               ("fontSize", Val.scalar (Scalar.str "40px")),
                               ("rotation", Val.scalar (Scalar.int 0))] },
                 { name := CmdName.update,
                   options := [("fill", Val.list [Scalar.str "RED", Scalar.str "BLUE"]),
                               ("type", Val.scalar (Scalar.str "Rectangle")),
                               ("cornerRadius", Val.scalar (Scalar.int 0)),
                               ("strokeWidth", Val.scalar (Scalar.int 1)),
                               ("fontSize", Val.scalar (Scalar.str "40px")),
                               ("rotation", Val.scalar (Scalar.int 0)),
                               ("x", Val.scalar (Scalar.int 0)),
                               ("y", Val.scalar (Scalar.int 0)),
                               ("id", Val.scalar (Scalar.str "algoid-1"))] }],
    rootId := some 0 }

/-- Evaluated fixture: the worker app right after the first pause (certified by `c2Pause_spec`). -/
def c2W1 : WorkerApp :=
  { surface := { isDOM := false,
                 reg := { nextID := 2,
                          elems := [(0,
                                     { props := [("root", Val.scalar (Scalar.bool true)),
                                                 ("visible", Val.scalar (Scalar.bool false)),
                                                 ("x", Val.scalar (Scalar.int 0)),
                                                 ("y", Val.scalar (Scalar.int 0)),
                                                 ("w", Val.scalar (Scalar.int 900)),
                                                 ("h", Val.scalar (Scalar.int 556)),
                                                 ("strokeWidth", Val.scalar (Scalar.int 0)),
                                                 ("type", Val.scalar (Scalar.str "Rectangle")),
                                                 ("cornerRadius", Val.scalar (Scalar.int 0)),
                                                 ("fontSize", Val.scalar (Scalar.str "40px")),
                                                 ("rotation", Val.scalar (Scalar.int 0)),
                                                 ("fill", Val.scalar (Scalar.str "iWHITE")),
                                                 ("stroke", Val.scalar (Scalar.str "iBLUE")),
                                                 ("pen", Val.scalar (Scalar.str "iBLUE"))],
                                       states := [("ks_normal",
                                                   [("fill", Scalar.str "iWHITE"),
                                                    ("stroke", Scalar.str "iBLUE"),
                                                    ("pen", Scalar.str "iBLUE")]),
                                                  ("ks_faded",
                                                   [("fill", Scalar.str "iWHITE"),
                                                    ("stroke", Scalar.str "iGRAY"),
                                                    ("pen", Scalar.str "iGRAY")]),
                                                  ("ks_blue",
                                                   [("fill", Scalar.str "iBLUE"),
                                                    ("stroke", Scalar.str "iBLUE"),
                                                    ("pen", Scalar.str "iWHITE")]),
                                                  ("ks_gray",
                                                   [("fill", Scalar.str "iGRAY"),
                                                    ("stroke", Scalar.str "iGRAY"),
                                                    ("pen", Scalar.str "iWHITE")]),
                                                  ("ks_orange",
                                                   [("fill", Scalar.str "iORANGE"),
                                                    ("stroke", Scalar.str "iORANGE"),
                                                    ("pen", Scalar.str "iWHITE")]),
                                                  ("ks_red",
                                                   [("fill", Scalar.str "iRED"),
                                                    ("stroke", Scalar.str "iRED"),
                                                    ("pen", Scalar.str "iWHITE")]),
                                                  ("ks_green",
                                                   [("fill", Scalar.str "iGREEN"),
                                                    ("stroke", Scalar.str "iGREEN"),
                                                    ("pen", Scalar.str "iWHITE")]),
                                                  ("ks_cyan",
                                                   [("fill", Scalar.str "iCYAN"),
                                                    ("stroke", Scalar.str "iCYAN"),
                                                    ("pen", Scalar.str "iWHITE")])],
                                       parent := none,
                                       children := [1],
                                       destroyed := false }),
                                    (1,
                                     { props := [("fill", Val.list [Scalar.str "RED", Scalar.str "BLUE"]),
                                                 ("type", Val.scalar (Scalar.str "Rectangle")),
                                                 ("cornerRadius", Val.scalar (Scalar.int 0)),
                                                 ("strokeWidth", Val.scalar (Scalar.int 1)),
                                                 ("fontSize", Val.scalar (Scalar.str "40px")),
                                                 ("rotation", Val.scalar (Scalar.int 0)),
                                                 ("x", Val.scalar (Scalar.int 0)),
                                                 ("y", Val.scalar (Scalar.int 0))],
                                       states := [("ks_normal",
                                                   [("fill", Scalar.str "iWHITE"),
                                                    ("stroke", Scalar.str "iBLUE"),
                                                    ("pen", Scalar.str "iBLUE")]),
                                                  ("ks_faded",
                                                   [("fill", Scalar.str "iWHITE"),
                                                    ("stroke", Scalar.str "iGRAY"),
                                                    ("pen", Scalar.str "iGRAY")]),
                                                  ("ks_blue",
                                                   [("fill", Scalar.str "iBLUE"),
                                                    ("stroke", Scalar.str "iBLUE"),
                                                    ("pen", Scalar.str "iWHITE")]),
                                                  ("ks_gray",
                                                   [("fill", Scalar.str "iGRAY"),
                                                    ("stroke", Scalar.str "iGRAY"),
                                                    ("pen", Scalar.str "iWHITE")]),
                                                  ("ks_orange",
                                                   [("fill", Scalar.str "iORANGE"),
                                                    ("stroke", Scalar.str "iORANGE"),
                                                    ("pen", Scalar.str "iWHITE")]),
                                                  ("ks_red",
                                                   [("fill", Scalar.str "iRED"),
                                                    ("stroke", Scalar.str "iRED"),
                                                    ("pen", Scalar.str "iWHITE")]),
                                                  ("ks_green",
                                                   [("fill", Scalar.str "iGREEN"),
                                                    ("stroke", Scalar.str "iGREEN"),
                                                    ("pen", Scalar.str "iWHITE")]),
                                                  ("ks_cyan",
                                                   [("fill", Scalar.str "iCYAN"),
                                                    ("stroke", Scalar.str "iCYAN"),
                                                    ("pen", Scalar.str "iWHITE")])],
                                       parent := some 0,
                                       children := [],
                                       destroyed := false })] },
                 commands := [],
                 rootId := some 0 },
    currentCommands := [{ name := CmdName.update,
                          options := [("fill", Val.scalar (Scalar.str "iWHITE")),
                                      ("stroke", Val.scalar (Scalar.str "iBLUE")),
                                      ("pen", Val.scalar (Scalar.str "iBLUE")),
                                      ("id", Val.scalar (Scalar.str "algoid-0")),
                                      ("root", Val.scalar (Scalar.bool true)),
                                      ("visible", Val.scalar (Scalar.bool false)),
                                      ("x", Val.scalar (Scalar.int 0)),
                                      ("y", Val.scalar (Scalar.int 0)),
                                      ("w", Val.scalar (Scalar.int 900)),
                                      ("h", Val.scalar (Scalar.int 556)),
                                      ("strokeWidth", Val.scalar (Scalar.int 0)),
                                      ("type", Val.scalar (Scalar.str "Rectangle")),
                                      ("cornerRadius", Val.scalar (Scalar.int 0)),
                                      ("fontSize", Val.scalar (Scalar.str "40px")),
                                      ("rotation", Val.scalar (Scalar.int 0))] },
                        { name := CmdName.update,
                          options := [("fill", Val.list [Scalar.str "BLUE"]),
                                      ("type", Val.scalar (Scalar.str "Rectangle")),
                                      ("cornerRadius", Val.scalar (Scalar.int 0)),
                                      ("strokeWidth", Val.scalar (Scalar.int 1)),
                                      ("fontSize", Val.scalar (Scalar.str "40px")),
                                      ("rotation", Val.scalar (Scalar.int 0)),
                                      ("x", Val.scalar (Scalar.int 0)),
                                      ("y", Val.scalar (Scalar.int 0)),
                                      ("id", Val.scalar (Scalar.str "algoid-1")),
                                      ("more", Val.scalar (Scalar.bool true))] }] }

/-- Evaluated fixture: the first transmitted Pause batch (certified by `c2Pause_spec`). -/
def c2B1 : List Command :=
  [{ name := CmdName.update,
     options := [("fill", Val.scalar (Scalar.str "iWHITE")),
                 ("stroke", Val.scalar (Scalar.str "iBLUE")),
                 ("pen", Val.scalar (Scalar.str "iBLUE")),
                 ("id", Val.scalar (Scalar.str "algoid-0")),
                 ("root", Val.scalar (Scalar.bool true)),
                 ("visible", Val.scalar (Scalar.bool false)),
                 ("x", Val.scalar (Scalar.int 0)),
                 ("y", Val.scalar (Scalar.int 0)),
                 ("w", Val.scalar (Scalar.int 900)),
                 ("h", Val.scalar (Scalar.int 556)),
                 ("strokeWidth", Val.scalar (Scalar.int 0)),
                 ("type", Val.scalar (Scalar.str "Rectangle")),
                 ("cornerRadius", Val.scalar (Scalar.int 0)),
                 ("fontSize", Val.scalar (Scalar.str "40px")),
                 ("rotation", Val.scalar (Scalar.int 0))] },
   { name := CmdName.update,
     options := [("fill", Val.scalar (Scalar.str "RED")),
                 ("type", Val.scalar (Scalar.str "Rectangle")),
                 ("cornerRadius", Val.scalar (Scalar.int 0)),
                 ("strokeWidth", Val.scalar (Scalar.int 1)),
                 ("fontSize", Val.scalar (Scalar.str "40px")),
                 ("rotation", Val.scalar (Scalar.int 0)),
                 ("x", Val.scalar (Scalar.int 0)),
                 ("y", Val.scalar (Scalar.int 0)),
                 ("id", Val.scalar (Scalar.str "algoid-1"))] }]

/-- Evaluated fixture: the worker app after the first acknowledge (certified by `c2Ack1_spec`). -/
def c2W2 : WorkerApp :=
  { surface := { isDOM := false,
                 reg := { nextID := 2,
                          elems := [(0,
                                     { props := [("root", Val.scalar (Scalar.bool true)),
                                                 ("visible", Val.scalar (Scalar.bool false)),
                                                 ("x", Val.scalar (Scalar.int 0)),
                                                 ("y", Val.scalar (Scalar.int 0)),
                                                 ("w", Val.scalar (Scalar.int 900)),
                                                 ("h", Val.scalar (Scalar.int 556)),
                                                 ("strokeWidth", Val.scalar (Scalar.int 0)),
                                                 ("type", Val.scalar (Scalar.str "Rectangle")),
                                                 ("cornerRadius", Val.scalar (Scalar.int 0)),
                                                 ("fontSize", Val.scalar (Scalar.str "40px")),
                                                 ("rotation", Val.scalar (Scalar.int 0)),
                                                 ("fill", Val.scalar (Scalar.str "iWHITE")),
                                                 ("stroke", Val.scalar (Scalar.str "iBLUE")),
                                                 ("pen", Val.scalar (Scalar.str "iBLUE"))],
                                       states := [("ks_normal",
                                                   [("fill", Scalar.str "iWHITE"),
                                                    ("stroke", Scalar.str "iBLUE"),
                                                    ("pen", Scalar.str "iBLUE")]),
                                                  ("ks_faded",
                                                   [("fill", Scalar.str "iWHITE"),
                                                    ("stroke", Scalar.str "iGRAY"),
                                                    ("pen", Scalar.str "iGRAY")]),
                                                  ("ks_blue",
                                                   [("fill", Scalar.str "iBLUE"),
                                                    ("stroke", Scalar.str "iBLUE"),
                                                    ("pen", Scalar.str "iWHITE")]),
                                                  ("ks_gray",
                                                   [("fill", Scalar.str "iGRAY"),
                                                    ("stroke", Scalar.str "iGRAY"),
                                                    ("pen", Scalar.str "iWHITE")]),
                                                  ("ks_orange",
                                                   [("fill", Scalar.str "iORANGE"),
                                                    ("stroke", Scalar.str "iORANGE"),
                                                    ("pen", Scalar.str "iWHITE")]),
                                                  ("ks_red",
                                                   [("fill", Scalar.str "iRED"),
                                                    ("stroke", Scalar.str "iRED"),
                                                    ("pen", Scalar.str "iWHITE")]),
                                                  ("ks_green",
                                                   [("fill", Scalar.str "iGREEN"),
                                                    ("stroke", Scalar.str "iGREEN"),
                                                    ("pen", Scalar.str "iWHITE")]),
                                                  ("ks_cyan",
                                                   [("fill", Scalar.str "iCYAN"),
                                                    ("stroke", Scalar.str "iCYAN"),
                                                    ("pen", Scalar.str "iWHITE")])],
                                       parent := none,
                                       children := [1],
                                       destroyed := false }),
                                    (1,
                                     { props := [("fill", Val.list [Scalar.str "RED", Scalar.str "BLUE"]),
                                                 ("type", Val.scalar (Scalar.str "Rectangle")),
                                                 ("cornerRadius", Val.scalar (Scalar.int 0)),
                                                 ("strokeWidth", Val.scalar (Scalar.int 1)),
                                                 ("fontSize", Val.scalar (Scalar.str "40px")),
                                                 ("rotation", Val.scalar (Scalar.int 0)),
                                                 ("x", Val.scalar (Scalar.int 0)),
                                                 ("y", Val.scalar (Scalar.int 0))],
                                       states := [("ks_normal",
                                                   [("fill", Scalar.str "iWHITE"),
                                                    ("stroke", Scalar.str "iBLUE"),
                                                    ("pen", Scalar.str "iBLUE")]),
                                                  ("ks_faded",
                                                   [("fill", Scalar.str "iWHITE"),
                                                    ("stroke", Scalar.str "iGRAY"),
                                                    ("pen", Scalar.str "iGRAY")]),
                                                  ("ks_blue",
                                                   [("fill", Scalar.str "iBLUE"),
                                                    ("stroke", Scalar.str "iBLUE"),
                                                    ("pen", Scalar.str "iWHITE")]),
                                                  ("ks_gray",
                                                   [("fill", Scalar.str "iGRAY"),
                                                    ("stroke", Scalar.str "iGRAY"),
                                                    ("pen", Scalar.str "iWHITE")]),
                                                  ("ks_orange",
                                                   [("fill", Scalar.str "iORANGE"),
                                                    ("stroke", Scalar.str "iORANGE"),
                                                    ("pen", Scalar.str "iWHITE")]),
                                                  ("ks_red",
                                                   [("fill", Scalar.str "iRED"),
                                                    ("stroke", Scalar.str "iRED"),
                                                    ("pen", Scalar.str "iWHITE")]),
                                                  ("ks_green",
                                                   [("fill", Scalar.str "iGREEN"),
                                                    ("stroke", Scalar.str "iGREEN"),
                                                    ("pen", Scalar.str "iWHITE")]),
                                                  ("ks_cyan",
                                                   [("fill", Scalar.str "iCYAN"),
                                                    ("stroke", Scalar.str "iCYAN"),
                                                    ("pen", Scalar.str "iWHITE")])],
                                       parent := some 0,
                                       children := [],
                                       destroyed := false })] },
                 commands := [],
                 rootId := some 0 },
    currentCommands := [{ name := CmdName.update,
                          options := [("fill", Val.scalar (Scalar.str "iWHITE")),
                                      ("stroke", Val.scalar (Scalar.str "iBLUE")),
                                      ("pen", Val.scalar (Scalar.str "iBLUE")),
                                      ("id", Val.scalar (Scalar.str "algoid-0")),
                                      ("root", Val.scalar (Scalar.bool true)),
                                      ("visible", Val.scalar (Scalar.bool false)),
                                      ("x", Val.scalar (Scalar.int 0)),
                                      ("y", Val.scalar (Scalar.int 0)),
                                      ("w", Val.scalar (Scalar.int 900)),
                                      ("h", Val.scalar (Scalar.int 556)),
                                      ("strokeWidth", Val.scalar (Scalar.int 0)),
                                      ("type", Val.scalar (Scalar.str "Rectangle")),
                                      ("cornerRadius", Val.scalar (Scalar.int 0)),
                                      ("fontSize", Val.scalar (Scalar.str "40px")),
                                      ("rotation", Val.scalar (Scalar.int 0))] },
                        { name := CmdName.update,
                          options := [("type", Val.scalar (Scalar.str "Rectangle")),
                                      ("cornerRadius", Val.scalar (Scalar.int 0)),
                                      ("strokeWidth", Val.scalar (Scalar.int 1)),
                                      ("fontSize", Val.scalar (Scalar.str "40px")),
                                      ("rotation", Val.scalar (Scalar.int 0)),
                                      ("x", Val.scalar (Scalar.int 0)),
                                      ("y", Val.scalar (Scalar.int 0)),
                                      ("id", Val.scalar (Scalar.str "algoid-1"))] }] }

/-- Evaluated fixture: the second transmitted Pause batch (certified by `c2Ack1_spec`). -/
def c2B2 : List Command :=
  [{ name := CmdName.update,
     options := [("fill", Val.scalar (Scalar.str "BLUE")),
                 ("type", Val.scalar (Scalar.str "Rectangle")),
                 ("cornerRadius", Val.scalar (Scalar.int 0)),
                 ("strokeWidth", Val.scalar (Scalar.int 1)),
                 ("fontSize", Val.scalar (Scalar.str "40px")),
                 ("rotation", Val.scalar (Scalar.int 0)),
                 ("x", Val.scalar (Scalar.int 0)),
                 ("y", Val.scalar (Scalar.int 0)),
                 ("id", Val.scalar (Scalar.str "algoid-1"))] }]

/-- Evaluated fixture: `c2S0` after constructing the parent rectangle (certified by `c5S1_spec`). -/
def c5S1 : Surface :=
  { isDOM := false,
    reg := { nextID := 2,
             elems := [(0,
                        { props := [("root", Val.scalar (Scalar.bool true)),
                                    ("visible", Val.scalar (Scalar.bool false)),
                                    ("x", Val.scalar (Scalar.int 0)),
                                    ("y", Val.scalar (Scalar.int 0)),
                                    ("w", Val.scalar (Scalar.int 900)),
                                    ("h", Val.scalar (Scalar.int 556)),
                                    ("strokeWidth", Val.scalar (Scalar.int 0)),
                                    ("type", Val.scalar (Scalar.str "Rectangle")),
                                    ("cornerRadius", Val.scalar (Scalar.int 0)),
                                    ("fontSize", Val.scalar (Scalar.str "40px")),
                                    ("rotation", Val.scalar (Scalar.int 0)),
                                    ("fill", Val.scalar (Scalar.str "iWHITE")),
                                    ("stroke", Val.scalar (Scalar.str "iBLUE")),
                                    ("pen", Val.scalar (Scalar.str "iBLUE"))],
                          states := [("ks_normal",
                                      [("fill", Scalar.str "iWHITE"),
                                       ("stroke", Scalar.str "iBLUE"),
                                       ("pen", Scalar.str "iBLUE")]),
                                     ("ks_faded",
                                      [("fill", Scalar.str "iWHITE"),
                                       ("stroke", Scalar.str "iGRAY"),
                                       ("pen", Scalar.str "iGRAY")]),
                                     ("ks_blue",
                                      [("fill", Scalar.str "iBLUE"),
                                       ("stroke", Scalar.str "iBLUE"),
                                       ("pen", Scalar.str "iWHITE")]),
                                     ("ks_gray",
                                      [("fill", Scalar.str "iGRAY"),
                                       ("stroke", Scalar.str "iGRAY"),
                                       ("pen", Scalar.str "iWHITE")]),
                                     ("ks_orange",
                                      [("fill", Scalar.str "iORANGE"),
                                       ("stroke", Scalar.str "iORANGE"),
                                       ("pen", Scalar.str "iWHITE")]),
                                     ("ks_red",
                                      [("fill", Scalar.str "iRED"),
                                       ("stroke", Scalar.str "iRED"),
                                       ("pen", Scalar.str "iWHITE")]),
                                     ("ks_green",
                                      [("fill", Scalar.str "iGREEN"),
                                       ("stroke", Scalar.str "iGREEN"),
                                       ("pen", Scalar.str "iWHITE")]),
                                     ("ks_cyan",
                                      [("fill", Scalar.str "iCYAN"),
                                       ("stroke", Scalar.str "iCYAN"),
                                       ("pen", Scalar.str "iWHITE")])],
                          parent := none,
                          children := [1],
                          destroyed := false }),
                       (1,
                        { props := [("type", Val.scalar (Scalar.str "Rectangle")),
                                    ("cornerRadius", Val.scalar (Scalar.int 0)),
                                    ("strokeWidth", Val.scalar (Scalar.int 1)),
                                    ("fontSize", Val.scalar (Scalar.str "40px")),
                                    ("rotation", Val.scalar (Scalar.int 0)),
                                    ("fill", Val.scalar (Scalar.str "iWHITE")),
                                    ("stroke", Val.scalar (Scalar.str "iBLUE")),
                                    ("pen", Val.scalar (Scalar.str "iBLUE")),
                                    ("x", Val.scalar (Scalar.int 0)),
                                    ("y", Val.scalar (Scalar.int 0))],
                          states := [("ks_normal",
                                      [("fill", Scalar.str "iWHITE"),
                                       ("stroke", Scalar.str "iBLUE"),
                                       ("pen", Scalar.str "iBLUE")]),
                                     ("ks_faded",
                                      [("fill", Scalar.str "iWHITE"),
                                       ("stroke", Scalar.str "iGRAY"),
                                       ("pen", Scalar.str "iGRAY")]),
                                     ("ks_blue",
                                      [("fill", Scalar.str "iBLUE"),
                                       ("stroke", Scalar.str "iBLUE"),
                                       ("pen", Scalar.str "iWHITE")]),
                                     ("ks_gray",
                                      [("fill", Scalar.str "iGRAY"),
                                       ("stroke", Scalar.str "iGRAY"),
                                       ("pen", Scalar.str "iWHITE")]),
                                     ("ks_orange",
                                      [("fill", Scalar.str "iORANGE"),
                                       ("stroke", Scalar.str "iORANGE"),
                                       ("pen", Scalar.str "iWHITE")]),
                                     ("ks_red",
                                      [("fill", Scalar.str "iRED"),
                                       ("stroke", Scalar.str "iRED"),
                                       ("pen", Scalar.str "iWHITE")]),
                                     ("ks_green",
                                      [("fill", Scalar.str "iGREEN"),
                                       ("stroke", Scalar.str "iGREEN"),
                                       ("pen", Scalar.str "iWHITE")]),
                                     ("ks_cyan",
                                      [("fill", Scalar.str "iCYAN"),
                                       ("stroke", Scalar.str "iCYAN"),
                                       ("pen", Scalar.str "iWHITE")])],
                          parent := some 0,
                          children := [],
                          destroyed := false })] },
    commands := [{ name := CmdName.update,
                   options := [("fill", Val.scalar (Scalar.str "iWHITE")),
                               ("stroke", Val.scalar (Scalar.str "iBLUE")),
                               ("pen", Val.scalar (Scalar.str "iBLUE")),
                               ("id", Val.scalar (Scalar.str "algoid-0")),
                               ("root", Val.scalar (Scalar.bool true)),
                               ("visible", Val.scalar (Scalar.bool false)),
                               ("x", Val.scalar (Scalar.int 0)),
                               ("y", Val.scalar (Scalar.int 0)),
                               ("w", Val.scalar (Scalar.int 900)),
                               ("h", Val.scalar (Scalar.int 556)),
                               ("strokeWidth", Val.scalar (Scalar.int 0)),
                               ("type", Val.scalar (Scalar.str "Rectangle")),
                               ("cornerRadius", Val.scalar (Scalar.int 0)),
                               ("fontSize", Val.scalar (Scalar.str "40px")),
                               ("rotation", Val.scalar (Scalar.int 0))] },
                 { name := CmdName.update,
                   options := [("fill", Val.scalar (Scalar.str "iWHITE")),
                               ("stroke", Val.scalar (Scalar.str "iBLUE")),
                               ("pen", Val.scalar (Scalar.str "iBLUE")),
                               ("id", Val.scalar (Scalar.str "algoid-1")),
                               ("type", Val.scalar (Scalar.str "Rectangle")),
                               ("cornerRadius", Val.scalar (Scalar.int 0)),
                               ("strokeWidth", Val.scalar (Scalar.int 1)),
                               ("fontSize", Val.scalar (Scalar.str "40px")),
                               ("rotation", Val.scalar (Scalar.int 0)),
                               ("x", Val.scalar (Scalar.int 0)),
                               ("y", Val.scalar (Scalar.int 0))] }],
    rootId := some 0 }

/-- Evaluated fixture: `c5S1` after constructing the first child (certified by `c5S2_spec`). -/
def c5S2 : Surface :=
  { isDOM := false,
    reg := { nextID := 3,
             elems := [(0,
                        { props := [("root", Val.scalar (Scalar.bool true)),
                                    ("visible", Val.scalar (Scalar.bool false)),
                                    ("x", Val.scalar (Scalar.int 0)),
                                    ("y", Val.scalar (Scalar.int 0)),
                                    ("w", Val.scalar (Scalar.int 900)),
                                    ("h", Val.scalar (Scalar.int 556)),
                                    ("strokeWidth", Val.scalar (Scalar.int 0)),
                                    ("type", Val.scalar (Scalar.str "Rectangle")),
                                    ("cornerRadius", Val.scalar (Scalar.int 0)),
                                    ("fontSize", Val.scalar (Scalar.str "40px")),
                                    ("rotation", Val.scalar (Scalar.int 0)),
                                    ("fill", Val.scalar (Scalar.str "iWHITE")),
                                    ("stroke", Val.scalar (Scalar.str "iBLUE")),
                                    ("pen", Val.scalar (Scalar.str "iBLUE"))],
                          states := [("ks_normal",
                                      [("fill", Scalar.str "iWHITE"),
                                       ("stroke", Scalar.str "iBLUE"),
                                       ("pen", Scalar.str "iBLUE")]),
                                     ("ks_faded",
                                      [("fill", Scalar.str "iWHITE"),
                                       ("stroke", Scalar.str "iGRAY"),
                                       ("pen", Scalar.str "iGRAY")]),
                                     ("ks_blue",
                                      [("fill", Scalar.str "iBLUE"),
                                       ("stroke", Scalar.str "iBLUE"),
                                       ("pen", Scalar.str "iWHITE")]),
                                     ("ks_gray",
                                      [("fill", Scalar.str "iGRAY"),
                                       ("stroke", Scalar.str "iGRAY"),
                                       ("pen", Scalar.str "iWHITE")]),
                                     ("ks_orange",
                                      [("fill", Scalar.str "iORANGE"),
                                       ("stroke", Scalar.str "iORANGE"),
                                       ("pen", Scalar.str "iWHITE")]),
                                     ("ks_red",
                                      [("fill", Scalar.str "iRED"),
                                       ("stroke", Scalar.str "iRED"),
                                       ("pen", Scalar.str "iWHITE")]),
                                     ("ks_green",
                                      [("fill", Scalar.str "iGREEN"),
                                       ("stroke", Scalar.str "iGREEN"),
                                       ("pen", Scalar.str "iWHITE")]),
                                     ("ks_cyan",
                                      [("fill", Scalar.str "iCYAN"),
                                       ("stroke", Scalar.str "iCYAN"),
                                       ("pen", Scalar.str "iWHITE")])],
                          parent := none,
                          children := [1],
                          destroyed := false }),
                       (1,
                        { props := [("type", Val.scalar (Scalar.str "Rectangle")),
                                    ("cornerRadius", Val.scalar (Scalar.int 0)),
                                    ("strokeWidth", Val.scalar (Scalar.int 1)),
                                    ("fontSize", Val.scalar (Scalar.str "40px")),
                                    ("rotation", Val.scalar (Scalar.int 0)),
                                    ("fill", Val.scalar (Scalar.str "iWHITE")),
                                    ("stroke", Val.scalar (Scalar.str "iBLUE")),
                                    ("pen", Val.scalar (Scalar.str "iBLUE")),
                                    ("x", Val.scalar (Scalar.int 0)),
                                    ("y", Val.scalar (Scalar.int 0))],
                          states := [("ks_normal",
                                      [("fill", Scalar.str "iWHITE"),
                                       ("stroke", Scalar.str "iBLUE"),
                                       ("pen", Scalar.str "iBLUE")]),
                                     ("ks_faded",
                                      [("fill", Scalar.str "iWHITE"),
                                       ("stroke", Scalar.str "iGRAY"),
                                       ("pen", Scalar.str "iGRAY")]),
                                     ("ks_blue",
                                      [("fill", Scalar.str "iBLUE"),
                                       ("stroke", Scalar.str "iBLUE"),
                                       ("pen", Scalar.str "iWHITE")]),
                                     ("ks_gray",
                                      [("fill", Scalar.str "iGRAY"),
                                       ("stroke", Scalar.str "iGRAY"),
                                       ("pen", Scalar.str "iWHITE")]),
                                     ("ks_orange",
                                      [("fill", Scalar.str "iORANGE"),
                                       ("stroke", Scalar.str "iORANGE"),
                                       ("pen", Scalar.str "iWHITE")]),
                                     ("ks_red",
                                      [("fill", Scalar.str "iRED"),
                                       ("stroke", Scalar.str "iRED"),
                                       ("pen", Scalar.str "iWHITE")]),
                                     ("ks_green",
                                      [("fill", Scalar.str "iGREEN"),
                                       ("stroke", Scalar.str "iGREEN"),
                                       ("pen", Scalar.str "iWHITE")]),
                                     ("ks_cyan",
                                      [("fill", Scalar.str "iCYAN"),
                                       ("stroke", Scalar.str "iCYAN"),
                                       ("pen", Scalar.str "iWHITE")])],
                          parent := some 0,
                          children := [2],
                          destroyed := false }),
                       (2,
                        { props := [("type", Val.scalar (Scalar.str "Rectangle")),
                                    ("cornerRadius", Val.scalar (Scalar.int 0)),
                                    ("strokeWidth", Val.scalar (Scalar.int 1)),
                                    ("fontSize", Val.scalar (Scalar.str "40px")),
                                    ("rotation", Val.scalar (Scalar.int 0)),
                                    ("fill", Val.scalar (Scalar.str "iWHITE")),
                                    ("stroke", Val.scalar (Scalar.str "iBLUE")),
                                    ("pen", Val.scalar (Scalar.str "iBLUE")),
                                    ("x", Val.scalar (Scalar.int 0)),
                                    ("y", Val.scalar (Scalar.int 0))],
                          states := [("ks_normal",
                                      [("fill", Scalar.str "iWHITE"),
                                       ("stroke", Scalar.str "iBLUE"),
                                       ("pen", Scalar.str "iBLUE")]),
                                     ("ks_faded",
                                      [("fill", Scalar.str "iWHITE"),
                                       ("stroke", Scalar.str "iGRAY"),
                                       ("pen", Scalar.str "iGRAY")]),
                                     ("ks_blue",
                                      [("fill", Scalar.str "iBLUE"),
                                       ("stroke", Scalar.str "iBLUE"),
                                       ("pen", Scalar.str "iWHITE")]),
                                     ("ks_gray",
                                      [("fill", Scalar.str "iGRAY"),
                                       ("stroke", Scalar.str "iGRAY"),
                                       ("pen", Scalar.str "iWHITE")]),
                                     ("ks_orange",
                                      [("fill", Scalar.str "iORANGE"),
                                       ("stroke", Scalar.str "iORANGE"),
                                       ("pen", Scalar.str "iWHITE")]),
                                     ("ks_red",
                                      [("fill", Scalar.str "iRED"),
                                       ("stroke", Scalar.str "iRED"),
                                       ("pen", Scalar.str "iWHITE")]),
                                     ("ks_green",
                                      [("fill", Scalar.str "iGREEN"),
                                       ("stroke", Scalar.str "iGREEN"),
                                       ("pen", Scalar.str "iWHITE")]),
                                     ("ks_cyan",
                                      [("fill", Scalar.str "iCYAN"),
                                       ("stroke", Scalar.str "iCYAN"),
                                       ("pen", Scalar.str "iWHITE")])],
                          parent := some 1,
                          children := [],
                          destroyed := false })] },
    commands := [{ name := CmdName.update,
                   options := [("fill", Val.scalar (Scalar.str "iWHITE")),
                               ("stroke", Val.scalar (Scalar.str "iBLUE")),
                               ("pen", Val.scalar (Scalar.str "iBLUE")),
                               ("id", Val.scalar (Scalar.str "algoid-0")),
                               ("root", Val.scalar (Scalar.bool true)),
                               ("visible", Val.scalar (Scalar.bool false)),
                               ("x", Val.scalar (Scalar.int 0)),
                               ("y", Val.scalar (Scalar.int 0)),
                               ("w", Val.scalar (Scalar.int 900)),
                               ("h", Val.scalar (Scalar.int 556)),
                               ("strokeWidth", Val.scalar (Scalar.int 0)),
                               ("type", Val.scalar (Scalar.str "Rectangle")),
                               ("cornerRadius", Val.scalar (Scalar.int 0)),
                               ("fontSize", Val.scalar (Scalar.str "40px")),
                               ("rotation", Val.scalar (Scalar.int 0))] },
                 { name := CmdName.update,
                   options := [("fill", Val.scalar (Scalar.str "iWHITE")),
                               ("stroke", Val.scalar (Scalar.str "iBLUE")),
                               ("pen", Val.scalar (Scalar.str "iBLUE")),
                               ("id", Val.scalar (Scalar.str "algoid-1")),
                               ("type", Val.scalar (Scalar.str "Rectangle")),
                               ("cornerRadius", Val.scalar (Scalar.int 0)),
                               ("strokeWidth", Val.scalar (Scalar.int 1)),
                               ("fontSize", Val.scalar (Scalar.str "40px")),
                               ("rotation", Val.scalar (Scalar.int 0)),
                               ("x", Val.scalar (Scalar.int 0)),
                               ("y", Val.scalar (Scalar.int 0))] },
                 { name := CmdName.update,
                   options := [("fill", Val.scalar (Scalar.str "iWHITE")),
                               ("stroke", Val.scalar (Scalar.str "iBLUE")),
                               ("pen", Val.scalar (Scalar.str "iBLUE")),
                               ("id", Val.scalar (Scalar.str "algoid-2")),
                               ("parent", Val.scalar (Scalar.str "algoid-1")),
                               ("type", Val.scalar (Scalar.str "Rectangle")),
                               ("cornerRadius", Val.scalar (Scalar.int 0)),
                               ("strokeWidth", Val.scalar (Scalar.int 1)),
                               ("fontSize", Val.scalar (Scalar.str "40px")),
                               ("rotation", Val.scalar (Scalar.int 0)),
                               ("x", Val.scalar (Scalar.int 0)),
                               ("y", Val.scalar (Scalar.int 0))] }],
    rootId := some 0 }

/-- Evaluated fixture: `c5S2` after constructing the second child (certified by `c5S3_spec`). -/
def c5S3 : Surface :=
  { isDOM := false,
    reg := { nextID := 4,
             elems := [(0,
                        { props := [("root", Val.scalar (Scalar.bool true)),
                                    ("visible", Val.scalar (Scalar.bool false)),
                                    ("x", Val.scalar (Scalar.int 0)),
                                    ("y", Val.scalar (Scalar.int 0)),
                                    ("w", Val.scalar (Scalar.int 900)),
                                    ("h", Val.scalar (Scalar.int 556)),
                                    ("strokeWidth", Val.scalar (Scalar.int 0)),
                                    ("type", Val.scalar (Scalar.str "Rectangle")),
                                    ("cornerRadius", Val.scalar (Scalar.int 0)),
                                    ("fontSize", Val.scalar (Scalar.str "40px")),
                                    ("rotation", Val.scalar (Scalar.int 0)),
                                    ("fill", Val.scalar (Scalar.str "iWHITE")),
                                    ("stroke", Val.scalar (Scalar.str "iBLUE")),
                                    ("pen", Val.scalar (Scalar.str "iBLUE"))],
                          states := [("ks_normal",
                                      [("fill", Scalar.str "iWHITE"),
                                       ("stroke", Scalar.str "iBLUE"),
                                       ("pen", Scalar.str "iBLUE")]),
                                     ("ks_faded",
                                      [("fill", Scalar.str "iWHITE"),
                                       ("stroke", Scalar.str "iGRAY"),
                                       ("pen", Scalar.str "iGRAY")]),
                                     ("ks_blue",
                                      [("fill", Scalar.str "iBLUE"),
                                       ("stroke", Scalar.str "iBLUE"),
                                       ("pen", Scalar.str "iWHITE")]),
                                     ("ks_gray",
                                      [("fill", Scalar.str "iGRAY"),
                                       ("stroke", Scalar.str "iGRAY"),
                                       ("pen", Scalar.str "iWHITE")]),
                                     ("ks_orange",
                                      [("fill", Scalar.str "iORANGE"),
                                       ("stroke", Scalar.str "iORANGE"),
                                       ("pen", Scalar.str "iWHITE")]),
                                     ("ks_red",
                                      [("fill", Scalar.str "iRED"),
                                       ("stroke", Scalar.str "iRED"),
                                       ("pen", Scalar.str "iWHITE")]),
                                     ("ks_green",
                                      [("fill", Scalar.str "iGREEN"),
                                       ("stroke", Scalar.str "iGREEN"),
                                       ("pen", Scalar.str "iWHITE")]),
                                     ("ks_cyan",
                                      [("fill", Scalar.str "iCYAN"),
                                       ("stroke", Scalar.str "iCYAN"),
                                       ("pen", Scalar.str "iWHITE")])],
                          parent := none,
                          children := [1],
                          destroyed := false }),
                       (1,
                        { props := [("type", Val.scalar (Scalar.str "Rectangle")),
                                    ("cornerRadius", Val.scalar (Scalar.int 0)),
                                    ("strokeWidth", Val.scalar (Scalar.int 1)),
                                    ("fontSize", Val.scalar (Scalar.str "40px")),
                                    ("rotation", Val.scalar (Scalar.int 0)),
                                    ("fill", Val.scalar (Scalar.str "iWHITE")),
                                    ("stroke", Val.scalar (Scalar.str "iBLUE")),
                                    ("pen", Val.scalar (Scalar.str "iBLUE")),
                                    ("x", Val.scalar (Scalar.int 0)),
                                    ("y", Val.scalar (Scalar.int 0))],
                          states := [("ks_normal",
                                      [("fill", Scalar.str "iWHITE"),
                                       ("stroke", Scalar.str "iBLUE"),
                                       ("pen", Scalar.str "iBLUE")]),
                                     ("ks_faded",
                                      [("fill", Scalar.str "iWHITE"),
                                       ("stroke", Scalar.str "iGRAY"),
                                       ("pen", Scalar.str "iGRAY")]),
                                     ("ks_blue",
                                      [("fill", Scalar.str "iBLUE"),
                                       ("stroke", Scalar.str "iBLUE"),
                                       ("pen", Scalar.str "iWHITE")]),
                                     ("ks_gray",
                                      [("fill", Scalar.str "iGRAY"),
                                       ("stroke", Scalar.str "iGRAY"),
                                       ("pen", Scalar.str "iWHITE")]),
                                     ("ks_orange",
                                      [("fill", Scalar.str "iORANGE"),
                                       ("stroke", Scalar.str "iORANGE"),
                                       ("pen", Scalar.str "iWHITE")]),
                                     ("ks_red",
                                      [("fill", Scalar.str "iRED"),
                                       ("stroke", Scalar.str "iRED"),
                                       ("pen", Scalar.str "iWHITE")]),
                                     ("ks_green",
                                      [("fill", Scalar.str "iGREEN"),
                                       ("stroke", Scalar.str "iGREEN"),
                                       ("pen", Scalar.str "iWHITE")]),
                                     ("ks_cyan",
                                      [("fill", Scalar.str "iCYAN"),
                                       ("stroke", Scalar.str "iCYAN"),
                                       ("pen", Scalar.str "iWHITE")])],
                          parent := some 0,
                          children := [2, 3],
                          destroyed := false }),
                       (2,
                        { props := [("type", Val.scalar (Scalar.str "Rectangle")),
                                    ("cornerRadius", Val.scalar (Scalar.int 0)),
                                    ("strokeWidth", Val.scalar (Scalar.int 1)),
                                    ("fontSize", Val.scalar (Scalar.str "40px")),
                                    ("rotation", Val.scalar (Scalar.int 0)),
                                    ("fill", Val.scalar (Scalar.str "iWHITE")),
                                    ("stroke", Val.scalar (Scalar.str "iBLUE")),
                                    ("pen", Val.scalar (Scalar.str "iBLUE")),
                                    ("x", Val.scalar (Scalar.int 0)),
                                    ("y", Val.scalar (Scalar.int 0))],
                          states := [("ks_normal",
                                      [("fill", Scalar.str "iWHITE"),
                                       ("stroke", Scalar.str "iBLUE"),
                                       ("pen", Scalar.str "iBLUE")]),
                                     ("ks_faded",
                                      [("fill", Scalar.str "iWHITE"),
                                       ("stroke", Scalar.str "iGRAY"),
                                       ("pen", Scalar.str "iGRAY")]),
                                     ("ks_blue",
                                      [("fill", Scalar.str "iBLUE"),
                                       ("stroke", Scalar.str "iBLUE"),
                                       ("pen", Scalar.str "iWHITE")]),
                                     ("ks_gray",
                                      [("fill", Scalar.str "iGRAY"),
                                       ("stroke", Scalar.str "iGRAY"),
                                       ("pen", Scalar.str "iWHITE")]),
                                     ("ks_orange",
                                      [("fill", Scalar.str "iORANGE"),
                                       ("stroke", Scalar.str "iORANGE"),
                                       ("pen", Scalar.str "iWHITE")]),
                                     ("ks_red",
                                      [("fill", Scalar.str "iRED"),
                                       ("stroke", Scalar.str "iRED"),
                                       ("pen", Scalar.str "iWHITE")]),
                                     ("ks_green",
                                      [("fill", Scalar.str "iGREEN"),
                                       ("stroke", Scalar.str "iGREEN"),
                                       ("pen", Scalar.str "iWHITE")]),
                                     ("ks_cyan",
                                      [("fill", Scalar.str "iCYAN"),
                                       ("stroke", Scalar.str "iCYAN"),
                                       ("pen", Scalar.str "iWHITE")])],
                          parent := some 1,
                          children := [],
                          destroyed := false }),
                       (3,
                        { props := [("type", Val.scalar (Scalar.str "Rectangle")),
                                    ("cornerRadius", Val.scalar (Scalar.int 0)),
                                    ("strokeWidth", Val.scalar (Scalar.int 1)),
                                    ("fontSize", Val.scalar (Scalar.str "40px")),
                                    ("rotation", Val.scalar (Scalar.int 0)),
                                    ("fill", Val.scalar (Scalar.str "iWHITE")),
                                    ("stroke", Val.scalar (Scalar.str "iBLUE")),
                                    ("pen", Val.scalar (Scalar.str "iBLUE")),
                                    ("x", Val.scalar (Scalar.int 0)),
                                    ("y", Val.scalar (Scalar.int 0))],
                          states := [("ks_normal",
                                      [("fill", Scalar.str "iWHITE"),
                                       ("stroke", Scalar.str "iBLUE"),
                                       ("pen", Scalar.str "iBLUE")]),
                                     ("ks_faded",
                                      [("fill", Scalar.str "iWHITE"),
                                       ("stroke", Scalar.str "iGRAY"),
                                       ("pen", Scalar.str "iGRAY")]),
                                     ("ks_blue",
                                      [("fill", Scalar.str "iBLUE"),
                                       ("stroke", Scalar.str "iBLUE"),
                                       ("pen", Scalar.str "iWHITE")]),
                                     ("ks_gray",
                                      [("fill", Scalar.str "iGRAY"),
                                       ("stroke", Scalar.str "iGRAY"),
                                       ("pen", Scalar.str "iWHITE")]),
                                     ("ks_orange",
                                      [("fill", Scalar.str "iORANGE"),
                                       ("stroke", Scalar.str "iORANGE"),
                                       ("pen", Scalar.str "iWHITE")]),
                                     ("ks_red",
                                      [("fill", Scalar.str "iRED"),
                                       ("stroke", Scalar.str "iRED"),
                                       ("pen", Scalar.str "iWHITE")]),
                                     ("ks_green",
                                      [("fill", Scalar.str "iGREEN"),
                                       ("stroke", Scalar.str "iGREEN"),
                                       ("pen", Scalar.str "iWHITE")]),
                                     ("ks_cyan",
                                      [("fill", Scalar.str "iCYAN"),
                                       ("stroke", Scalar.str "iCYAN"),
                                       ("pen", Scalar.str "iWHITE")])],
                          parent := some 1,
                          children := [],
                          destroyed := false })] },
    commands := [{ name := CmdName.update,
                   options := [("fill", Val.scalar (Scalar.str "iWHITE")),
                               ("stroke", Val.scalar (Scalar.str "iBLUE")),
                               ("pen", Val.scalar (Scalar.str "iBLUE")),
                               ("id", Val.scalar (Scalar.str "algoid-0")),
                               ("root", Val.scalar (Scalar.bool true)),
                               ("visible", Val.scalar (Scalar.bool false)),
                               ("x", Val.scalar (Scalar.int 0)),
                               ("y", Val.scalar (Scalar.int 0)),
                               ("w", Val.scalar (Scalar.int 900)),
                               ("h", Val.scalar (Scalar.int 556)),
                               ("strokeWidth", Val.scalar (Scalar.int 0)),
                               ("type", Val.scalar (Scalar.str "Rectangle")),
                               ("cornerRadius", Val.scalar (Scalar.int 0)),
                               ("fontSize", Val.scalar (Scalar.str "40px")),
                               ("rotation", Val.scalar (Scalar.int 0))] },
                 { name := CmdName.update,
                   options := [("fill", Val.scalar (Scalar.str "iWHITE")),
                               ("stroke", Val.scalar (Scalar.str "iBLUE")),
                               ("pen", Val.scalar (Scalar.str "iBLUE")),
                               ("id", Val.scalar (Scalar.str "algoid-1")),
                               ("type", Val.scalar (Scalar.str "Rectangle")),
                               ("cornerRadius", Val.scalar (Scalar.int 0)),
                               ("strokeWidth", Val.scalar (Scalar.int 1)),
                               ("fontSize", Val.scalar (Scalar.str "40px")),
                               ("rotation", Val.scalar (Scalar.int 0)),
                               ("x", Val.scalar (Scalar.int 0)),
                               ("y", Val.scalar (Scalar.int 0))] },
                 { name := CmdName.update,
                   options := [("fill", Val.scalar (Scalar.str "iWHITE")),
                               ("stroke", Val.scalar (Scalar.str "iBLUE")),
                               ("pen", Val.scalar (Scalar.str "iBLUE")),
                               ("id", Val.scalar (Scalar.str "algoid-2")),
                               ("parent", Val.scalar (Scalar.str "algoid-1")),
                               ("type", Val.scalar (Scalar.str "Rectangle")),
                               ("cornerRadius", Val.scalar (Scalar.int 0)),
                               ("strokeWidth", Val.scalar (Scalar.int 1)),
                               ("fontSize", Val.scalar (Scalar.str "40px")),
                               ("rotation", Val.scalar (Scalar.int 0)),
                               ("x", Val.scalar (Scalar.int 0)),
                               ("y", Val.scalar (Scalar.int 0))] },
                 { name := CmdName.update,
                   options := [("fill", Val.scalar (Scalar.str "iWHITE")),
                               ("stroke", Val.scalar (Scalar.str "iBLUE")),
                               ("pen", Val.scalar (Scalar.str "iBLUE")),
                               ("id", Val.scalar (Scalar.str "algoid-3")),
                               ("parent", Val.scalar (Scalar.str "algoid-1")),
                               ("type", Val.scalar (Scalar.str "Rectangle")),
                               ("cornerRadius", Val.scalar (Scalar.int 0)),
                               ("strokeWidth", Val.scalar (Scalar.int 1)),
                               ("fontSize", Val.scalar (Scalar.str "40px")),
                               ("rotation", Val.scalar (Scalar.int 0)),
                               ("x", Val.scalar (Scalar.int 0)),
                               ("y", Val.scalar (Scalar.int 0))] }],
    rootId := some 0 }

/-- Evaluated fixture: `c5S3` after destroying the parent subtree (certified by `c5S4_spec`). -/
def c5S4 : Surface :=
  { isDOM := false,
    reg := { nextID := 4,
             elems := [(0,
                        { props := [("root", Val.scalar (Scalar.bool true)),
                                    ("visible", Val.scalar (Scalar.bool false)),
                                    ("x", Val.scalar (Scalar.int 0)),
                                    ("y", Val.scalar (Scalar.int 0)),
                                    ("w", Val.scalar (Scalar.int 900)),
                                    ("h", Val.scalar (Scalar.int 556)),
                                    ("strokeWidth", Val.scalar (Scalar.int 0)),
                                    ("type", Val.scalar (Scalar.str "Rectangle")),
                                    ("cornerRadius", Val.scalar (Scalar.int 0)),
                                    ("fontSize", Val.scalar (Scalar.str "40px")),
                                    ("rotation", Val.scalar (Scalar.int 0)),
                                    ("fill", Val.scalar (Scalar.str "iWHITE")),
                                    ("stroke", Val.scalar (Scalar.str "iBLUE")),
                                    ("pen", Val.scalar (Scalar.str "iBLUE"))],
                          states := [("ks_normal",
                                      [("fill", Scalar.str "iWHITE"),
                                       ("stroke", Scalar.str "iBLUE"),
                                       ("pen", Scalar.str "iBLUE")]),
                                     ("ks_faded",
                                      [("fill", Scalar.str "iWHITE"),
                                       ("stroke", Scalar.str "iGRAY"),
                                       ("pen", Scalar.str "iGRAY")]),
                                     ("ks_blue",
                                      [("fill", Scalar.str "iBLUE"),
                                       ("stroke", Scalar.str "iBLUE"),
                                       ("pen", Scalar.str "iWHITE")]),
                                     ("ks_gray",
                                      [("fill", Scalar.str "iGRAY"),
                                       ("stroke", Scalar.str "iGRAY"),
                                       ("pen", Scalar.str "iWHITE")]),
                                     ("ks_orange",
                                      [("fill", Scalar.str "iORANGE"),
                                       ("stroke", Scalar.str "iORANGE"),
                                       ("pen", Scalar.str "iWHITE")]),
                                     ("ks_red",
                                      [("fill", Scalar.str "iRED"),
                                       ("stroke", Scalar.str "iRED"),
                                       ("pen", Scalar.str "iWHITE")]),
                                     ("ks_green",
                                      [("fill", Scalar.str "iGREEN"),
                                       ("stroke", Scalar.str "iGREEN"),
                                       ("pen", Scalar.str "iWHITE")]),
                                     ("ks_cyan",
                                      [("fill", Scalar.str "iCYAN"),
                                       ("stroke", Scalar.str "iCYAN"),
                                       ("pen", Scalar.str "iWHITE")])],
                          parent := none,
                          children := [],
                          destroyed := false }),
                       (1,
                        { props := [("type", Val.scalar (Scalar.str "Rectangle")),
                                    ("cornerRadius", Val.scalar (Scalar.int 0)),
                                    ("strokeWidth", Val.scalar (Scalar.int 1)),
                                    ("fontSize", Val.scalar (Scalar.str "40px")),
                                    ("rotation", Val.scalar (Scalar.int 0)),
                                    ("fill", Val.scalar (Scalar.str "iWHITE")),
                                    ("stroke", Val.scalar (Scalar.str "iBLUE")),
                                    ("pen", Val.scalar (Scalar.str "iBLUE")),
                                    ("x", Val.scalar (Scalar.int 0)),
                                    ("y", Val.scalar (Scalar.int 0))],
                          states := [("ks_normal",
                                      [("fill", Scalar.str "iWHITE"),
                                       ("stroke", Scalar.str "iBLUE"),
                                       ("pen", Scalar.str "iBLUE")]),
                                     ("ks_faded",
                                      [("fill", Scalar.str "iWHITE"),
                                       ("stroke", Scalar.str "iGRAY"),
                                       ("pen", Scalar.str "iGRAY")]),
                                     ("ks_blue",
                                      [("fill", Scalar.str "iBLUE"),
                                       ("stroke", Scalar.str "iBLUE"),
                                       ("pen", Scalar.str "iWHITE")]),
                                     ("ks_gray",
                                      [("fill", Scalar.str "iGRAY"),
                                       ("stroke", Scalar.str "iGRAY"),
                                       ("pen", Scalar.str "iWHITE")]),
                                     ("ks_orange",
                                      [("fill", Scalar.str "iORANGE"),
                                       ("stroke", Scalar.str "iORANGE"),
                                       ("pen", Scalar.str "iWHITE")]),
                                     ("ks_red",
                                      [("fill", Scalar.str "iRED"),
                                       ("stroke", Scalar.str "iRED"),
                                       ("pen", Scalar.str "iWHITE")]),
                                     ("ks_green",
                                      [("fill", Scalar.str "iGREEN"),
                                       ("stroke", Scalar.str "iGREEN"),
                                       ("pen", Scalar.str "iWHITE")]),
                                     ("ks_cyan",
                                      [("fill", Scalar.str "iCYAN"),
                                       ("stroke", Scalar.str "iCYAN"),
                                       ("pen", Scalar.str "iWHITE")])],
                          parent := none,
                          children := [],
                          destroyed := true }),
                       (2,
                        { props := [("type", Val.scalar (Scalar.str "Rectangle")),
                                    ("cornerRadius", Val.scalar (Scalar.int 0)),
                                    ("strokeWidth", Val.scalar (Scalar.int 1)),
                                    ("fontSize", Val.scalar (Scalar.str "40px")),
                                    ("rotation", Val.scalar (Scalar.int 0)),
                                    ("fill", Val.scalar (Scalar.str "iWHITE")),
                                    ("stroke", Val.scalar (Scalar.str "iBLUE")),
                                    ("pen", Val.scalar (Scalar.str "iBLUE")),
                                    ("x", Val.scalar (Scalar.int 0)),
                                    ("y", Val.scalar (Scalar.int 0))],
                          states := [("ks_normal",
                                      [("fill", Scalar.str "iWHITE"),
                                       ("stroke", Scalar.str "iBLUE"),
                                       ("pen", Scalar.str "iBLUE")]),
                                     ("ks_faded",
                                      [("fill", Scalar.str "iWHITE"),
                                       ("stroke", Scalar.str "iGRAY"),
                                       ("pen", Scalar.str "iGRAY")]),
                                     ("ks_blue",
                                      [("fill", Scalar.str "iBLUE"),
                                       ("stroke", Scalar.str "iBLUE"),
                                       ("pen", Scalar.str "iWHITE")]),
                                     ("ks_gray",
                                      [("fill", Scalar.str "iGRAY"),
                                       ("stroke", Scalar.str "iGRAY"),
                                       ("pen", Scalar.str "iWHITE")]),
                                     ("ks_orange",
                                      [("fill", Scalar.str "iORANGE"),
                                       ("stroke", Scalar.str "iORANGE"),
                                       ("pen", Scalar.str "iWHITE")]),
                                     ("ks_red",
                                      [("fill", Scalar.str "iRED"),
                                       ("stroke", Scalar.str "iRED"),
                                       ("pen", Scalar.str "iWHITE")]),
                                     ("ks_green",
                                      [("fill", Scalar.str "iGREEN"),
                                       ("stroke", Scalar.str "iGREEN"),
                                       ("pen", Scalar.str "iWHITE")]),
                                     ("ks_cyan",
                                      [("fill", Scalar.str "iCYAN"),
                                       ("stroke", Scalar.str "iCYAN"),
                                       ("pen", Scalar.str "iWHITE")])],
                          parent := none,
                          children := [],
                          destroyed := true }),
                       (3,
                        { props := [("type", Val.scalar (Scalar.str "Rectangle")),
                                    ("cornerRadius", Val.scalar (Scalar.int 0)),
                                    ("strokeWidth", Val.scalar (Scalar.int 1)),
                                    ("fontSize", Val.scalar (Scalar.str "40px")),
                                    ("rotation", Val.scalar (Scalar.int 0)),
                                    ("fill", Val.scalar (Scalar.str "iWHITE")),
                                    ("stroke", Val.scalar (Scalar.str "iBLUE")),
                                    ("pen", Val.scalar (Scalar.str "iBLUE")),
                                    ("x", Val.scalar (Scalar.int 0)),
                                    ("y", Val.scalar (Scalar.int 0))],
                          states := [("ks_normal",
                                      [("fill", Scalar.str "iWHITE"),
                                       ("stroke", Scalar.str "iBLUE"),
                                       ("pen", Scalar.str "iBLUE")]),
                                     ("ks_faded",
                                      [("fill", Scalar.str "iWHITE"),
                                       ("stroke", Scalar.str "iGRAY"),
                                       ("pen", Scalar.str "iGRAY")]),
                                     ("ks_blue",
                                      [("fill", Scalar.str "iBLUE"),
                                       ("stroke", Scalar.str "iBLUE"),
                                       ("pen", Scalar.str "iWHITE")]),
                                     ("ks_gray",
                                      [("fill", Scalar.str "iGRAY"),
                                       ("stroke", Scalar.str "iGRAY"),
                                       ("pen", Scalar.str "iWHITE")]),
                                     ("ks_orange",
                                      [("fill", Scalar.str "iORANGE"),
                                       ("stroke", Scalar.str "iORANGE"),
                                       ("pen", Scalar.str "iWHITE")]),
                                     ("ks_red",
                                      [("fill", Scalar.str "iRED"),
                                       ("stroke", Scalar.str "iRED"),
                                       ("pen", Scalar.str "iWHITE")]),
                                     ("ks_green",
                                      [("fill", Scalar.str "iGREEN"),
                                       ("stroke", Scalar.str "iGREEN"),
                                       ("pen", Scalar.str "iWHITE")]),
                                     ("ks_cyan",
                                      [("fill", Scalar.str "iCYAN"),
                                       ("stroke", Scalar.str "iCYAN"),
                                       ("pen", Scalar.str "iWHITE")])],
                          parent := none,
                          children := [],
                          destroyed := true })] },
    commands := [{ name := CmdName.update,
                   options := [("fill", Val.scalar (Scalar.str "iWHITE")),
                               ("stroke", Val.scalar (Scalar.str "iBLUE")),
                               ("pen", Val.scalar (Scalar.str "iBLUE")),
                               ("id", Val.scalar (Scalar.str "algoid-0")),
                               ("root", Val.scalar (Scalar.bool true)),
                               ("visible", Val.scalar (Scalar.bool false)),
                               ("x", Val.scalar (Scalar.int 0)),
                               ("y", Val.scalar (Scalar.int 0)),
                               ("w", Val.scalar (Scalar.int 900)),
                               ("h", Val.scalar (Scalar.int 556)),
                               ("strokeWidth", Val.scalar (Scalar.int 0)),
                               ("type", Val.scalar (Scalar.str "Rectangle")),
                               ("cornerRadius", Val.scalar (Scalar.int 0)),
                               ("fontSize", Val.scalar (Scalar.str "40px")),
                               ("rotation", Val.scalar (Scalar.int 0))] },
                 { name := CmdName.update,
                   options := [("fill", Val.scalar (Scalar.str "iWHITE")),
                               ("stroke", Val.scalar (Scalar.str "iBLUE")),
                               ("pen", Val.scalar (Scalar.str "iBLUE")),
                               ("id", Val.scalar (Scalar.str "algoid-1")),
                               ("type", Val.scalar (Scalar.str "Rectangle")),
                               ("cornerRadius", Val.scalar (Scalar.int 0)),
                               ("strokeWidth", Val.scalar (Scalar.int 1)),
                               ("fontSize", Val.scalar (Scalar.str "40px")),
                               ("rotation", Val.scalar (Scalar.int 0)),
                               ("x", Val.scalar (Scalar.int 0)),
                               ("y", Val.scalar (Scalar.int 0))] },
                 { name := CmdName.update,
                   options := [("fill", Val.scalar (Scalar.str "iWHITE")),
                               ("stroke", Val.scalar (Scalar.str "iBLUE")),
                               ("pen", Val.scalar (Scalar.str "iBLUE")),
                               ("id", Val.scalar (Scalar.str "algoid-2")),
                               ("parent", Val.scalar (Scalar.str "algoid-1")),
                               ("type", Val.scalar (Scalar.str "Rectangle")),
                               ("cornerRadius", Val.scalar (Scalar.int 0)),
                               ("strokeWidth", Val.scalar (Scalar.int 1)),
                               ("fontSize", Val.scalar (Scalar.str "40px")),
                               ("rotation", Val.scalar (Scalar.int 0)),
                               ("x", Val.scalar (Scalar.int 0)),
                               ("y", Val.scalar (Scalar.int 0))] },
                 { name := CmdName.update,
                   options := [("fill", Val.scalar (Scalar.str "iWHITE")),
                               ("stroke", Val.scalar (Scalar.str "iBLUE")),
                               ("pen", Val.scalar (Scalar.str "iBLUE")),
                               ("id", Val.scalar (Scalar.str "algoid-3")),
                               ("parent", Val.scalar (Scalar.str "algoid-1")),
                               ("type", Val.scalar (Scalar.str "Rectangle")),
                               ("cornerRadius", Val.scalar (Scalar.int 0)),
                               ("strokeWidth", Val.scalar (Scalar.int 1)),
                               ("fontSize", Val.scalar (Scalar.str "40px")),
                               ("rotation", Val.scalar (Scalar.int 0)),
                               ("x", Val.scalar (Scalar.int 0)),
                               ("y", Val.scalar (Scalar.int 0))] },
                 { name := CmdName.destroy, options := [("id", Val.scalar (Scalar.str "algoid-2"))] },
                 { name := CmdName.destroy, options := [("id", Val.scalar (Scalar.str "algoid-3"))] },
                 { name := CmdName.destroy, options := [("id", Val.scalar (Scalar.str "algoid-1"))] }],
    rootId := some 0 }

/-- The display-state table of element 1 of `c5S1` (certified by the
`decide` hypotheses of `c6_witness`). -/
def c6St : List (String × StateProps) :=
  [("ks_normal", [("fill", Scalar.str "iWHITE"), ("stroke", Scalar.str "iBLUE"), ("pen", Scalar.str "iBLUE")]),
   ("ks_faded", [("fill", Scalar.str "iWHITE"), ("stroke", Scalar.str "iGRAY"), ("pen", Scalar.str "iGRAY")]),
   ("ks_blue", [("fill", Scalar.str "iBLUE"), ("stroke", Scalar.str "iBLUE"), ("pen", Scalar.str "iWHITE")]),
   ("ks_gray", [("fill", Scalar.str "iGRAY"), ("stroke", Scalar.str "iGRAY"), ("pen", Scalar.str "iWHITE")]),
   ("ks_orange", [("fill", Scalar.str "iORANGE"), ("stroke", Scalar.str "iORANGE"), ("pen", Scalar.str "iWHITE")]),
   ("ks_red", [("fill", Scalar.str "iRED"), ("stroke", Scalar.str "iRED"), ("pen", Scalar.str "iWHITE")]),
   ("ks_green", [("fill", Scalar.str "iGREEN"), ("stroke", Scalar.str "iGREEN"), ("pen", Scalar.str "iWHITE")]),
   ("ks_cyan", [("fill", Scalar.str "iCYAN"), ("stroke", Scalar.str "iCYAN"), ("pen", Scalar.str "iWHITE")])]

/-- Evaluated fixture: `c5S1` after `setState([ks_red, ks_green])` on
element 1 — also the result of the direct sequence-valued `set` (both
certified inside `c6_witness` by `decide`). -/
def c6S1 : Surface :=
  { isDOM := false,
    reg := { nextID := 2,
             elems := [(0,
                        { props := [("root", Val.scalar (Scalar.bool true)),
                                    ("visible", Val.scalar (Scalar.bool false)),
                                    ("x", Val.scalar (Scalar.int 0)),
                                    ("y", Val.scalar (Scalar.int 0)),
                                    ("w", Val.scalar (Scalar.int 900)),
                                    ("h", Val.scalar (Scalar.int 556)),
                                    ("strokeWidth", Val.scalar (Scalar.int 0)),
                                    ("type", Val.scalar (Scalar.str "Rectangle")),
                                    ("cornerRadius", Val.scalar (Scalar.int 0)),
                                    ("fontSize", Val.scalar (Scalar.str "40px")),
                                    ("rotation", Val.scalar (Scalar.int 0)),
                                    ("fill", Val.scalar (Scalar.str "iWHITE")),
                                    ("stroke", Val.scalar (Scalar.str "iBLUE")),
                                    ("pen", Val.scalar (Scalar.str "iBLUE"))],
                          states := [("ks_normal",
                                      [("fill", Scalar.str "iWHITE"),
                                       ("stroke", Scalar.str "iBLUE"),
                                       ("pen", Scalar.str "iBLUE")]),
                                     ("ks_faded",
                                      [("fill", Scalar.str "iWHITE"),
                                       ("stroke", Scalar.str "iGRAY"),
                                       ("pen", Scalar.str "iGRAY")]),
                                     ("ks_blue",
                                      [("fill", Scalar.str "iBLUE"),
                                       ("stroke", Scalar.str "iBLUE"),
                                       ("pen", Scalar.str "iWHITE")]),
                                     ("ks_gray",
                                      [("fill", Scalar.str "iGRAY"),
                                       ("stroke", Scalar.str "iGRAY"),
                                       ("pen", Scalar.str "iWHITE")]),
                                     ("ks_orange",
                                      [("fill", Scalar.str "iORANGE"),
                                       ("stroke", Scalar.str "iORANGE"),
                                       ("pen", Scalar.str "iWHITE")]),
                                     ("ks_red",
                                      [("fill", Scalar.str "iRED"),
                                       ("stroke", Scalar.str "iRED"),
                                       ("pen", Scalar.str "iWHITE")]),
                                     ("ks_green",
                                      [("fill", Scalar.str "iGREEN"),
                                       ("stroke", Scalar.str "iGREEN"),
                                       ("pen", Scalar.str "iWHITE")]),
                                     ("ks_cyan",
                                      [("fill", Scalar.str "iCYAN"),
                                       ("stroke", Scalar.str "iCYAN"),
                                       ("pen", Scalar.str "iWHITE")])],
                          parent := none,
                          children := [1],
                          destroyed := false }),
                       (1,
                        { props := [("type", Val.scalar (Scalar.str "Rectangle")),
                                    ("cornerRadius", Val.scalar (Scalar.int 0)),
                                    ("strokeWidth", Val.scalar (Scalar.int 1)),
                                    ("fontSize", Val.scalar (Scalar.str "40px")),
                                    ("rotation", Val.scalar (Scalar.int 0)),
                                    ("fill", Val.list [Scalar.str "iRED", Scalar.str "iGREEN"]),
                                    ("stroke", Val.list [Scalar.str "iRED", Scalar.str "iGREEN"]),
                                    ("pen", Val.list [Scalar.str "iWHITE", Scalar.str "iWHITE"]),
                                    ("x", Val.scalar (Scalar.int 0)),
                                    ("y", Val.scalar (Scalar.int 0))],
                          states := [("ks_normal",
                                      [("fill", Scalar.str "iWHITE"),
                                       ("stroke", Scalar.str "iBLUE"),
                                       ("pen", Scalar.str "iBLUE")]),
                                     ("ks_faded",
                                      [("fill", Scalar.str "iWHITE"),
                                       ("stroke", Scalar.str "iGRAY"),
                                       ("pen", Scalar.str "iGRAY")]),
                                     ("ks_blue",
                                      [("fill", Scalar.str "iBLUE"),
                                       ("stroke", Scalar.str "iBLUE"),
                                       ("pen", Scalar.str "iWHITE")]),
                                     ("ks_gray",
                                      [("fill", Scalar.str "iGRAY"),
                                       ("stroke", Scalar.str "iGRAY"),
                                       ("pen", Scalar.str "iWHITE")]),
                                     ("ks_orange",
                                      [("fill", Scalar.str "iORANGE"),
                                       ("stroke", Scalar.str "iORANGE"),
                                       ("pen", Scalar.str "iWHITE")]),
                                     ("ks_red",
                                      [("fill", Scalar.str "iRED"),
                                       ("stroke", Scalar.str "iRED"),
                                       ("pen", Scalar.str "iWHITE")]),
                                     ("ks_green",
                                      [("fill", Scalar.str "iGREEN"),
                                       ("stroke", Scalar.str "iGREEN"),
                                       ("pen", Scalar.str "iWHITE")]),
                                     ("ks_cyan",
                                      [("fill", Scalar.str "iCYAN"),
                                       ("stroke", Scalar.str "iCYAN"),
                                       ("pen", Scalar.str "iWHITE")])],
                          parent := some 0,
                          children := [],
                          destroyed := false })] },
    commands := [{ name := CmdName.update,
                   options := [("fill", Val.scalar (Scalar.str "iWHITE")),
                               ("stroke", Val.scalar (Scalar.str "iBLUE")),
                               ("pen", Val.scalar (Scalar.str "iBLUE")),
                               ("id", Val.scalar (Scalar.str "algoid-0")),
                               ("root", Val.scalar (Scalar.bool true)),
                               ("visible", Val.scalar (Scalar.bool false)),
                               ("x", Val.scalar (Scalar.int 0)),
                               ("y", Val.scalar (Scalar.int 0)),
                               ("w", Val.scalar (Scalar.int 900)),
                               ("h", Val.scalar (Scalar.int 556)),
                               ("strokeWidth", Val.scalar (Scalar.int 0)),
                               ("type", Val.scalar (Scalar.str "Rectangle")),
                               ("cornerRadius", Val.scalar (Scalar.int 0)),
                               ("fontSize", Val.scalar (Scalar.str "40px")),
                               ("rotation", Val.scalar (Scalar.int 0))] },
                 { name := CmdName.update,
                   options := [("fill", Val.list [Scalar.str "iRED", Scalar.str "iGREEN"]),
                               ("stroke", Val.list [Scalar.str "iRED", Scalar.str "iGREEN"]),
                               ("pen", Val.list [Scalar.str "iWHITE", Scalar.str "iWHITE"]),
                               ("id", Val.scalar (Scalar.str "algoid-1")),
                               ("type", Val.scalar (Scalar.str "Rectangle")),
                               ("cornerRadius", Val.scalar (Scalar.int 0)),
                               ("strokeWidth", Val.scalar (Scalar.int 1)),
                               ("fontSize", Val.scalar (Scalar.str "40px")),
                               ("rotation", Val.scalar (Scalar.int 0)),
                               ("x", Val.scalar (Scalar.int 0)),
                               ("y", Val.scalar (Scalar.int 0))] }],
    rootId := some 0 }

/-! ## Definitions for the `setState` array claim -/

/-- Assoc lookup in the accumulated property-to-array map of the
`setState` array branch. -/
def lookupList (acc : List (String × List Scalar)) (k : String) :
    Option (List Scalar) :=
  (acc.find? (fun p => p.1 = k)).map (·.2)

/-- The accumulated `properties` map after processing the named states in
order, starting from `acc`. -/
def accFold (st : List (String × StateProps))
    (acc : List (String × List Scalar)) (ns : List String) :
    List (String × List Scalar) :=
  ns.foldl (fun a n => accState a ((lookupState st n).getD [])) acc

/-- The options map a property-to-array accumulation is passed to `set`
as. -/
def liftAcc (acc : List (String × List Scalar)) : PropMap :=
  acc.map (fun kp => (kp.1, Val.list kp.2))

/-- One element property, looked up through the registry. -/
def elemProp (s : Surface) (elId : Nat) (k : String) : Option Val :=
  (lookupElem s elId).bind (fun e => getP e.props k)

/-- One element display-state table, looked up through the registry. -/
def elemStates (s : Surface) (elId : Nat) :
    Option (List (String × StateProps)) :=
  (lookupElem s elId).map (fun e => e.states)

/-- Fixture: the initial worker surface with one extra live, parentless,
non-root element (id 1), as it stands between its registration and its
first `set` call. -/
def c8S : Surface :=
  { c2S0 with reg := ⟨2, c2S0.reg.elems ++ [(1, ⟨[], [], none, [], false⟩)]⟩ }

theorem processKeys_eq (m : PropMap) :
    processKeys m = (shiftPayload m, clonePayload m, morePayload m) := by
  induction m with
  | nil => rfl
  | cons kv rest ih =>
    obtain ⟨k, v⟩ := kv
    cases v with
    | list l =>
      match l with
      | [] => simp [processKeys, shiftPayload, clonePayload, morePayload, ih,
          cloneVal, shiftVal]
      | [v0] => simp [processKeys, shiftPayload, clonePayload, morePayload, ih,
          cloneVal, shiftVal]
      | v0 :: v1 :: tl => simp [processKeys, shiftPayload, clonePayload,
          morePayload, ih, cloneVal, shiftVal]
    | scalar s => simp [processKeys, shiftPayload, clonePayload, morePayload,
        ih, cloneVal, shiftVal]
    | ref i => simp [processKeys, shiftPayload, clonePayload, morePayload, ih,
        cloneVal, shiftVal]
    | states d => simp [processKeys, shiftPayload, clonePayload, morePayload,
        ih, cloneVal, shiftVal]

theorem getP_eq_none_of_not_mem_keys {m : PropMap} {k : String}
    (h : k ∉ keysOf m) : getP m k = none := by
  induction m with
  | nil => rfl
  | cons kv rest ih =>
    obtain ⟨k', v⟩ := kv
    simp only [keysOf, List.map_cons, List.mem_cons] at h
    push_neg at h
    simp only [getP]
    rw [if_neg (Ne.symm h.1)]
    exact ih (by simpa [keysOf] using h.2)

theorem getP_append_of_not_mem {a b : PropMap} {k : String}
    (h : k ∉ keysOf a) : getP (a ++ b) k = getP b k := by
  induction a with
  | nil => rfl
  | cons kv rest ih =>
    obtain ⟨k', v⟩ := kv
    simp only [keysOf, List.map_cons, List.mem_cons] at h
    push_neg at h
    simp only [List.cons_append, getP]
    rw [if_neg (Ne.symm h.1)]
    exact ih (by simpa [keysOf] using h.2)

theorem delP_eq_self_of_not_mem {m : PropMap} {k : String}
    (h : k ∉ keysOf m) : delP m k = m := by
  unfold delP
  rw [List.filter_eq_self]
  intro kv hkv
  simp only [keysOf, List.mem_map] at h
  push_neg at h
  simpa using h kv hkv

theorem mem_clonePayload_list {m : PropMap} {k : String} {v0 : Scalar}
    {tl : List Scalar} (h : (k, Val.list (v0 :: tl)) ∈ m) :
    (k, Val.scalar v0) ∈ clonePayload m :=
  List.mem_map.mpr ⟨(k, Val.list (v0 :: tl)), h, rfl⟩

theorem mem_clonePayload_scalar {m : PropMap} {k : String} {v : Scalar}
    (h : (k, Val.scalar v) ∈ m) : (k, Val.scalar v) ∈ clonePayload m :=
  List.mem_map.mpr ⟨(k, Val.scalar v), h, rfl⟩

theorem mem_shiftPayload_list {m : PropMap} {k : String} {v0 v1 : Scalar}
    {tl : List Scalar} (h : (k, Val.list (v0 :: v1 :: tl)) ∈ m) :
    (k, Val.list (v1 :: tl)) ∈ shiftPayload m :=
  List.mem_filterMap.mpr ⟨(k, Val.list (v0 :: v1 :: tl)), h, rfl⟩

theorem mem_shiftPayload_scalar {m : PropMap} {k : String} {v : Scalar}
    (h : (k, Val.scalar v) ∈ m) : (k, Val.scalar v) ∈ shiftPayload m :=
  List.mem_filterMap.mpr ⟨(k, Val.scalar v), h, rfl⟩

theorem mem_shiftPayload_inv {m : PropMap} {kv : String × Val}
    (h : kv ∈ shiftPayload m) :
    kv ∈ m ∨ ∃ k v0 v1 tl, kv = (k, Val.list (v1 :: tl)) ∧
      (k, Val.list (v0 :: v1 :: tl)) ∈ m := by
  obtain ⟨⟨k', v'⟩, hmem, heq⟩ := List.mem_filterMap.mp h
  cases v' with
  | list l =>
    match l with
    | [] => simp [shiftVal] at heq
    | [a] => simp [shiftVal] at heq
    | a :: b :: t =>
      simp only [shiftVal, Option.map_some'] at heq
      cases heq
      exact Or.inr ⟨k', a, b, t, rfl, hmem⟩
  | scalar s => simp only [shiftVal, Option.map_some'] at heq; cases heq
                exact Or.inl hmem
  | ref i => simp only [shiftVal, Option.map_some'] at heq; cases heq
             exact Or.inl hmem
  | states d => simp only [shiftVal, Option.map_some'] at heq; cases heq
                exact Or.inl hmem

theorem keys_shiftPayload_subset {m : PropMap} {k : String}
    (h : k ∈ keysOf (shiftPayload m)) : k ∈ keysOf m := by
  simp only [keysOf, List.mem_map] at h ⊢
  obtain ⟨kv, hmem, rfl⟩ := h
  rcases mem_shiftPayload_inv hmem with h | ⟨k', a, b, t, rfl, hm⟩
  · exact ⟨kv, h, rfl⟩
  · exact ⟨_, hm, rfl⟩

theorem scalarEntries_shiftPayload (m : PropMap) :
    scalarEntries (shiftPayload m) = scalarEntries m := by
  induction m with
  | nil => rfl
  | cons kv rest ih =>
    obtain ⟨k, v⟩ := kv
    cases v with
    | list l =>
      match l with
      | [] => simpa [shiftPayload, scalarEntries, shiftVal] using ih
      | [a] => simpa [shiftPayload, scalarEntries, shiftVal] using ih
      | a :: b :: t =>
        simp only [shiftPayload, scalarEntries, shiftVal, List.filterMap_cons,
          Option.map_some', List.filter_cons] at *
        simpa using ih
    | scalar s =>
      simp only [shiftPayload, scalarEntries, shiftVal, List.filterMap_cons,
        Option.map_some', List.filter_cons] at *
      simpa using ih
    | ref i =>
      simp only [shiftPayload, scalarEntries, shiftVal, List.filterMap_cons,
        Option.map_some', List.filter_cons] at *
      simpa using ih
    | states d =>
      simp only [shiftPayload, scalarEntries, shiftVal, List.filterMap_cons,
        Option.map_some', List.filter_cons] at *
      simpa using ih

theorem morePayload_iff (m : PropMap) :
    morePayload m = true ↔ ∃ k l, (k, Val.list l) ∈ m ∧ 2 ≤ l.length := by
  unfold morePayload
  rw [List.any_eq_true]
  constructor
  · rintro ⟨⟨k, v⟩, hmem, hv⟩
    cases v with
    | list l =>
      match l with
      | [] => cases hv
      | [a] => cases hv
      | a :: b :: t => exact ⟨k, a :: b :: t, hmem, by simp⟩
    | scalar s => cases hv
    | ref i => cases hv
    | states d => cases hv
  · rintro ⟨k, l, hmem, h2⟩
    match l, h2 with
    | a :: b :: t, _ => exact ⟨(k, Val.list (a :: b :: t)), hmem, rfl⟩

theorem delP_not_mem_keys (m : PropMap) (k : String) :
    k ∉ keysOf (delP m k) := by
  intro h
  simp only [keysOf, List.mem_map, delP, List.mem_filter] at h
  obtain ⟨kv, ⟨_, hk⟩, rfl⟩ := h
  simp at hk

theorem delP_append (a b : PropMap) (k : String) :
    delP (a ++ b) k = delP a k ++ delP b k := by
  simp [delP]

theorem processOptions_eq (opts : PropMap) :
    processOptions opts =
      (if morePayload (delP opts "more") then
          shiftPayload (delP opts "more") ++ [("more", Val.scalar (Scalar.bool true))]
        else shiftPayload (delP opts "more"),
       clonePayload (delP opts "more")) := by
  simp only [processOptions, processKeys_eq]

theorem processOptions_snd (opts : PropMap) :
    (processOptions opts).2 = clonePayload (delP opts "more") := by
  rw [processOptions_eq]

theorem morePayload_eq_false_shift (m : PropMap) (h : morePayload m = false) :
    shiftPayload m = scalarEntries m := by
  induction m with
  | nil => rfl
  | cons kv rest ih =>
    obtain ⟨k, v⟩ := kv
    simp only [morePayload, List.any_cons, Bool.or_eq_false_iff] at h
    have hrest := ih h.2
    cases v with
    | list l =>
      match l with
      | [] => simpa [shiftPayload, scalarEntries, shiftVal] using hrest
      | [a] => simpa [shiftPayload, scalarEntries, shiftVal] using hrest
      | a :: b :: t => simp at h
    | scalar s =>
      simp only [shiftPayload, scalarEntries, shiftVal, List.filterMap_cons,
        Option.map_some', List.filter_cons] at *
      simpa using hrest
    | ref i =>
      simp only [shiftPayload, scalarEntries, shiftVal, List.filterMap_cons,
        Option.map_some', List.filter_cons] at *
      simpa using hrest
    | states d =>
      simp only [shiftPayload, scalarEntries, shiftVal, List.filterMap_cons,
        Option.map_some', List.filter_cons] at *
      simpa using hrest

theorem mem_shiftPayload_list_inv {m : PropMap} {k : String} {l' : List Scalar}
    (h : (k, Val.list l') ∈ shiftPayload m) :
    ∃ v0, (k, Val.list (v0 :: l')) ∈ m := by
  obtain ⟨⟨k', v'⟩, hmem, heq⟩ := List.mem_filterMap.mp h
  cases v' with
  | list l =>
    match l with
    | [] => simp [shiftVal] at heq
    | [a] => simp [shiftVal] at heq
    | a :: b :: t =>
      simp only [shiftVal, Option.map_some'] at heq
      cases heq
      exact ⟨a, hmem⟩
  | scalar s => simp [shiftVal] at heq
  | ref i => simp [shiftVal] at heq
  | states d => simp [shiftVal] at heq

/-- Main drain lemma: on a payload whose arrays all have length `L ≥ 1`
(and which holds at least one array), the worker's resend loop produces
exactly `L` ticks; tick `i` carries element `i` of every array and every
scalar unchanged; the final retained payload is exactly the scalar part of
the original one. -/
theorem drainTicks_spec :
    ∀ fuel opts L, 1 ≤ L → L ≤ fuel →
    (∀ k l, (k, Val.list l) ∈ delP opts "more" → l.length = L) →
    (∃ k l, (k, Val.list l) ∈ delP opts "more") →
    ((drainTicks fuel opts).1.length = L ∧
     (drainTicks fuel opts).2 = scalarEntries (delP opts "more") ∧
     (∀ i, i < L → ∀ k l, (k, Val.list l) ∈ delP opts "more" →
        ∃ t, (drainTicks fuel opts).1.get? i = some t ∧
          (k, Val.scalar (l.getD i Scalar.undef)) ∈ t) ∧
     (∀ i, i < L → ∀ k v, (k, Val.scalar v) ∈ delP opts "more" →
        ∃ t, (drainTicks fuel opts).1.get? i = some t ∧
          (k, Val.scalar v) ∈ t)) := by
  intro fuel
  induction fuel with
  | zero => intro opts L h1 hf; omega
  | succ fuel ih =>
    intro opts L h1 hf hall hseq
    have hnmc : "more" ∉ keysOf (delP opts "more") := delP_not_mem_keys opts "more"
    have hnms : "more" ∉ keysOf (shiftPayload (delP opts "more")) :=
      fun h => hnmc (keys_shiftPayload_subset h)
    by_cases hmore : morePayload (delP opts "more") = true
    · -- some array still has an unconsumed element: L ≥ 2, the loop recurses
      obtain ⟨k2, l2, hm2, hlen2⟩ := (morePayload_iff _).mp hmore
      have hL2 : 2 ≤ L := by
        have := hall _ _ hm2; omega
      have hgp : truthy (getP (processOptions opts).1 "more") = true := by
        rw [processOptions_eq]
        simp only [hmore, if_true]
        rw [getP_append_of_not_mem hnms]
        rfl
      have hstep : drainTicks (fuel + 1) opts =
          ((processOptions opts).2 :: (drainTicks fuel (processOptions opts).1).1,
           (drainTicks fuel (processOptions opts).1).2) := by
        simp [drainTicks, hgp]
      -- the recursive payload strips back to the shifted payload
      have hdel : delP (processOptions opts).1 "more" =
          shiftPayload (delP opts "more") := by
        rw [processOptions_eq]
        simp only [hmore, if_true]
        rw [delP_append, delP_eq_self_of_not_mem hnms]
        simp [delP]
      have hall' : ∀ k l, (k, Val.list l) ∈ delP (processOptions opts).1 "more" →
          l.length = L - 1 := by
        rw [hdel]
        intro k l hl
        obtain ⟨v0, hv0⟩ := mem_shiftPayload_list_inv hl
        have := hall _ _ hv0
        simp at this; omega
      have hseq' : ∃ k l, (k, Val.list l) ∈ delP (processOptions opts).1 "more" := by
        rw [hdel]
        match l2, hlen2 with
        | a :: b :: t, _ => exact ⟨k2, b :: t, mem_shiftPayload_list hm2⟩
      obtain ⟨ihlen, ihfin, ihlist, ihscalar⟩ :=
        ih (processOptions opts).1 (L - 1) (by omega) (by omega) hall' hseq'
      refine ⟨?_, ?_, ?_, ?_⟩
      · rw [hstep]; simp [ihlen]; omega
      · rw [hstep]
        simp only [ihfin, hdel, scalarEntries_shiftPayload]
      · intro i hi k l hl
        rw [hstep]
        match i with
        | 0 =>
          refine ⟨clonePayload (delP opts "more"),
            by simp [processOptions_snd], ?_⟩
          have hlen := hall _ _ hl
          cases l with
          | nil => simp at hlen; omega
          | cons v0 tl => simpa using mem_clonePayload_list hl
        | j + 1 =>
          have hlen := hall _ _ hl
          cases l with
          | nil => simp at hlen; omega
          | cons v0 tl =>
            cases tl with
            | nil => simp at hlen; omega
            | cons v1 tl' =>
              have hmem' : (k, Val.list (v1 :: tl')) ∈
                  delP (processOptions opts).1 "more" := by
                rw [hdel]; exact mem_shiftPayload_list hl
              obtain ⟨t, ht, htm⟩ := ihlist j (by omega) k (v1 :: tl') hmem'
              exact ⟨t, by simpa using ht, by simpa using htm⟩
      · intro i hi k v hv
        rw [hstep]
        match i with
        | 0 =>
          exact ⟨clonePayload (delP opts "more"),
            by simp [processOptions_snd], mem_clonePayload_scalar hv⟩
        | j + 1 =>
          have hmem' : (k, Val.scalar v) ∈ delP (processOptions opts).1 "more" := by
            rw [hdel]; exact mem_shiftPayload_scalar hv
          obtain ⟨t, ht, htm⟩ := ihscalar j (by omega) k v hmem'
          exact ⟨t, by simpa using ht, by simpa using htm⟩
    · -- every array is exhausted by this tick: L = 1 and the loop stops
      have hmf : morePayload (delP opts "more") = false := by
        revert hmore; cases morePayload (delP opts "more") <;> simp
      have hL1' : L = 1 := by
        obtain ⟨k0, l0, hm0⟩ := hseq
        have hlen0 := hall _ _ hm0
        by_contra hne
        have h2 : 2 ≤ l0.length := by omega
        exact absurd ((morePayload_iff _).mpr ⟨k0, l0, hm0, h2⟩) (by simp [hmf])
      subst hL1'
      have hgp : truthy (getP (processOptions opts).1 "more") = false := by
        rw [processOptions_eq]
        simp only [hmf, Bool.false_eq_true, if_false]
        rw [getP_eq_none_of_not_mem_keys hnms]
        rfl
      have hstep : drainTicks (fuel + 1) opts =
          ([(processOptions opts).2], (processOptions opts).1) := by
        simp [drainTicks, hgp]
      refine ⟨by rw [hstep]; rfl, ?_, ?_, ?_⟩
      · rw [hstep, processOptions_eq]
        simp only [hmf, Bool.false_eq_true, if_false]
        exact morePayload_eq_false_shift _ hmf
      · intro i hi k l hl
        have hi0 : i = 0 := by omega
        subst hi0
        refine ⟨clonePayload (delP opts "more"),
          by simp [hstep, processOptions_snd], ?_⟩
        have hlen := hall _ _ hl
        cases l with
        | nil => simp at hlen
        | cons v0 tl =>
          cases tl with
          | nil => simpa using mem_clonePayload_list hl
          | cons v1 tl' => simp at hlen
      · intro i hi k v hv
        have hi0 : i = 0 := by omega
        subst hi0
        exact ⟨clonePayload (delP opts "more"),
          by simp [hstep, processOptions_snd], mem_clonePayload_scalar hv⟩

/-! ## Claim theorems -/

theorem updateElementsVisited_nil (fuel : Nat) (len : Int) :
    updateElementsVisited fuel len = [] := by
  cases fuel <;> rfl

/-- C10: `algo.core.Array.prototype.updateElements` iterates
`for (var index = index + 1; ...)` over the hoisted, uninitialized `index`,
so the loop counter starts at `undefined + 1 = NaN`, every bound check is
false, the body runs for zero indices, and no `updateElement` callback is
ever invoked by `updateElements` — in particular `insertAt` only ever
invokes `createElement` and `removeAt` never invokes `updateElement`. -/
theorem c10_updateElements_never_notifies :
    (∀ fuel len, updateElementsVisited fuel len = []) ∧
    (∀ fuel a value index newElement res,
      coreArrayInsertAt fuel a value index newElement = some res →
      res.2 = [ArrayEvent.createElement value index]) ∧
    (∀ fuel a index res, coreArrayRemoveAt fuel a index = some res →
      ∀ i, ArrayEvent.updateElement i ∉ res.2) := by
  refine ⟨updateElementsVisited_nil, ?_, ?_⟩
  · intro fuel a value index newElement res h
    unfold coreArrayInsertAt at h
    by_cases hidx : index > a.length
    · simp [hidx] at h
    · simp only [hidx, if_false] at h
      cases h
      simp [updateElementsVisited_nil]
  · intro fuel a index res h i
    unfold coreArrayRemoveAt at h
    by_cases hidx : index ≥ a.length
    · simp [hidx] at h
    · simp only [hidx, if_false] at h
      match hg : a.get? index with
      | none => rw [hg] at h; cases h
      | some item =>
        rw [hg] at h
        cases h
        simp only [updateElementsVisited_nil, List.map_nil, List.append_nil]
        match item.element with
        | some e => simp
        | none => simp

/-- C10 witness: a concrete `insertAt` into an empty array performs exactly
the `createElement` invocation and nothing else. -/
theorem c10_witness :
    coreArrayInsertAt 3 [] (Scalar.int 7) 0 none =
      some (([({ value := Scalar.int 7, element := none } : CoreArrayItem)],
        [ArrayEvent.createElement (Scalar.int 7) 0]) :
          List CoreArrayItem × List ArrayEvent) ∧
    (([({ value := Scalar.int 7, element := none } : CoreArrayItem)],
        [ArrayEvent.createElement (Scalar.int 7) 0]) :
          List CoreArrayItem × List ArrayEvent).2 =
      [ArrayEvent.createElement (Scalar.int 7) 0] :=
  ⟨by decide, c10_updateElements_never_notifies.2.1 3 [] (Scalar.int 7) 0 none _
    (by decide)⟩

theorem mem_unique_of_nodup_keys {m : PropMap} {k : String} {a b : Val}
    (hn : (keysOf m).Nodup) (ha : (k, a) ∈ m) (hb : (k, b) ∈ m) : a = b := by
  induction m with
  | nil => cases ha
  | cons kv rest ih =>
    obtain ⟨k', v'⟩ := kv
    simp only [keysOf, List.map_cons, List.nodup_cons] at hn
    rcases List.mem_cons.mp ha with ha' | ha' <;>
      rcases List.mem_cons.mp hb with hb' | hb'
    · cases ha'; cases hb'; rfl
    · cases ha'
      exact absurd (by simpa [keysOf] using List.mem_map_of_mem Prod.fst hb') hn.1
    · cases hb'
      exact absurd (by simpa [keysOf] using List.mem_map_of_mem Prod.fst ha') hn.1
    · exact ih (by simpa [keysOf] using hn.2) ha' hb'

theorem mem_scalarEntries_iff {m : PropMap} {kv : String × Val} :
    kv ∈ scalarEntries m ↔
      kv ∈ m ∧ (match kv.2 with | Val.list _ => False | _ => True) := by
  unfold scalarEntries
  rw [List.mem_filter]
  obtain ⟨k, v⟩ := kv
  cases v <;> simp

/-- C1: a pending update payload in which the property `p` (and every
other sequence-valued property) holds a list of length `L ≥ 1`, drained
tick by tick through `processOptions` as `pause`/`pauseOrContinue` do,
produces exactly `L` ticks; tick `i` transmits element `i` of every
list-valued property and repeats every scalar property unchanged; the
retained payload ends as exactly its scalar entries — every exhausted list
(in particular `p`) has been removed and no `more` flag remains — and the
last tick transmits `p`'s last list element as a scalar.  Moreover, after
any single tick the retained payload carries a truthy `more` flag exactly
when at least one property still holds an unconsumed list element. -/
theorem c1_sequence_tick_decomposition
    (opts : PropMap) (L fuel : Nat) (p : String) (lp : List Scalar)
    (hp : (p, Val.list lp) ∈ opts) (hL : lp.length = L) (hL1 : 1 ≤ L)
    (hall : ∀ k l, (k, Val.list l) ∈ opts → l.length = L)
    (hnm : "more" ∉ keysOf opts) (hnd : (keysOf opts).Nodup)
    (hfuel : L ≤ fuel) :
    (drainTicks fuel opts).1.length = L ∧
    (∀ i, i < L → ∀ k l, (k, Val.list l) ∈ opts →
      ∃ t, (drainTicks fuel opts).1.get? i = some t ∧
        (k, Val.scalar (l.getD i Scalar.undef)) ∈ t) ∧
    (∀ i, i < L → ∀ k v, (k, Val.scalar v) ∈ opts →
      ∃ t, (drainTicks fuel opts).1.get? i = some t ∧ (k, Val.scalar v) ∈ t) ∧
    (drainTicks fuel opts).2 = scalarEntries opts ∧
    getP (drainTicks fuel opts).2 "more" = none ∧
    (∀ v, (p, v) ∉ (drainTicks fuel opts).2) ∧
    (∃ t, (drainTicks fuel opts).1.get? (L - 1) = some t ∧
      (p, Val.scalar (lp.getD (L - 1) Scalar.undef)) ∈ t) ∧
    (∀ m' : PropMap, "more" ∉ keysOf m' →
      (truthy (getP (processOptions m').1 "more") = true ↔
        ∃ k l, (k, Val.list l) ∈ m' ∧ 2 ≤ l.length)) := by
  have hdel : delP opts "more" = opts := delP_eq_self_of_not_mem hnm
  obtain ⟨hlen, hfin, hlist, hscalar⟩ :=
    drainTicks_spec fuel opts L hL1 hfuel (by rw [hdel]; exact hall)
      (by rw [hdel]; exact ⟨p, lp, hp⟩)
  rw [hdel] at hfin
  refine ⟨hlen, ?_, ?_, hfin, ?_, ?_, ?_, ?_⟩
  · intro i hi k l hl
    exact hlist i hi k l (by rw [hdel]; exact hl)
  · intro i hi k v hv
    exact hscalar i hi k v (by rw [hdel]; exact hv)
  · rw [hfin]
    apply getP_eq_none_of_not_mem_keys
    intro hmem
    apply hnm
    simp only [keysOf, List.mem_map] at hmem ⊢
    obtain ⟨kv, hkv, hk⟩ := hmem
    exact ⟨kv, (mem_scalarEntries_iff.mp hkv).1, hk⟩
  · intro v hv
    rw [hfin] at hv
    obtain ⟨hvm, hvs⟩ := mem_scalarEntries_iff.mp hv
    have := mem_unique_of_nodup_keys hnd hvm hp
    subst this
    simp at hvs
  · exact hlist (L - 1) (by omega) p lp (by rw [hdel]; exact hp)
  · intro m' hnm'
    have hdel' : delP m' "more" = m' := delP_eq_self_of_not_mem hnm'
    have hnms' : "more" ∉ keysOf (shiftPayload (delP m' "more")) := by
      rw [hdel']
      exact fun h => hnm' (keys_shiftPayload_subset h)
    constructor
    · intro ht
      rw [processOptions_eq] at ht
      by_cases hm : morePayload (delP m' "more") = true
      · rw [hdel'] at hm
        exact (morePayload_iff m').mp hm
      · have hmf : morePayload (delP m' "more") = false := by
          revert hm; cases morePayload (delP m' "more") <;> simp
        simp only [hmf, Bool.false_eq_true, if_false] at ht
        rw [getP_eq_none_of_not_mem_keys hnms'] at ht
        cases ht
    · intro hex
      have hm : morePayload (delP m' "more") = true := by
        rw [hdel']; exact (morePayload_iff m').mpr hex
      rw [processOptions_eq]
      simp only [hm, if_true]
      rw [getP_append_of_not_mem hnms']
      rfl

/-- C1 witness: the payload `{fill: [RED, BLUE], x: 5}` satisfies the
hypotheses and drains into exactly 2 ticks. -/
theorem c1_witness :
    (("fill", Val.list [Scalar.str "RED", Scalar.str "BLUE"]) ∈
      ([("fill", Val.list [Scalar.str "RED", Scalar.str "BLUE"]),
        ("x", Val.scalar (Scalar.int 5))] : PropMap)) ∧
    ([Scalar.str "RED", Scalar.str "BLUE"].length = 2) ∧ 1 ≤ 2 ∧
    (∀ k l, (k, Val.list l) ∈
        ([("fill", Val.list [Scalar.str "RED", Scalar.str "BLUE"]),
          ("x", Val.scalar (Scalar.int 5))] : PropMap) → l.length = 2) ∧
    ("more" ∉ keysOf [("fill", Val.list [Scalar.str "RED", Scalar.str "BLUE"]),
        ("x", Val.scalar (Scalar.int 5))]) ∧
    ((keysOf [("fill", Val.list [Scalar.str "RED", Scalar.str "BLUE"]),
        ("x", Val.scalar (Scalar.int 5))]).Nodup) ∧
    (2 ≤ 2) ∧
    (drainTicks 2 [("fill", Val.list [Scalar.str "RED", Scalar.str "BLUE"]),
        ("x", Val.scalar (Scalar.int 5))]).1.length = 2 := by
  refine ⟨by decide, by decide, by decide, ?_, by decide, by decide, by decide, ?_⟩
  · intro k l h
    simp only [List.mem_cons, List.mem_singleton, Prod.mk.injEq] at h
    rcases h with ⟨_, h2⟩ | ⟨_, h2⟩ | h
    · cases h2; rfl
    · cases h2
    · cases h
  · exact (c1_sequence_tick_decomposition
      [("fill", Val.list [Scalar.str "RED", Scalar.str "BLUE"]),
        ("x", Val.scalar (Scalar.int 5))] 2 2 "fill"
      [Scalar.str "RED", Scalar.str "BLUE"] (by decide) (by decide) (by decide)
      (by intro k l h
          simp only [List.mem_cons, List.mem_singleton, Prod.mk.injEq] at h
          rcases h with ⟨_, h2⟩ | ⟨_, h2⟩ | h
          · cases h2; rfl
          · cases h2
          · cases h)
      (by decide) (by decide) (by decide)).1

theorem getP_setP_self (m : PropMap) (k : String) (v : Val) :
    getP (setP m k v) k = some v := by
  induction m with
  | nil => simp [setP, getP]
  | cons kv rest ih =>
    obtain ⟨k', v'⟩ := kv
    by_cases h : k' = k
    · subst h; simp [setP, getP]
    · simp [setP, getP, h, ih]

theorem keysOf_cons (a : String × Val) (m : PropMap) :
    keysOf (a :: m) = a.1 :: keysOf m := rfl

theorem getP_setP_ne {m : PropMap} {k k' : String} {v : Val} (h : k' ≠ k) :
    getP (setP m k v) k' = getP m k' := by
  induction m with
  | nil =>
    simp only [setP, getP]
    rw [if_neg (Ne.symm h)]
  | cons kv rest ih =>
    obtain ⟨k1, v1⟩ := kv
    by_cases h1 : k1 = k
    · subst h1
      simp only [setP, if_pos rfl, getP]
      rw [if_neg (Ne.symm h), if_neg (Ne.symm h)]
    · simp only [setP, if_neg h1, getP]
      by_cases h2 : k1 = k'
      · simp [h2]
      · simp [h2, ih]

theorem keys_setP_subset {m : PropMap} {k x : String} {v : Val}
    (h : x ∈ keysOf (setP m k v)) : x ∈ keysOf m ∨ x = k := by
  induction m with
  | nil =>
    right
    simpa [setP, keysOf] using h
  | cons kv rest ih =>
    obtain ⟨k1, v1⟩ := kv
    by_cases h1 : k1 = k
    · subst h1
      left
      simpa [setP, keysOf] using h
    · rw [show setP ((k1, v1) :: rest) k v = (k1, v1) :: setP rest k v from by
        simp [setP, h1]] at h
      rw [keysOf_cons, List.mem_cons] at h
      rcases h with h | h
      · left; rw [keysOf_cons, List.mem_cons]; exact Or.inl h
      · rcases ih h with h' | h'
        · left; rw [keysOf_cons, List.mem_cons]; exact Or.inr h'
        · right; exact h'

theorem nodup_keys_setP {m : PropMap} {k : String} {v : Val}
    (h : (keysOf m).Nodup) : (keysOf (setP m k v)).Nodup := by
  induction m with
  | nil => simp [setP, keysOf]
  | cons kv rest ih =>
    obtain ⟨k1, v1⟩ := kv
    simp only [keysOf, List.map_cons, List.nodup_cons] at h
    by_cases h1 : k1 = k
    · subst h1
      simpa [setP, keysOf, List.nodup_cons] using h
    · simp only [setP, if_neg h1, keysOf, List.map_cons, List.nodup_cons]
      refine ⟨?_, by simpa [keysOf] using ih (by simpa [keysOf] using h.2)⟩
      intro hmem
      rcases keys_setP_subset (by simpa [keysOf] using hmem) with hm | hm
      · exact h.1 (by simpa [keysOf] using hm)
      · exact h1 hm

theorem nodup_keys_filter {m : PropMap} (p : String × Val → Bool)
    (h : (keysOf m).Nodup) : (keysOf (m.filter p)).Nodup := by
  unfold keysOf at *
  exact h.sublist (List.Sublist.map _ (List.filter_sublist m))

theorem nodup_keys_mkCommandOptions {options : PropMap} (elemId : Nat)
    (h : (keysOf options).Nodup) :
    (keysOf (mkCommandOptions elemId options)).Nodup := by
  unfold mkCommandOptions omitReserved
  have h1 : (keysOf (options.filter (fun kv =>
      kv.1 ≠ "states" ∧ kv.1 ≠ "state" ∧ kv.1 ≠ "shape"))).Nodup :=
    nodup_keys_filter _ h
  match getP options "parent" with
  | some (Val.ref pid) => exact nodup_keys_setP (nodup_keys_setP h1)
  | some (Val.scalar sv) =>
    by_cases ht : truthy (some (Val.scalar sv)) = true
    · simp only [ht, if_true]
      exact nodup_keys_setP (nodup_keys_setP h1)
    · simp only [Bool.not_eq_true] at ht
      simp only [ht, Bool.false_eq_true, if_false]
      exact nodup_keys_setP h1
  | some (Val.list l) => exact nodup_keys_setP (nodup_keys_setP h1)
  | some (Val.states d) => exact nodup_keys_setP (nodup_keys_setP h1)
  | none => exact nodup_keys_setP h1

theorem getP_mkCommandOptions_id (elemId : Nat) (options : PropMap) :
    getP (mkCommandOptions elemId options) "id" =
      some (Val.scalar (Scalar.str (idStr elemId))) := by
  unfold mkCommandOptions
  exact getP_setP_self _ _ _

theorem extendProps_getP {upd : PropMap} (base : PropMap) (k : String)
    (hn : (keysOf upd).Nodup) :
    getP (extendProps base upd) k =
      match getP upd k with
      | some v => some v
      | none => getP base k := by
  induction upd generalizing base with
  | nil => simp [extendProps, getP]
  | cons kv rest ih =>
    obtain ⟨k1, v1⟩ := kv
    simp only [keysOf, List.map_cons, List.nodup_cons] at hn
    simp only [extendProps, getP]
    by_cases h1 : k1 = k
    · subst h1
      rw [if_pos rfl, ih _ (by simpa [keysOf] using hn.2)]
      rw [getP_eq_none_of_not_mem_keys (by simpa [keysOf] using hn.1)]
      exact getP_setP_self _ _ _
    · rw [if_neg h1, ih _ (by simpa [keysOf] using hn.2)]
      match getP rest k with
      | some w => rfl
      | none => exact getP_setP_ne (Ne.symm h1)

theorem extendProps_id_of_match {old c : PropMap}
    (hn : (keysOf c).Nodup) (hmatch : getP old "id" = getP c "id") :
    getP (extendProps old c) "id" = getP c "id" := by
  rw [extendProps_getP old "id" hn]
  match h : getP c "id" with
  | some w => rfl
  | none => rw [hmatch, h]

theorem countUpdates_cons (cmd : Command) (rest : List Command) (v : Option Val) :
    countUpdates (cmd :: rest) v =
      (if cmd.name = CmdName.update ∧ getP cmd.options "id" = v then 1 else 0) +
        countUpdates rest v := by
  unfold countUpdates
  rw [List.filter_cons]
  by_cases h : cmd.name = CmdName.update ∧ getP cmd.options "id" = v
  · simp [h]; omega
  · simp [h]

theorem countUpdates_mergeUpdate_ne (cmds : List Command) (c : PropMap)
    (v : Option Val) (hn : (keysOf c).Nodup) (hne : v ≠ getP c "id") :
    countUpdates (mergeUpdate cmds c) v = countUpdates cmds v := by
  induction cmds with
  | nil =>
    simp only [mergeUpdate]
    rw [countUpdates_cons]
    have hno : ¬((⟨CmdName.update, c⟩ : Command).name = CmdName.update ∧
        getP (⟨CmdName.update, c⟩ : Command).options "id" = v) := by
      rintro ⟨_, h2⟩
      exact hne h2.symm
    rw [if_neg hno]
    simp [countUpdates]
  | cons cmd rest ih =>
    simp only [mergeUpdate]
    by_cases hm : cmd.name = CmdName.update ∧ getP cmd.options "id" = getP c "id"
    · rw [if_pos hm]
      rw [countUpdates_cons, countUpdates_cons]
      have hid : getP (extendProps cmd.options c) "id" = getP c "id" :=
        extendProps_id_of_match hn hm.2
      have hmerged : ¬((⟨CmdName.update, extendProps cmd.options c⟩ :
          Command).name = CmdName.update ∧
          getP (⟨CmdName.update, extendProps cmd.options c⟩ : Command).options
            "id" = v) := by
        rintro ⟨_, h2⟩
        apply hne
        calc v = getP (extendProps cmd.options c) "id" := h2.symm
          _ = getP c "id" := hid
      have horig : ¬(cmd.name = CmdName.update ∧ getP cmd.options "id" = v) := by
        rintro ⟨_, h2⟩
        apply hne
        rw [← h2, hm.2]
      rw [if_neg hmerged, if_neg horig]
    · rw [if_neg hm, countUpdates_cons, countUpdates_cons, ih]

theorem countUpdates_mergeUpdate_self (cmds : List Command) (c : PropMap)
    (hn : (keysOf c).Nodup) :
    countUpdates (mergeUpdate cmds c) (getP c "id") =
      if countUpdates cmds (getP c "id") = 0 then 1
      else countUpdates cmds (getP c "id") := by
  induction cmds with
  | nil =>
    simp only [mergeUpdate]
    rw [countUpdates_cons]
    simp [countUpdates]
  | cons cmd rest ih =>
    simp only [mergeUpdate]
    by_cases hm : cmd.name = CmdName.update ∧ getP cmd.options "id" = getP c "id"
    · rw [if_pos hm]
      rw [countUpdates_cons, countUpdates_cons]
      have hid : getP (extendProps cmd.options c) "id" = getP c "id" :=
        extendProps_id_of_match hn hm.2
      rw [if_pos ⟨rfl, hid⟩, if_pos hm]
      have : ¬(1 + countUpdates rest (getP c "id") = 0) := by omega
      rw [if_neg this]
    · rw [if_neg hm, countUpdates_cons, countUpdates_cons, if_neg hm, ih]
      by_cases h0 : countUpdates rest (getP c "id") = 0 <;> simp [h0]

theorem mergeUpdate_length_of_pending {cmds : List Command} {c : PropMap}
    (h : ∃ cmd ∈ cmds, cmd.name = CmdName.update ∧
      getP cmd.options "id" = getP c "id") :
    (mergeUpdate cmds c).length = cmds.length := by
  induction cmds with
  | nil => simp at h
  | cons cmd rest ih =>
    simp only [mergeUpdate]
    by_cases hm : cmd.name = CmdName.update ∧ getP cmd.options "id" = getP c "id"
    · rw [if_pos hm]; rfl
    · rw [if_neg hm]
      obtain ⟨cmd', hmem, hc'⟩ := h
      rcases List.mem_cons.mp hmem with he | hmem'
      · subst he; exact absurd hc' hm
      · simp only [List.length_cons, ih ⟨cmd', hmem', hc'⟩]

theorem mergeUpdate_split {pre post : List Command} {cmd : Command} {c : PropMap}
    (hname : cmd.name = CmdName.update)
    (hid : getP cmd.options "id" = getP c "id")
    (hpre : ∀ cmd' ∈ pre, ¬(cmd'.name = CmdName.update ∧
      getP cmd'.options "id" = getP c "id")) :
    mergeUpdate (pre ++ cmd :: post) c =
      pre ++ (⟨CmdName.update, extendProps cmd.options c⟩ : Command) :: post := by
  induction pre with
  | nil =>
    simp only [List.nil_append, mergeUpdate]
    rw [if_pos ⟨hname, hid⟩]
  | cons q pre' ih =>
    simp only [List.cons_append, mergeUpdate]
    rw [if_neg (hpre q (List.mem_cons_self _ _))]
    have := ih (fun cmd' hm => hpre cmd' (List.mem_cons_of_mem _ hm))
    exact congrArg (q :: ·) this

/-- C3: per (batch, target id) there is at most one pending update
command: recording an update for an element that already has a pending
update command merges the new payload into the existing command (last
write wins per property, the element id kept) instead of appending a
second command, and recording one preserves the at-most-one invariant. -/
theorem c3_update_commands_coalesce
    (s : Surface) (elemId : Nat) (options : PropMap)
    (hdom : s.isDOM = false) (hnd : (keysOf options).Nodup)
    (hinv : ∀ v, countUpdates s.commands v ≤ 1) :
    (∀ v, countUpdates (addCommand s CmdName.update elemId options).commands v ≤ 1) ∧
    ((∃ cmd ∈ s.commands, cmd.name = CmdName.update ∧
        getP cmd.options "id" = some (Val.scalar (Scalar.str (idStr elemId)))) →
      (addCommand s CmdName.update elemId options).commands.length =
        s.commands.length) ∧
    (∀ pre cmd post, s.commands = pre ++ cmd :: post →
      cmd.name = CmdName.update →
      getP cmd.options "id" = some (Val.scalar (Scalar.str (idStr elemId))) →
      (∀ cmd' ∈ pre, ¬(cmd'.name = CmdName.update ∧
        getP cmd'.options "id" = some (Val.scalar (Scalar.str (idStr elemId))))) →
      (addCommand s CmdName.update elemId options).commands =
        pre ++ (⟨CmdName.update,
          extendProps cmd.options (mkCommandOptions elemId options)⟩ : Command)
          :: post ∧
      (∀ k, getP (extendProps cmd.options (mkCommandOptions elemId options)) k =
        match getP (mkCommandOptions elemId options) k with
        | some v => some v
        | none => getP cmd.options k)) := by
  have hcn : (keysOf (mkCommandOptions elemId options)).Nodup :=
    nodup_keys_mkCommandOptions elemId hnd
  have hcid : getP (mkCommandOptions elemId options) "id" =
      some (Val.scalar (Scalar.str (idStr elemId))) :=
    getP_mkCommandOptions_id elemId options
  have hadd : (addCommand s CmdName.update elemId options).commands =
      mergeUpdate s.commands (mkCommandOptions elemId options) := by
    unfold addCommand
    rw [hdom]
    simp
  refine ⟨?_, ?_, ?_⟩
  · intro v
    rw [hadd]
    by_cases hv : v = getP (mkCommandOptions elemId options) "id"
    · subst hv
      rw [countUpdates_mergeUpdate_self _ _ hcn]
      by_cases h0 : countUpdates s.commands
          (getP (mkCommandOptions elemId options) "id") = 0
      · rw [if_pos h0]
      · rw [if_neg h0]; exact hinv _
    · rw [countUpdates_mergeUpdate_ne _ _ _ hcn hv]
      exact hinv _
  · intro hex
    rw [hadd]
    apply mergeUpdate_length_of_pending
    obtain ⟨cmd, hm, h1, h2⟩ := hex
    exact ⟨cmd, hm, h1, by rw [h2, hcid]⟩
  · intro pre cmd post hsplit hname hid hpre
    constructor
    · rw [hadd, hsplit]
      exact mergeUpdate_split hname (by rw [hid, hcid]) (by
        intro cmd' hm hc
        exact hpre cmd' hm ⟨hc.1, by rw [hc.2, hcid]⟩)
    · intro k
      exact extendProps_getP cmd.options k hcn

/-- C3 witness: recording an update for an element with a pending update
command leaves the buffer length unchanged (the payloads merge). -/
theorem c3_witness :
    ({ initialSurface false with commands :=
        [⟨CmdName.update, [("x", Val.scalar (Scalar.int 1)),
          ("id", Val.scalar (Scalar.str (idStr 5)))]⟩] } : Surface).isDOM =
      false ∧
    (keysOf [("x", Val.scalar (Scalar.int 2))]).Nodup ∧
    (∀ v, countUpdates ({ initialSurface false with commands :=
        [⟨CmdName.update, [("x", Val.scalar (Scalar.int 1)),
          ("id", Val.scalar (Scalar.str (idStr 5)))]⟩] } : Surface).commands
        v ≤ 1) ∧
    (addCommand ({ initialSurface false with commands :=
        [⟨CmdName.update, [("x", Val.scalar (Scalar.int 1)),
          ("id", Val.scalar (Scalar.str (idStr 5)))]⟩] } : Surface)
        CmdName.update 5 [("x", Val.scalar (Scalar.int 2))]).commands.length =
      ({ initialSurface false with commands :=
        [⟨CmdName.update, [("x", Val.scalar (Scalar.int 1)),
          ("id", Val.scalar (Scalar.str (idStr 5)))]⟩] } : Surface).commands.length := by
  have hinv : ∀ v, countUpdates ({ initialSurface false with commands :=
      [⟨CmdName.update, [("x", Val.scalar (Scalar.int 1)),
        ("id", Val.scalar (Scalar.str (idStr 5)))]⟩] } : Surface).commands
      v ≤ 1 := by
    intro v
    unfold countUpdates
    exact le_trans (List.length_filter_le _ _) (by decide)
  refine ⟨rfl, by decide, hinv, ?_⟩
  exact (c3_update_commands_coalesce _ 5 [("x", Val.scalar (Scalar.int 2))]
    rfl (by decide) hinv).2.1 (by decide)

theorem playHistory_append (fuel : Nat) (s : Surface) (h : List Frame)
    {a b c : Nat} (hab : a ≤ b) (hbc : b ≤ c) :
    (playHistory fuel s h a b >>= fun s' => playHistory fuel s' h b c) =
      playHistory fuel s h a c := by
  unfold playHistory
  have hl : List.range' a (c - a) =
      List.range' a (b - a) ++ List.range' b (c - b) := by
    have hr := List.range'_append_1 a (b - a) (c - b)
    rw [show a + (b - a) = b from by omega] at hr
    rw [hr]
    congr 1
    omega
  rw [hl, List.foldlM_append]

/-- C4: seeking forward twice (`seek f1` then `seek f2`, `f1 ≤ f2`, from a
state reached by a seek with cursor `c ≤ f1`, so both seeks replay
incrementally against the existing registry) leaves the renderer state —
registry, root and cursor — identical to resetting and replaying frames
`[0, f2)` from empty, i.e. to a single seek from the fresh history
surface. -/
theorem c4_seek_seek_eq_replay
    (fuel : Nat) (h : List Frame) (c f1 f2 : Nat) (hsc : HistorySurface)
    (hreach : executeCommandHistory fuel domHistorySurface h c =
      Except.ok hsc)
    (h1 : c ≤ f1) (h2 : f1 ≤ f2) :
    (executeCommandHistory fuel hsc h f1 >>= fun s1 =>
      executeCommandHistory fuel s1 h f2) =
    executeCommandHistory fuel domHistorySurface h f2 := by
  -- extract the replayed state behind the reachability hypothesis
  have hdom : executeCommandHistory fuel domHistorySurface h c =
      (playHistory fuel (initialSurface true) h 0 c).bind
        (fun t => Except.ok ⟨t, (c : Int)⟩) := by
    unfold executeCommandHistory
    rfl
  rw [hdom] at hreach
  cases hplay : playHistory fuel (initialSurface true) h 0 c with
  | error e => rw [hplay] at hreach; cases hreach
  | ok t =>
    rw [hplay] at hreach
    have hsc_eq : hsc = ⟨t, (c : Int)⟩ := by
      cases hreach; rfl
    subst hsc_eq
    -- the three seeks, unfolded
    have hseek1 : executeCommandHistory fuel ⟨t, (c : Int)⟩ h f1 =
        (playHistory fuel t h c f1).bind (fun t1 => Except.ok ⟨t1, (f1 : Int)⟩) := by
      unfold executeCommandHistory
      rw [if_neg (by simp; omega)]
      simp only [Int.toNat_natCast]
      rfl
    have hseek2 : ∀ t1, executeCommandHistory fuel ⟨t1, (f1 : Int)⟩ h f2 =
        (playHistory fuel t1 h f1 f2).bind
          (fun t2 => Except.ok ⟨t2, (f2 : Int)⟩) := by
      intro t1
      unfold executeCommandHistory
      rw [if_neg (by simp; omega)]
      simp only [Int.toNat_natCast]
      rfl
    have hseekR : executeCommandHistory fuel domHistorySurface h f2 =
        (playHistory fuel (initialSurface true) h 0 f2).bind
          (fun t2 => Except.ok ⟨t2, (f2 : Int)⟩) := by
      unfold executeCommandHistory
      rfl
    -- replay [0, f2) from empty factors through [0, c) and [c, f1)
    have efull : playHistory fuel (initialSurface true) h 0 f2 =
        (playHistory fuel t h c f1).bind (fun t1 => playHistory fuel t1 h f1 f2) := by
      rw [← playHistory_append fuel (initialSurface true) h (Nat.zero_le c)
        (le_trans h1 h2), hplay]
      show (playHistory fuel t h c f2) = _
      rw [← playHistory_append fuel t h h1 h2]
      rfl
    rw [hseek1, hseekR, efull]
    cases hp1 : playHistory fuel t h c f1 with
    | error e => rfl
    | ok t1 =>
      show executeCommandHistory fuel ⟨t1, (f1 : Int)⟩ h f2 = _
      rw [hseek2 t1]
      rfl

/-- C4 witness: from the fresh history surface, seeking to 0 (reaching
cursor 0) and then seeking 1 twice over a one-frame history equals the
fresh replay of `[0, 1)`. -/
theorem c4_witness :
    executeCommandHistory 5 domHistorySurface [[]] 0 =
      Except.ok (⟨initialSurface true, (0 : Int)⟩ : HistorySurface) ∧
    (0 : Nat) ≤ 1 ∧ (1 : Nat) ≤ 1 ∧
    (executeCommandHistory 5 (⟨initialSurface true, (0 : Int)⟩ : HistorySurface)
        [[]] 1 >>= fun s1 => executeCommandHistory 5 s1 [[]] 1) =
      executeCommandHistory 5 domHistorySurface [[]] 1 :=
  ⟨rfl, by decide, by decide,
    c4_seek_seek_eq_replay 5 [[]] 0 1 1 ⟨initialSurface true, (0 : Int)⟩ rfl
      (by decide) (by decide)⟩


theorem except_bind_ok {e α β : Type} (a : α) (f : α → Except e β) :
    (Except.ok a >>= f) = f a := rfl

theorem c2S0_spec : initWorkerSurface 60 = Except.ok c2S0 := by decide

theorem c2S1_spec : elementCtor 60 c2S0 "Rectangle"
    [("fill", Val.list [Scalar.str "RED", Scalar.str "BLUE"])] =
    Except.ok (c2S1, 1) := by decide

theorem c2Setup_eval : c2Setup = Except.ok c2S1 := by
  unfold c2Setup
  rw [c2S0_spec, except_bind_ok, c2S1_spec, except_bind_ok]

theorem c2Pause_spec : workerPause ⟨c2S1, []⟩ = (c2W1, c2B1) := by decide

theorem c2Ack1_spec : pauseOrContinue c2W1 = (c2W2, some c2B2) := by decide

theorem c2Ack2_spec : (pauseOrContinue c2W2).2 = none := by decide

theorem c2Pause1_eval : c2Pause1 = (c2W1, c2B1) := by
  unfold c2Pause1
  rw [c2Setup_eval]
  exact c2Pause_spec

theorem c2Ack1_eval : c2Ack1 = (c2W2, some c2B2) := by
  unfold c2Ack1
  rw [c2Pause1_eval]
  exact c2Ack1_spec

theorem c2Ack2_eval : c2Ack2.2 = none := by
  unfold c2Ack2
  rw [c2Ack1_eval]
  exact c2Ack2_spec

/-- C2 counterexample: in the recorded scenario (root constructed, child
added with `fill: [RED, BLUE]`, flush at a suspension point), the first
Pause batch does not consist of one Update command carrying `more=true`:
it holds two Update commands (the root's construction is buffered too),
and no transmitted command carries a `more` key at all — `processOptions`
raises `more` only on the mutator's retained copy of the command, and
underscore's `_.each` key snapshot keeps the freshly added key out of the
transmitted clone. -/
theorem c2_counterexample :
    (c2Pause1.2.filter (fun cmd => cmd.name = CmdName.update)).length = 2 ∧
    (∀ cmd ∈ c2Pause1.2, getP cmd.options "more" = none) := by
  rw [c2Pause1_eval]
  decide

/-- C2 amended: the first Pause batch holds the root's and the child's
Update commands; the child's transmitted command carries `fill=RED` and no
`more` key, while the retained copy of that command carries `more=true`;
the first acknowledge yields a second Pause batch consisting of exactly
one Update command for the child with `fill=BLUE` and `more` absent; the
second acknowledge resumes the mutator with no further Pause message for
that batch. -/
theorem c2_amended :
    c2Pause1.2.map (fun cmd => (cmd.name, getP cmd.options "id")) =
      [(CmdName.update, some (Val.scalar (Scalar.str "algoid-0"))),
       (CmdName.update, some (Val.scalar (Scalar.str "algoid-1")))] ∧
    (∃ cmd ∈ c2Pause1.2,
      getP cmd.options "id" = some (Val.scalar (Scalar.str "algoid-1")) ∧
      getP cmd.options "fill" = some (Val.scalar (Scalar.str "RED")) ∧
      getP cmd.options "more" = none) ∧
    (∃ cmd ∈ c2Pause1.1.currentCommands,
      getP cmd.options "id" = some (Val.scalar (Scalar.str "algoid-1")) ∧
      getP cmd.options "more" = some (Val.scalar (Scalar.bool true))) ∧
    (∃ batch, c2Ack1.2 = some batch ∧ batch.length = 1 ∧
      ∀ cmd ∈ batch, cmd.name = CmdName.update ∧
        getP cmd.options "id" = some (Val.scalar (Scalar.str "algoid-1")) ∧
        getP cmd.options "fill" = some (Val.scalar (Scalar.str "BLUE")) ∧
        getP cmd.options "more" = none) ∧
    c2Ack2.2 = none := by
  rw [c2Pause1_eval, c2Ack1_eval, c2Ack2_eval]
  decide


theorem c5S1_spec : elementCtor 60 c2S0 "Rectangle" [] =
    Except.ok (c5S1, 1) := by decide

theorem c5S2_spec : elementCtor 60 c5S1 "Rectangle" [("parent", Val.ref 1)] =
    Except.ok (c5S2, 2) := by decide

theorem c5S3_spec : elementCtor 60 c5S2 "Rectangle" [("parent", Val.ref 1)] =
    Except.ok (c5S3, 3) := by decide

theorem c5S4_spec : destroyM 60 c5S3 1 = Except.ok c5S4 := by decide

theorem c5Setup_eval : c5Setup = Except.ok (c5S3, 1, 2, 3) := by
  unfold c5Setup
  rw [c2S0_spec, except_bind_ok, c5S1_spec, except_bind_ok,
    c5S2_spec, except_bind_ok, c5S3_spec, except_bind_ok]

theorem addCommand_isDOM (s : Surface) (n : CmdName) (i : Nat) (o : PropMap) :
    (addCommand s n i o).isDOM = s.isDOM := by
  unfold addCommand
  by_cases h : s.isDOM = true
  · rw [if_pos h]
  · rw [if_neg h]
    cases n <;> rfl

theorem updateElem_commands (s : Surface) (i : Nat) (f : Element → Element) :
    (updateElem s i f).commands = s.commands := rfl

theorem updateElem_isDOM (s : Surface) (i : Nat) (f : Element → Element) :
    (updateElem s i f).isDOM = s.isDOM := rfl

theorem removeChild_commands (s : Surface) (p c : Nat) :
    (removeChild s p c).commands = s.commands := rfl

theorem removeChild_isDOM (s : Surface) (p c : Nat) :
    (removeChild s p c).isDOM = s.isDOM := rfl

theorem elementDestroyed_isDOM (s : Surface) (i : Nat) :
    (elementDestroyed s i).isDOM = s.isDOM :=
  addCommand_isDOM s CmdName.destroy i []

theorem elementDestroyed_commands (s : Surface) (i : Nat)
    (h : s.isDOM = false) :
    (elementDestroyed s i).commands = s.commands ++ [destroyCmdFor i] := by
  unfold elementDestroyed addCommand
  rw [h]
  simp only [Bool.false_eq_true, if_false]
  rfl

/-- Joint command-ordering lemma for `destroy`: on the worker side, a
successful destroy appends the destroy commands of the destroyed subtree,
ending the appended segment with the target's own destroy command; every
child's destroy command sits in the earlier part of the segment. -/
theorem destroy_commands_spec :
    ∀ fuel,
      (∀ s elId s', s.isDOM = false → destroyM fuel s elId = Except.ok s' →
        s'.isDOM = false ∧
        ∃ pre, s'.commands = s.commands ++ pre ++ [destroyCmdFor elId] ∧
          ∀ e, lookupElem s elId = some e →
            ∀ c ∈ e.children, destroyCmdFor c ∈ pre) ∧
      (∀ s cs s', s.isDOM = false → destroyChildren fuel s cs = Except.ok s' →
        s'.isDOM = false ∧
        ∃ app, s'.commands = s.commands ++ app ∧
          ∀ c ∈ cs, destroyCmdFor c ∈ app) := by
  intro fuel
  induction fuel with
  | zero =>
    constructor
    · intro s elId s' _ h; cases h
    · intro s cs s' _ h; cases h
  | succ fuel ih =>
    obtain ⟨ihd, ihc⟩ := ih
    constructor
    · intro s elId s' hdom h
      unfold destroyM at h
      split at h
      · cases h
      next e he =>
        split at h
        · cases h
        next hdes =>
          simp only [bind, Except.bind] at h
          split at h
          next er hc => cases h
          next s1 hc =>
            obtain ⟨hdom1, app, happ, hmem⟩ := ihc s e.children s1 hdom hc
            split at h
            · cases h
            next e3 hlast =>
              split at h
              · cases h
              next he3 =>
                cases h
                refine ⟨?_, app, ?_, ?_⟩
                · rw [updateElem_isDOM, elementDestroyed_isDOM]
                  split
                  · rw [removeChild_isDOM, updateElem_isDOM]; exact hdom1
                  · rw [updateElem_isDOM]; exact hdom1
                · rw [updateElem_commands]
                  split
                  next p hp =>
                    rw [elementDestroyed_commands _ _ (by
                      rw [removeChild_isDOM, updateElem_isDOM]; exact hdom1)]
                    rw [removeChild_commands, updateElem_commands, happ]
                  next hp =>
                    rw [elementDestroyed_commands _ _ (by
                      rw [updateElem_isDOM]; exact hdom1)]
                    rw [updateElem_commands, happ]
                · intro e' he' c hcmem
                  rw [he] at he'
                  cases he'
                  exact hmem c hcmem
    · intro s cs s' hdom h
      unfold destroyChildren at h
      match cs with
      | [] =>
        cases h
        exact ⟨hdom, [], by simp, by simp⟩
      | c :: rest =>
        simp only [bind, Except.bind] at h
        split at h
        next er hd => cases h
        next s1 hd =>
          obtain ⟨hdom1, pre, hpre, _⟩ := ihd s c s1 hdom hd
          obtain ⟨hdom2, app, happ, hmem⟩ := ihc s1 rest s' hdom1 h
          refine ⟨hdom2, pre ++ [destroyCmdFor c] ++ app, ?_, ?_⟩
          · rw [happ, hpre]
            simp [List.append_assoc]
          · intro c' hc'
            rcases List.mem_cons.mp hc' with hc' | hc'
            · subst hc'
              simp
            · have := hmem c' hc'
              simp [this]

/-- C5: a successful worker-side `destroy()` records the destroy commands
of all destroyed descendants before the subtree root's own destroy
command (every child's command sits in the segment preceding the root's,
which comes last); in particular, in the recorded scenario of a parent
(id 1) with two children (ids 2, 3), none previously destroyed, the
destroy records exactly three destroy commands, both children's before
the parent's. -/
theorem c5_destroy_children_first :
    (∀ fuel s elId s', s.isDOM = false → destroyM fuel s elId = Except.ok s' →
      ∃ pre, s'.commands = s.commands ++ pre ++ [destroyCmdFor elId] ∧
        ∀ e, lookupElem s elId = some e →
          ∀ c ∈ e.children, destroyCmdFor c ∈ pre) ∧
    (c5Setup = Except.ok (c5S3, 1, 2, 3) ∧
      ((lookupElem c5S3 1).map (fun e => e.children)) = some [2, 3] ∧
      ((lookupElem c5S3 2).map (fun e => e.destroyed)) = some false ∧
      ((lookupElem c5S3 3).map (fun e => e.destroyed)) = some false ∧
      destroyM 60 c5S3 1 = Except.ok c5S4 ∧
      c5S4.commands = c5S3.commands ++
        [destroyCmdFor 2, destroyCmdFor 3, destroyCmdFor 1]) := by
  constructor
  · intro fuel s elId s' hdom h
    exact ((destroy_commands_spec fuel).1 s elId s' hdom h).2
  · exact ⟨c5Setup_eval, by decide, by decide, by decide, c5S4_spec, by decide⟩

/-- C5 witness: the general ordering conclusion holds at the concrete
scenario. -/
theorem c5_witness :
    c5S3.isDOM = false ∧ destroyM 60 c5S3 1 = Except.ok c5S4 ∧
    (∃ pre, c5S4.commands = c5S3.commands ++ pre ++ [destroyCmdFor 1] ∧
      ∀ e, lookupElem c5S3 1 = some e →
        ∀ c ∈ e.children, destroyCmdFor c ∈ pre) :=
  ⟨rfl, c5S4_spec,
    c5_destroy_children_first.1 60 c5S3 1 c5S4 rfl c5S4_spec⟩

theorem find_map_update (l : List (Nat × Element)) (i : Nat)
    (f : Element → Element) :
    (l.map (fun p => if p.1 = i then (p.1, f p.2) else p)).find?
        (fun p => p.1 = i) =
      (l.find? (fun p => p.1 = i)).map (fun p => (p.1, f p.2)) := by
  induction l with
  | nil => rfl
  | cons a l ih =>
    by_cases h : a.1 = i
    · simp [List.find?_cons, h]
    · simp [List.find?_cons, h, ih]

theorem lookupElem_updateElem_self (s : Surface) (i : Nat)
    (f : Element → Element) :
    lookupElem (updateElem s i f) i = (lookupElem s i).map f := by
  unfold lookupElem updateElem
  simp only [find_map_update]
  cases s.reg.elems.find? fun p => p.1 = i <;> rfl

/-- C9: `destroy()` on an already-destroyed element raises the
double-destroy usage error before any other effect; a successful
`destroy()` requires the flag to have been clear and leaves the element
marked destroyed, so `destroy()` raises the usage error exactly when the
destroyed flag is already set. -/
theorem c9_double_destroy_fatal (fuel : Nat) (s : Surface) (elId : Nat) :
    ((lookupElem s elId).map (fun x => x.destroyed) = some true →
      destroyM (fuel + 1) s elId = Except.error (Err.doubleDestroy elId)) ∧
    (∀ s', destroyM fuel s elId = Except.ok s' →
      (lookupElem s elId).map (fun x => x.destroyed) = some false ∧
      (lookupElem s' elId).map (fun x => x.destroyed) = some true) := by
  constructor
  · intro hdes
    unfold destroyM
    split
    next hl => rw [hl] at hdes; cases hdes
    next e hl =>
      rw [hl] at hdes
      simp only [Option.map_some'] at hdes
      rw [if_pos (Option.some.inj hdes)]
  · intro s' h
    cases fuel with
    | zero => cases h
    | succ f =>
      unfold destroyM at h
      split at h
      · cases h
      next e he =>
        split at h
        · cases h
        next hdes =>
          constructor
          · rw [he]
            exact congrArg some (Bool.eq_false_iff.mpr hdes)
          · simp only [bind, Except.bind] at h
            split at h
            next er hc => cases h
            next s1 hc =>
              split at h
              · cases h
              next e3 hlast =>
                split at h
                · cases h
                next he3 =>
                  cases h
                  rw [lookupElem_updateElem_self, hlast]
                  rfl

/-- C9 witness: in the recorded scenario, element 1 already destroyed in
`c5S4` makes a second destroy error with the double-destroy usage error;
the earlier successful destroy started from a clear flag and set it. -/
theorem c9_witness :
    ((lookupElem c5S4 1).map (fun x => x.destroyed) = some true ∧
      destroyM 60 c5S4 1 = Except.error (Err.doubleDestroy 1)) ∧
    (destroyM 60 c5S3 1 = Except.ok c5S4 ∧
      (lookupElem c5S3 1).map (fun x => x.destroyed) = some false ∧
      (lookupElem c5S4 1).map (fun x => x.destroyed) = some true) := by
  refine ⟨⟨by decide, (c9_double_destroy_fatal 59 c5S4 1).1 (by decide)⟩,
    c5S4_spec, (c9_double_destroy_fatal 60 c5S3 1).2 c5S4 c5S4_spec⟩

theorem addChild_commands (s : Surface) (p c : Nat) :
    (addChild s p c).commands = s.commands := rfl

/-- One plain-key, current-value step of the `_.each` of `set` is a
no-op: it neither changes the surface nor counts a change. -/
theorem setLoop_cons_noop (f : Nat) (s : Surface) (elId : Nat) (e : Element)
    (k : String) (v : Val) (rest : PropMap)
    (he : lookupElem s elId = some e)
    (h1 : ¬(k = "parent")) (h2 : ¬(k = "states")) (h3 : ¬(k = "state"))
    (h4 : ¬(k = "shape")) (h5 : getP e.props k = some v) :
    setLoop (f + 1) s elId ((k, v) :: rest) = setLoop f s elId rest := by
  revert h5
  show getP e.props k = some v →
    (if k = "parent" then
      match v with
      | Val.ref pid => do
        let s1 :=
          match (lookupElem s elId).bind (·.parent) with
          | some oldp => removeChild s oldp elId
          | none => s
        let s2 := addChild s1 pid elId
        let sc ← setLoop f s2 elId rest
        Except.ok (sc.1, sc.2 + 1)
      | _ => Except.error Err.typeError
    else if k = "states" then
      match v with
      | Val.states defs =>
        let s1 := updateElem s elId
          (fun e => { e with states := addStatesList e.states defs })
        setLoop f s1 elId rest
      | _ => setLoop f s elId rest
    else if k = "state" then do
      let s1 ← setStateM f s elId v
      let sc ← setLoop f s1 elId rest
      Except.ok (sc.1, sc.2 + 1)
    else if k = "shape" then do
      let sc ← setLoop f s elId rest
      Except.ok (sc.1, sc.2 + 1)
    else
      match lookupElem s elId with
      | none => Except.error Err.missingElement
      | some e =>
        if getP e.props k = some v then setLoop f s elId rest
        else do
          let s1 := updateElem s elId
            (fun e => { e with props := setP e.props k v })
          let sc ← setLoop f s1 elId rest
          Except.ok (sc.1, sc.2 + 1)) = setLoop f s elId rest
  intro h5
  rw [if_neg h1, if_neg h2, if_neg h3, if_neg h4]
  simp only [he]
  rw [if_pos h5]

/-- A `set` options list whose keys are all plain (non-reserved) writes of
the current values makes `setLoop` a no-op with change count 0 (or runs
out of fuel). -/
theorem setLoop_noop (s : Surface) (elId : Nat) (e : Element)
    (he : lookupElem s elId = some e) :
    ∀ fuel options,
      (∀ kv ∈ options, kv.1 ≠ "parent" ∧ kv.1 ≠ "states" ∧
        kv.1 ≠ "state" ∧ kv.1 ≠ "shape" ∧ getP e.props kv.1 = some kv.2) →
      setLoop fuel s elId options = Except.error Err.fuel ∨
        setLoop fuel s elId options = Except.ok (s, 0) := by
  intro fuel
  induction fuel with
  | zero => intro options _; left; rfl
  | succ f ih =>
    intro options hopts
    match options with
    | [] => right; rfl
    | (k, v) :: rest =>
      obtain ⟨h1, h2, h3, h4, h5⟩ := hopts (k, v) (List.mem_cons_self _ _)
      rw [setLoop_cons_noop f s elId e k v rest he h1 h2 h3 h4 h5]
      exact ih rest (fun kv hkv => hopts kv (List.mem_cons_of_mem _ hkv))

/-- C7: a `set` whose options carry no reserved key and only values equal
to the element's current values (in particular `set({})`) records no
command: the command buffer after a successful call equals the buffer
before it. -/
theorem c7_noop_set_records_nothing (fuel : Nat) (s : Surface) (elId : Nat)
    (options : PropMap) (e : Element) (s' : Surface)
    (he : lookupElem s elId = some e)
    (hopts : ∀ kv ∈ options, kv.1 ≠ "parent" ∧ kv.1 ≠ "states" ∧
      kv.1 ≠ "state" ∧ kv.1 ≠ "shape" ∧ getP e.props kv.1 = some kv.2)
    (h : setM fuel s elId options 0 = Except.ok s') :
    s'.commands = s.commands := by
  cases fuel with
  | zero => cases h
  | succ f =>
    unfold setM at h
    split at h
    · cases h
    next e0 he0 =>
      simp only [bind, Except.bind] at h
      split at h
      next er hc => cases h
      next sc hc =>
        rcases setLoop_noop s elId e he f options hopts with hL | hL <;>
          rw [hL] at hc
        · cases hc
        cases hc
        split at h
        next hne => exact absurd rfl hne
        next =>
          split at h
          next hcond =>
            split at h
            · cases h
            next r hr =>
              simp only [pure, Except.pure, if_true] at h
              cases h
              exact addChild_commands s r elId
          next hcond =>
            simp only [pure, Except.pure, if_true] at h
            cases h
            rfl

/-- C7 witness: writing element 1's current `fill` back (a same-value
plain write) succeeds without changing the surface, and the no-op theorem
applies to give the unchanged command buffer. -/
theorem c7_witness :
    setM 60 c5S3 1 [("fill", Val.scalar (Scalar.str "iWHITE"))] 0 =
      Except.ok c5S3 ∧
    c5S3.commands = c5S3.commands := by
  have hrun : setM 60 c5S3 1 [("fill", Val.scalar (Scalar.str "iWHITE"))] 0 =
      Except.ok c5S3 := by decide
  refine ⟨hrun, c7_noop_set_records_nothing 60 c5S3 1
    [("fill", Val.scalar (Scalar.str "iWHITE"))]
    ((lookupElem c5S3 1).get (by decide)) c5S3 ?_ ?_ hrun⟩
  · exact (Option.some_get _).symm
  · decide

theorem find_map_fst {β : Type} (l : List (Nat × β)) (F : Nat × β → Nat × β)
    (hF : ∀ p, (F p).1 = p.1) (i : Nat) :
    (l.map F).find? (fun p => p.1 = i) =
      (l.find? (fun p => p.1 = i)).map F := by
  induction l with
  | nil => rfl
  | cons a l ih =>
    by_cases h : a.1 = i
    · simp [List.find?_cons, hF, h]
    · simp [List.find?_cons, hF, h, ih]

theorem updateElem_entry_fst (j : Nat) (f : Element → Element)
    (p : Nat × Element) :
    (if p.1 = j then (p.1, f p.2) else p).1 = p.1 := by
  by_cases h : p.1 = j <;> simp [h]

theorem lookupElem_updateElem_map {β : Type} (s : Surface) (j : Nat)
    (f : Element → Element) (i : Nat) (g : Element → β)
    (hg : ∀ e, g (f e) = g e) :
    (lookupElem (updateElem s j f) i).map g = (lookupElem s i).map g := by
  simp only [lookupElem, updateElem]
  rw [find_map_fst _ _ (updateElem_entry_fst j f)]
  cases s.reg.elems.find? (fun p => p.1 = i) with
  | none => rfl
  | some p => by_cases h : p.1 = j <;> simp [h, hg]

theorem lookupElem_updateElem_bind {β : Type} (s : Surface) (j : Nat)
    (f : Element → Element) (i : Nat) (g : Element → Option β)
    (hg : ∀ e, g (f e) = g e) :
    (lookupElem (updateElem s j f) i).bind g = (lookupElem s i).bind g := by
  simp only [lookupElem, updateElem]
  rw [find_map_fst _ _ (updateElem_entry_fst j f)]
  cases s.reg.elems.find? (fun p => p.1 = i) with
  | none => rfl
  | some p => by_cases h : p.1 = j <;> simp [h, hg]

theorem addCommand_reg (s : Surface) (n : CmdName) (i : Nat) (o : PropMap) :
    (addCommand s n i o).reg = s.reg := by
  unfold addCommand
  by_cases h : s.isDOM = true
  · rw [if_pos h]
  · rw [if_neg h]
    cases n <;> rfl

theorem elemProp_congr_reg {s1 s2 : Surface} (h : s1.reg = s2.reg)
    (i : Nat) (k : String) : elemProp s1 i k = elemProp s2 i k := by
  unfold elemProp lookupElem
  rw [h]

theorem elemStates_congr_reg {s1 s2 : Surface} (h : s1.reg = s2.reg)
    (i : Nat) : elemStates s1 i = elemStates s2 i := by
  unfold elemStates lookupElem
  rw [h]

theorem elemProp_addChild (s : Surface) (p c : Nat) (i : Nat) (k : String) :
    elemProp (addChild s p c) i k = elemProp s i k := by
  simp only [addChild, elemProp]
  rw [lookupElem_updateElem_bind _ c (fun e => { e with parent := some p }) i
      (fun e => getP e.props k) (fun e => rfl),
    lookupElem_updateElem_bind _ p
      (fun e => if c ∈ e.children then e
        else { e with children := e.children ++ [c] }) i
      (fun e => getP e.props k)
      (fun e => by by_cases h : c ∈ e.children <;> simp [h])]

theorem elemStates_addChild (s : Surface) (p c : Nat) (i : Nat) :
    elemStates (addChild s p c) i = elemStates s i := by
  simp only [addChild, elemStates]
  rw [lookupElem_updateElem_map _ c (fun e => { e with parent := some p }) i
      (fun e => e.states) (fun e => rfl),
    lookupElem_updateElem_map _ p
      (fun e => if c ∈ e.children then e
        else { e with children := e.children ++ [c] }) i
      (fun e => e.states)
      (fun e => by by_cases h : c ∈ e.children <;> simp [h])]

/-- Reduction of one plain-key step of the `_.each` of `set`. -/
theorem setLoop_cons_plain (f : Nat) (s : Surface) (elId : Nat)
    (k : String) (v : Val) (rest : PropMap)
    (h1 : ¬(k = "parent")) (h2 : ¬(k = "states")) (h3 : ¬(k = "state"))
    (h4 : ¬(k = "shape")) :
    setLoop (f + 1) s elId ((k, v) :: rest) =
      (match lookupElem s elId with
       | none => Except.error Err.missingElement
       | some e =>
         if getP e.props k = some v then setLoop f s elId rest
         else do
           let s1 := updateElem s elId
             (fun e => { e with props := setP e.props k v })
           let sc ← setLoop f s1 elId rest
           Except.ok (sc.1, sc.2 + 1)) := by
  have base : setLoop (f + 1) s elId ((k, v) :: rest) =
    (if k = "parent" then
      match v with
      | Val.ref pid => do
        let s1 :=
          match (lookupElem s elId).bind (·.parent) with
          | some oldp => removeChild s oldp elId
          | none => s
        let s2 := addChild s1 pid elId
        let sc ← setLoop f s2 elId rest
        Except.ok (sc.1, sc.2 + 1)
      | _ => Except.error Err.typeError
    else if k = "states" then
      match v with
      | Val.states defs =>
        let s1 := updateElem s elId
          (fun e => { e with states := addStatesList e.states defs })
        setLoop f s1 elId rest
      | _ => setLoop f s elId rest
    else if k = "state" then do
      let s1 ← setStateM f s elId v
      let sc ← setLoop f s1 elId rest
      Except.ok (sc.1, sc.2 + 1)
    else if k = "shape" then do
      let sc ← setLoop f s elId rest
      Except.ok (sc.1, sc.2 + 1)
    else
      match lookupElem s elId with
      | none => Except.error Err.missingElement
      | some e =>
        if getP e.props k = some v then setLoop f s elId rest
        else do
          let s1 := updateElem s elId
            (fun e => { e with props := setP e.props k v })
          let sc ← setLoop f s1 elId rest
          Except.ok (sc.1, sc.2 + 1)) := rfl
  rw [base, if_neg h1, if_neg h2, if_neg h3, if_neg h4]

/-- `setLoop` over plain non-reserved keys with no duplicates leaves the
element's display states alone, ends with every listed key holding its
listed value, and leaves every other property untouched. -/
theorem setLoop_plain_props (elId : Nat) :
    ∀ fuel (m : PropMap) (s : Surface) (sc : Surface × Nat),
      (∀ kv ∈ m, kv.1 ≠ "parent" ∧ kv.1 ≠ "states" ∧ kv.1 ≠ "state" ∧
        kv.1 ≠ "shape") →
      (m.map Prod.fst).Nodup →
      setLoop fuel s elId m = Except.ok sc →
      elemStates sc.1 elId = elemStates s elId ∧
      (∀ kv ∈ m, elemProp sc.1 elId kv.1 = some kv.2) ∧
      (∀ k, k ∉ m.map Prod.fst → elemProp sc.1 elId k = elemProp s elId k) := by
  intro fuel
  induction fuel with
  | zero => intro m s sc _ _ h; cases h
  | succ f ih =>
    intro m s sc hm hnd h
    match m with
    | [] =>
      cases h
      refine ⟨rfl, ?_, ?_⟩
      · intro kv hkv
        cases hkv
      · intro k _
        rfl
    | (k, v) :: rest =>
      obtain ⟨h1, h2, h3, h4⟩ := hm (k, v) (List.mem_cons_self _ _)
      simp only [List.map_cons] at hnd
      have hknotin : k ∉ rest.map Prod.fst := (List.nodup_cons.mp hnd).1
      have hndr : (rest.map Prod.fst).Nodup := (List.nodup_cons.mp hnd).2
      have hmr : ∀ kv ∈ rest, kv.1 ≠ "parent" ∧ kv.1 ≠ "states" ∧
          kv.1 ≠ "state" ∧ kv.1 ≠ "shape" :=
        fun kv hkv => hm kv (List.mem_cons_of_mem _ hkv)
      rw [setLoop_cons_plain f s elId k v rest h1 h2 h3 h4] at h
      split at h
      · cases h
      next e he =>
        split at h
        next hskip =>
          obtain ⟨ihst, ihmem, ihoff⟩ := ih rest s sc hmr hndr h
          refine ⟨ihst, ?_, ?_⟩
          · intro kv hkv
            rcases List.mem_cons.mp hkv with rfl | hkv
            · rw [ihoff k hknotin]
              unfold elemProp
              rw [he]
              exact hskip
            · exact ihmem kv hkv
          · intro k2 hk2
            exact ihoff k2 (fun hc => hk2 (List.mem_cons_of_mem _ hc))
        next hskip =>
          simp only [bind, Except.bind] at h
          split at h
          next er h0 => cases h
          next sc0 h0 =>
            cases h
            obtain ⟨ihst, ihmem, ihoff⟩ := ih rest _ sc0 hmr hndr h0
            have hst1 : elemStates (updateElem s elId
                (fun e => { e with props := setP e.props k v })) elId =
                elemStates s elId :=
              lookupElem_updateElem_map _ _ _ _ _ (fun e => rfl)
            have hp1 : elemProp (updateElem s elId
                (fun e => { e with props := setP e.props k v })) elId k =
                some v := by
              unfold elemProp
              rw [lookupElem_updateElem_self, he]
              exact getP_setP_self e.props k v
            have hpoff : ∀ k2, k2 ≠ k → elemProp (updateElem s elId
                (fun e => { e with props := setP e.props k v })) elId k2 =
                elemProp s elId k2 := by
              intro k2 hk2
              unfold elemProp
              exact lookupElem_updateElem_bind _ _ _ _ _
                (fun e => getP_setP_ne hk2)
            refine ⟨ihst.trans hst1, ?_, ?_⟩
            · intro kv hkv
              rcases List.mem_cons.mp hkv with rfl | hkv
              · rw [ihoff k hknotin]
                exact hp1
              · exact ihmem kv hkv
            · intro k2 hk2
              have hk2k : k2 ≠ k := fun hc => hk2 (hc ▸ List.mem_cons_self _ _)
              have hk2r : k2 ∉ rest.map Prod.fst :=
                fun hc => hk2 (List.mem_cons_of_mem _ hc)
              rw [ihoff k2 hk2r]
              exact hpoff k2 hk2k

/-- A successful depth-0 `set` over plain non-reserved keys with no
duplicates leaves the element's display states alone, ends with every
listed key holding its listed value, and leaves every other property
untouched (the auto-attach step can reparent, but touches no property). -/
theorem setM_plain_props (f : Nat) (s : Surface) (elId : Nat) (m : PropMap)
    (s' : Surface)
    (hm : ∀ kv ∈ m, kv.1 ≠ "parent" ∧ kv.1 ≠ "states" ∧ kv.1 ≠ "state" ∧
      kv.1 ≠ "shape")
    (hnd : (m.map Prod.fst).Nodup)
    (h : setM f s elId m 0 = Except.ok s') :
    elemStates s' elId = elemStates s elId ∧
    (∀ kv ∈ m, elemProp s' elId kv.1 = some kv.2) ∧
    (∀ k, k ∉ m.map Prod.fst → elemProp s' elId k = elemProp s elId k) := by
  cases f with
  | zero => cases h
  | succ f =>
    unfold setM at h
    split at h
    · cases h
    next e0 he0 =>
      simp only [bind, Except.bind] at h
      split at h
      next er hc => cases h
      next sc hc =>
        obtain ⟨hst, hmem, hoff⟩ := setLoop_plain_props elId f m s sc hm hnd hc
        generalize hx : (if sc.2 ≠ 0 then elementUpdated sc.1 elId m
          else sc.1) = x at h
        have hxst : elemStates x elId = elemStates sc.1 elId := by
          rw [← hx]
          split
          · exact elemStates_congr_reg
              (addCommand_reg sc.1 CmdName.update elId m) elId
          · rfl
        have hxp : ∀ k, elemProp x elId k = elemProp sc.1 elId k := by
          intro k
          rw [← hx]
          split
          · exact elemProp_congr_reg
              (addCommand_reg sc.1 CmdName.update elId m) elId k
          · rfl
        have main : elemStates s' elId = elemStates x elId ∧
            ∀ k, elemProp s' elId k = elemProp x elId k := by
          split at h
          next hcond =>
            split at h
            · cases h
            next r hr =>
              simp only [pure, Except.pure, if_true] at h
              cases h
              exact ⟨elemStates_addChild x r elId elId,
                fun k => elemProp_addChild x r elId elId k⟩
          next hcond =>
            simp only [pure, Except.pure, if_true] at h
            cases h
            exact ⟨rfl, fun k => rfl⟩
        refine ⟨(main.1.trans hxst).trans hst, ?_, ?_⟩
        · intro kv hkv
          rw [main.2 kv.1, hxp kv.1]
          exact hmem kv hkv
        · intro k hk
          rw [main.2 k, hxp k]
          exact hoff k hk

theorem setStateM_list (f : Nat) (s : Surface) (elId : Nat)
    (names : List Scalar) :
    setStateM (f + 1) s elId (Val.list names) =
      setStateGo f s elId [] names := rfl

theorem setStateGo_nil (f : Nat) (s : Surface) (elId : Nat)
    (acc : List (String × List Scalar)) :
    setStateGo (f + 1) s elId acc [] = Except.ok s := rfl

/-- Reduction of one step of the `setState` array loop. -/
theorem setStateGo_cons (f : Nat) (s : Surface) (elId : Nat)
    (acc : List (String × List Scalar)) (name : String)
    (rest : List Scalar) :
    setStateGo (f + 1) s elId acc (Scalar.str name :: rest) =
      (match lookupElem s elId with
       | none => Except.error Err.missingElement
       | some e =>
         match lookupState e.states name with
         | none => Except.error Err.unregisteredState
         | some props => do
            let s1 ← setM f s elId
              ((accState acc props).map (fun kp => (kp.1, Val.list kp.2))) 0
            setStateGo f s1 elId (accState acc props) rest) := rfl

theorem pushAcc_keys (acc : List (String × List Scalar)) (k : String)
    (v : Scalar) :
    (pushAcc acc k v).map Prod.fst =
      if k ∈ acc.map Prod.fst then acc.map Prod.fst
      else acc.map Prod.fst ++ [k] := by
  induction acc with
  | nil => simp [pushAcc]
  | cons a rest ih =>
    obtain ⟨k1, l1⟩ := a
    by_cases h : k1 = k
    · simp [pushAcc, h]
    · have h' : ¬(k = k1) := fun hc => h hc.symm
      by_cases hm : k ∈ rest.map Prod.fst <;>
        simp [pushAcc, h, h', ih, hm]

theorem accState_keys_sub :
    ∀ (stp : StateProps) (acc : List (String × List Scalar)),
      (∀ kv ∈ stp, kv.1 ∈ acc.map Prod.fst) →
      (accState acc stp).map Prod.fst = acc.map Prod.fst := by
  intro stp
  induction stp with
  | nil => intro acc _; rfl
  | cons a rest ih =>
    intro acc hsub
    obtain ⟨k, v⟩ := a
    have hk : k ∈ acc.map Prod.fst := hsub (k, v) (List.mem_cons_self _ _)
    have hkeys : (pushAcc acc k v).map Prod.fst = acc.map Prod.fst := by
      rw [pushAcc_keys, if_pos hk]
    calc (accState acc ((k, v) :: rest)).map Prod.fst
        = (accState (pushAcc acc k v) rest).map Prod.fst := rfl
      _ = (pushAcc acc k v).map Prod.fst := ih (pushAcc acc k v)
          (fun kv hkv => by rw [hkeys]; exact hsub kv (List.mem_cons_of_mem _ hkv))
      _ = acc.map Prod.fst := hkeys

theorem accState_keys_disjoint :
    ∀ (stp : StateProps) (acc : List (String × List Scalar)),
      (stp.map Prod.fst).Nodup →
      (∀ kv ∈ stp, kv.1 ∉ acc.map Prod.fst) →
      (accState acc stp).map Prod.fst =
        acc.map Prod.fst ++ stp.map Prod.fst := by
  intro stp
  induction stp with
  | nil => intro acc _ _; simp [accState]
  | cons a rest ih =>
    intro acc hnd hdis
    obtain ⟨k, v⟩ := a
    simp only [List.map_cons] at hnd
    have hk : k ∉ acc.map Prod.fst := hdis (k, v) (List.mem_cons_self _ _)
    have hkeys : (pushAcc acc k v).map Prod.fst = acc.map Prod.fst ++ [k] := by
      rw [pushAcc_keys, if_neg hk]
    have hknr : k ∉ rest.map Prod.fst := (List.nodup_cons.mp hnd).1
    have ihh := ih (pushAcc acc k v) (List.nodup_cons.mp hnd).2 (fun kv hkv => by
      rw [hkeys]
      intro hc
      rcases List.mem_append.mp hc with hc | hc
      · exact hdis kv (List.mem_cons_of_mem _ hkv) hc
      · have hmm : kv.1 ∈ rest.map Prod.fst := List.mem_map_of_mem Prod.fst hkv
        rw [List.mem_singleton.mp hc] at hmm
        exact hknr hmm)
    calc (accState acc ((k, v) :: rest)).map Prod.fst
        = (accState (pushAcc acc k v) rest).map Prod.fst := rfl
      _ = (pushAcc acc k v).map Prod.fst ++ rest.map Prod.fst := ihh
      _ = acc.map Prod.fst ++ [k] ++ rest.map Prod.fst := by rw [hkeys]
      _ = acc.map Prod.fst ++ (k :: rest.map Prod.fst) := by simp

theorem find_of_mem_keys {α β : Type} [DecidableEq α] (l : List (α × β))
    (k : α) (hk : k ∈ l.map Prod.fst) :
    ∃ v, l.find? (fun p => p.1 = k) = some (k, v) ∧ (k, v) ∈ l := by
  induction l with
  | nil => cases hk
  | cons a rest ih =>
    obtain ⟨a1, a2⟩ := a
    by_cases h : a1 = k
    · subst h
      exact ⟨a2, by simp [List.find?_cons], List.mem_cons_self _ _⟩
    · simp only [List.map_cons] at hk
      rcases List.mem_cons.mp hk with hk1 | hk2
      · exact absurd hk1.symm h
      · obtain ⟨v, hfind, hmem⟩ := ih hk2
        exact ⟨v, by simp [List.find?_cons, h, hfind],
          List.mem_cons_of_mem _ hmem⟩

theorem liftAcc_map_keys (acc : List (String × List Scalar)) :
    (acc.map (fun kp => (kp.1, Val.list kp.2))).map Prod.fst =
      acc.map Prod.fst := by
  induction acc with
  | nil => rfl
  | cons a r ih => simp [ih]

/-- Through the `setState` array loop the element's display states are
unchanged and, at the end, every property key of the (common) key list
holds the accumulated array of the named states' values. -/
theorem setStateGo_props (elId : Nat) (st : List (String × StateProps))
    (ks : List String) (hksnd : ks.Nodup)
    (hkplain : ∀ k ∈ ks, k ≠ "parent" ∧ k ≠ "states" ∧ k ≠ "state" ∧
      k ≠ "shape") :
    ∀ fuel (ns : List String) (acc : List (String × List Scalar))
      (s s' : Surface),
      elemStates s elId = some st →
      (∀ n ∈ ns, ∃ stp, lookupState st n = some stp ∧
        stp.map Prod.fst = ks) →
      (acc.map Prod.fst = ks ∨ acc = []) →
      ns ≠ [] →
      setStateGo fuel s elId acc (ns.map Scalar.str) = Except.ok s' →
      elemStates s' elId = some st ∧
      ∀ k ∈ ks, elemProp s' elId k =
        some (Val.list ((lookupList (accFold st acc ns) k).getD [])) := by
  intro fuel
  induction fuel with
  | zero => intro ns acc s s' _ _ _ _ h; cases h
  | succ f ih =>
    intro ns acc s s' hst hns hacc hne h
    cases ns with
    | nil => exact absurd rfl hne
    | cons n restNs =>
      obtain ⟨stp, hstp, hstpk⟩ := hns n (List.mem_cons_self _ _)
      simp only [List.map_cons] at h
      rw [setStateGo_cons] at h
      split at h
      · cases h
      next e he =>
        split at h
        · cases h
        next stp0 hstp0 =>
          have hest : e.states = st := by
            simp only [elemStates, he, Option.map_some'] at hst
            exact Option.some.inj hst
          rw [hest] at hstp0
          have hstpeq : stp0 = stp := Option.some.inj (hstp0.symm.trans hstp)
          rw [hstpeq] at h
          simp only [bind, Except.bind] at h
          split at h
          next er h1 => cases h
          next s1 h1 =>
            have hstpk' : ∀ kv ∈ stp, kv.1 ∈ ks := fun kv hkv => by
              rw [← hstpk]
              exact List.mem_map_of_mem Prod.fst hkv
            have hk1 : (accState acc stp).map Prod.fst = ks := by
              rcases hacc with hacc | hacc
              · rw [accState_keys_sub stp acc
                  (fun kv hkv => by rw [hacc]; exact hstpk' kv hkv), hacc]
              · subst hacc
                have hdis := accState_keys_disjoint stp []
                  (by rw [hstpk]; exact hksnd) (fun kv _ => by simp)
                rw [hdis, hstpk]
                rfl
            have hmp : ∀ kv ∈ (accState acc stp).map
                (fun kp => (kp.1, Val.list kp.2)),
                kv.1 ≠ "parent" ∧ kv.1 ≠ "states" ∧ kv.1 ≠ "state" ∧
                  kv.1 ≠ "shape" := by
              intro kv hkv
              refine hkplain kv.1 ?_
              have hmm := List.mem_map_of_mem Prod.fst hkv
              rw [liftAcc_map_keys, hk1] at hmm
              exact hmm
            have hmnd : (((accState acc stp).map
                (fun kp => (kp.1, Val.list kp.2))).map Prod.fst).Nodup := by
              rw [liftAcc_map_keys, hk1]
              exact hksnd
            obtain ⟨hstL, hmemL, hoffL⟩ :=
              setM_plain_props f s elId _ s1 hmp hmnd h1
            have hstS1 : elemStates s1 elId = some st := hstL.trans hst
            by_cases hrest : restNs = []
            · subst hrest
              cases f with
              | zero => cases h
              | succ f2 =>
                simp only [List.map_nil] at h
                rw [setStateGo_nil] at h
                cases h
                refine ⟨hstS1, ?_⟩
                intro k hk
                have hkin : k ∈ (accState acc stp).map Prod.fst := by
                  rw [hk1]
                  exact hk
                obtain ⟨l, hfind, hmem⟩ := find_of_mem_keys _ k hkin
                have hlk : lookupList (accState acc stp) k = some l := by
                  unfold lookupList
                  rw [hfind]
                  rfl
                have hfold : accFold st acc [n] = accState acc stp := by
                  unfold accFold
                  simp [hstp]
                rw [hfold, hlk]
                simp only [Option.getD_some]
                exact hmemL (k, Val.list l) (List.mem_map.mpr ⟨(k, l), hmem, rfl⟩)
            · obtain ⟨hstF, hpropF⟩ := ih restNs (accState acc stp) s1 s'
                hstS1 (fun n2 hn2 => hns n2 (List.mem_cons_of_mem _ hn2))
                (Or.inl hk1) hrest h
              refine ⟨hstF, ?_⟩
              intro k hk
              have hfold : accFold st acc (n :: restNs) =
                  accFold st (accState acc stp) restNs := by
                unfold accFold
                rw [List.foldl_cons, hstp]
                rfl
              rw [hfold]
              exact hpropF k hk

theorem lookupList_cons (ka : String) (la : List Scalar)
    (rest : List (String × List Scalar)) (k : String) :
    lookupList ((ka, la) :: rest) k =
      if ka = k then some la else lookupList rest k := by
  by_cases h : ka = k <;> simp [lookupList, List.find?_cons, h]

theorem lookupScalar_cons (k0 : String) (v0 : Scalar) (rest : StateProps)
    (k : String) :
    lookupScalar ((k0, v0) :: rest) k =
      if k0 = k then some v0 else lookupScalar rest k := by
  by_cases h : k0 = k <;> simp [lookupScalar, List.find?_cons, h]

theorem lookupScalar_eq_none (stp : StateProps) (k : String)
    (h : k ∉ stp.map Prod.fst) : lookupScalar stp k = none := by
  induction stp with
  | nil => rfl
  | cons a rest ih =>
    obtain ⟨k0, v0⟩ := a
    simp only [List.map_cons] at h
    rw [lookupScalar_cons, if_neg ?hne]
    case hne =>
      intro hc
      apply h
      rw [← hc]
      exact List.mem_cons_self _ _
    exact ih (fun hc => h (List.mem_cons_of_mem _ hc))

theorem pushAcc_nil (k2 : String) (v : Scalar) :
    pushAcc [] k2 v = [(k2, [v])] := rfl

theorem pushAcc_cons (ka : String) (la : List Scalar)
    (rest : List (String × List Scalar)) (k2 : String) (v : Scalar) :
    pushAcc ((ka, la) :: rest) k2 v =
      if ka = k2 then (ka, la ++ [v]) :: rest
      else (ka, la) :: pushAcc rest k2 v := rfl

theorem pushAcc_lookup (acc : List (String × List Scalar)) (k2 : String)
    (v : Scalar) (k : String) :
    (lookupList (pushAcc acc k2 v) k).getD [] =
      if k = k2 then (lookupList acc k).getD [] ++ [v]
      else (lookupList acc k).getD [] := by
  induction acc with
  | nil =>
    rw [pushAcc_nil, lookupList_cons]
    by_cases h : k = k2
    · subst h
      rw [if_pos rfl, if_pos rfl]
      rfl
    · have h' : ¬(k2 = k) := fun hc => h hc.symm
      rw [if_neg h', if_neg h]
  | cons a rest ih =>
    obtain ⟨ka, la⟩ := a
    rw [pushAcc_cons]
    by_cases h2 : ka = k2
    · rw [if_pos h2, lookupList_cons, lookupList_cons]
      by_cases h : ka = k
      · rw [if_pos h, if_pos h, if_pos (h.symm.trans h2)]
        rfl
      · rw [if_neg h, if_neg h,
          if_neg (fun hc : k = k2 => h (h2.trans hc.symm))]
    · rw [if_neg h2, lookupList_cons, lookupList_cons]
      by_cases h : ka = k
      · rw [if_pos h, if_pos h,
          if_neg (fun hc : k = k2 => h2 (h.trans hc))]
      · rw [if_neg h, if_neg h]
        exact ih

theorem accState_lookup :
    ∀ (stp : StateProps) (acc : List (String × List Scalar)) (k : String),
      (stp.map Prod.fst).Nodup →
      (lookupList (accState acc stp) k).getD [] =
        (lookupList acc k).getD [] ++ (lookupScalar stp k).toList := by
  intro stp
  induction stp with
  | nil =>
    intro acc k _
    simp [accState, lookupScalar]
  | cons a rest ih =>
    intro acc k hnd
    obtain ⟨k0, v0⟩ := a
    simp only [List.map_cons] at hnd
    have hred : accState acc ((k0, v0) :: rest) =
        accState (pushAcc acc k0 v0) rest := rfl
    rw [hred, ih (pushAcc acc k0 v0) k (List.nodup_cons.mp hnd).2,
      pushAcc_lookup, lookupScalar_cons]
    by_cases h : k = k0
    · subst h
      rw [if_pos rfl, if_pos rfl]
      have hnin : k ∉ rest.map Prod.fst := (List.nodup_cons.mp hnd).1
      rw [lookupScalar_eq_none rest k hnin]
      simp
    · rw [if_neg h, if_neg (fun hc : k0 = k => h hc.symm)]

theorem accFold_lookup (st : List (String × StateProps)) (ks : List String)
    (hksnd : ks.Nodup) (k : String) (hk : k ∈ ks) :
    ∀ (ns : List String) (acc : List (String × List Scalar)),
      (∀ n ∈ ns, ∃ stp, lookupState st n = some stp ∧
        stp.map Prod.fst = ks) →
      (lookupList (accFold st acc ns) k).getD [] =
        (lookupList acc k).getD [] ++ ns.map (fun n =>
          ((lookupState st n).bind (fun stp => lookupScalar stp k)).getD
            Scalar.undef) := by
  intro ns
  induction ns with
  | nil =>
    intro acc _
    simp [accFold]
  | cons n rest ih =>
    intro acc hns
    obtain ⟨stp, hstp, hstpk⟩ := hns n (List.mem_cons_self _ _)
    have hred : accFold st acc (n :: rest) =
        accFold st (accState acc stp) rest := by
      unfold accFold
      rw [List.foldl_cons, hstp]
      rfl
    rw [hred, ih (accState acc stp)
        (fun n2 hn2 => hns n2 (List.mem_cons_of_mem _ hn2)),
      accState_lookup stp acc k (by rw [hstpk]; exact hksnd),
      List.map_cons, hstp]
    have hkin : k ∈ stp.map Prod.fst := by
      rw [hstpk]
      exact hk
    obtain ⟨v, hfind, _⟩ := find_of_mem_keys stp k hkin
    have hv : lookupScalar stp k = some v := by
      unfold lookupScalar
      rw [hfind]
      rfl
    simp [hv]

theorem stateSeqWrite_keys (st : List (String × StateProps))
    (ks ns : List String) :
    (stateSeqWrite st ks ns).map Prod.fst = ks := by
  unfold stateSeqWrite
  induction ks with
  | nil => rfl
  | cons a r ih => simp only [List.map_cons, ih]

/-- C6: applying an array of registered state names that all define the
same ordered key list is the sequence-valued write `set({p: [v1..vN]})`:
after `setState([n1..nN])` every property key the states define holds the
list whose position `i` is the value the `i`-th named state defines for
it, and a direct `set` of that sequence-valued options map leaves the
element with exactly the same property values. -/
theorem c6_setState_array_is_sequence_write
    (fuel fuel2 : Nat) (s : Surface) (elId : Nat)
    (st : List (String × StateProps)) (ks ns : List String)
    (s1 s2 : Surface)
    (hst : elemStates s elId = some st)
    (hksnd : ks.Nodup)
    (hkplain : ∀ k ∈ ks, k ≠ "parent" ∧ k ≠ "states" ∧ k ≠ "state" ∧
      k ≠ "shape")
    (hns : ∀ n ∈ ns, ∃ stp, lookupState st n = some stp ∧
      stp.map Prod.fst = ks)
    (hne : ns ≠ [])
    (h1 : setStateM fuel s elId (Val.list (ns.map Scalar.str)) =
      Except.ok s1)
    (h2 : setM fuel2 s elId (stateSeqWrite st ks ns) 0 = Except.ok s2) :
    ∀ k ∈ ks,
      elemProp s1 elId k = some (Val.list (ns.map (fun n =>
        ((lookupState st n).bind (fun stp => lookupScalar stp k)).getD
          Scalar.undef))) ∧
      elemProp s2 elId k = elemProp s1 elId k := by
  cases fuel with
  | zero => cases h1
  | succ f =>
    rw [setStateM_list] at h1
    obtain ⟨hstF, hprop1⟩ := setStateGo_props elId st ks hksnd hkplain f ns []
      s s1 hst hns (Or.inr rfl) hne h1
    have hkeys2 : (stateSeqWrite st ks ns).map Prod.fst = ks :=
      stateSeqWrite_keys st ks ns
    have hmp2 : ∀ kv ∈ stateSeqWrite st ks ns, kv.1 ≠ "parent" ∧
        kv.1 ≠ "states" ∧ kv.1 ≠ "state" ∧ kv.1 ≠ "shape" := by
      intro kv hkv
      refine hkplain kv.1 ?_
      have hmm := List.mem_map_of_mem Prod.fst hkv
      rw [hkeys2] at hmm
      exact hmm
    have hmnd2 : ((stateSeqWrite st ks ns).map Prod.fst).Nodup := by
      rw [hkeys2]
      exact hksnd
    obtain ⟨hst2, hmem2, hoff2⟩ :=
      setM_plain_props fuel2 s elId _ s2 hmp2 hmnd2 h2
    intro k hk
    have hval1 : elemProp s1 elId k = some (Val.list (ns.map (fun n =>
        ((lookupState st n).bind (fun stp => lookupScalar stp k)).getD
          Scalar.undef))) := by
      rw [hprop1 k hk, accFold_lookup st ks hksnd k hk ns [] hns]
      simp [lookupList]
    refine ⟨hval1, ?_⟩
    rw [hval1]
    exact hmem2 (k, Val.list (ns.map (fun n =>
        ((lookupState st n).bind (fun stp => lookupScalar stp k)).getD
          Scalar.undef)))
      (List.mem_map.mpr ⟨k, hk, rfl⟩)

/-- C6 witness: applying `["ks_red", "ks_green"]` to element 1 of `c5S1`
and directly `set`ting the corresponding sequence-valued options map both
succeed, produce the same surface, and leave `fill = [iRED, iGREEN]`. -/
theorem c6_witness :
    setStateM 60 c5S1 1
      (Val.list [Scalar.str "ks_red", Scalar.str "ks_green"]) =
      Except.ok c6S1 ∧
    setM 60 c5S1 1
      (stateSeqWrite c6St ["fill", "stroke", "pen"]
        ["ks_red", "ks_green"]) 0 = Except.ok c6S1 ∧
    elemProp c6S1 1 "fill" =
      some (Val.list [Scalar.str "iRED", Scalar.str "iGREEN"]) := by
  have h1 : setStateM 60 c5S1 1
      (Val.list [Scalar.str "ks_red", Scalar.str "ks_green"]) =
      Except.ok c6S1 := by decide
  have h2 : setM 60 c5S1 1
      (stateSeqWrite c6St ["fill", "stroke", "pen"]
        ["ks_red", "ks_green"]) 0 = Except.ok c6S1 := by decide
  have hns : ∀ n ∈ ["ks_red", "ks_green"], ∃ stp,
      lookupState c6St n = some stp ∧
      stp.map Prod.fst = ["fill", "stroke", "pen"] := by
    intro n hn
    fin_cases hn
    · exact ⟨[("fill", Scalar.str "iRED"), ("stroke", Scalar.str "iRED"),
        ("pen", Scalar.str "iWHITE")], by decide, by decide⟩
    · exact ⟨[("fill", Scalar.str "iGREEN"),
        ("stroke", Scalar.str "iGREEN"),
        ("pen", Scalar.str "iWHITE")], by decide, by decide⟩
  have hmain := c6_setState_array_is_sequence_write 60 60 c5S1 1 c6St
    ["fill", "stroke", "pen"] ["ks_red", "ks_green"] c6S1 c6S1
    (by decide) (by decide) (by decide) hns (by decide) h1 h2
  exact ⟨h1, h2, (hmain "fill" (by decide)).1.trans (by decide)⟩

theorem lookupElem_updateElem (s : Surface) (j : Nat) (f : Element → Element)
    (i : Nat) :
    lookupElem (updateElem s j f) i =
      if i = j then (lookupElem s i).map f else lookupElem s i := by
  simp only [lookupElem, updateElem]
  rw [find_map_fst _ _ (updateElem_entry_fst j f)]
  cases hf : s.reg.elems.find? (fun p => p.1 = i) with
  | none => by_cases h : i = j <;> simp [h]
  | some p =>
    have hp : p.1 = i := by simpa using List.find?_some hf
    by_cases h : i = j
    · rw [if_pos h]
      simp [hp, h]
    · rw [if_neg h]
      simp [hp, h]

theorem updateElem_nextID (s : Surface) (j : Nat) (f : Element → Element) :
    (updateElem s j f).reg.nextID = s.reg.nextID := rfl

theorem updateElem_rootId (s : Surface) (j : Nat) (f : Element → Element) :
    (updateElem s j f).rootId = s.rootId := rfl

theorem addCommand_rootId (s : Surface) (n : CmdName) (i : Nat)
    (o : PropMap) : (addCommand s n i o).rootId = s.rootId := by
  unfold addCommand
  by_cases h : s.isDOM = true
  · rw [if_pos h]
  · rw [if_neg h]
    cases n <;> rfl

theorem exist_updateElem (s : Surface) (j : Nat) (f : Element → Element)
    (i : Nat) :
    (lookupElem (updateElem s j f) i).isSome = (lookupElem s i).isSome := by
  rw [lookupElem_updateElem]
  by_cases h : i = j
  · rw [if_pos h]
    cases lookupElem s i <;> rfl
  · rw [if_neg h]

theorem cleanES_updateElem (s : Surface) (j : Nat) (f : Element → Element)
    (hf : ∀ e, cleanStateDefs e.states → cleanStateDefs (f e).states)
    (h : cleanElementStates s) : cleanElementStates (updateElem s j f) := by
  intro id el hl
  rw [lookupElem_updateElem] at hl
  by_cases hij : id = j
  · rw [if_pos hij] at hl
    cases hle : lookupElem s id with
    | none => rw [hle] at hl; cases hl
    | some e0 =>
      rw [hle] at hl
      cases hl
      exact hf e0 (h id e0 hle)
  · rw [if_neg hij] at hl
    exact h id el hl

theorem rootNC_updateElem (s : Surface) (j : Nat) (f : Element → Element)
    (hf : ∀ e, 0 ∉ e.children → 0 ∉ (f e).children)
    (h : rootNotChild s) : rootNotChild (updateElem s j f) := by
  intro id el hl
  rw [lookupElem_updateElem] at hl
  by_cases hij : id = j
  · rw [if_pos hij] at hl
    cases hle : lookupElem s id with
    | none => rw [hle] at hl; cases hl
    | some e0 =>
      rw [hle] at hl
      cases hl
      exact hf e0 (h id e0 hle)
  · rw [if_neg hij] at hl
    exact h id el hl

theorem rootUnparented_updateElem (s : Surface) (j : Nat)
    (f : Element → Element)
    (hf : ∀ e, e.parent = none → (f e).parent = none)
    (h : rootUnparented s) : rootUnparented (updateElem s j f) := by
  intro el hl
  rw [lookupElem_updateElem] at hl
  by_cases hij : (0 : Nat) = j
  · rw [if_pos hij] at hl
    cases hle : lookupElem s 0 with
    | none => rw [hle] at hl; cases hl
    | some e0 =>
      rw [hle] at hl
      cases hl
      exact hf e0 (h e0 hle)
  · rw [if_neg hij] at hl
    exact h el hl

theorem rootUnparented_updateElem_ne (s : Surface) (j : Nat)
    (f : Element → Element) (hj : j ≠ 0)
    (h : rootUnparented s) : rootUnparented (updateElem s j f) := by
  intro el hl
  rw [lookupElem_updateElem, if_neg (fun hc : (0 : Nat) = j => hj hc.symm)]
    at hl
  exact h el hl

theorem liveUX_updateElem (s : Surface) (j : Nat) (f : Element → Element)
    (x : Nat)
    (hf : ∀ e, (f e).parent = e.parent ∧ (f e).destroyed = e.destroyed)
    (h : liveUX s x) : liveUX (updateElem s j f) x := by
  intro id el hl hdes hne
  rw [lookupElem_updateElem] at hl
  by_cases hij : id = j
  · rw [if_pos hij] at hl
    cases hle : lookupElem s id with
    | none => rw [hle] at hl; cases hl
    | some e0 =>
      rw [hle] at hl
      cases hl
      rw [(hf e0).1]
      exact h id e0 hle (((hf e0).2).symm.trans hdes) hne
  · rw [if_neg hij] at hl
    exact h id el hl hdes hne

theorem liveUX_updateElem_self (s : Surface) (x : Nat)
    (f : Element → Element) (h : liveUX s x) :
    liveUX (updateElem s x f) x := by
  intro id el hl hdes hne
  rw [lookupElem_updateElem, if_neg hne] at hl
  exact h id el hl hdes hne

theorem elParented_updateElem_pres (s : Surface) (j : Nat)
    (f : Element → Element) (x : Nat)
    (hf : ∀ e, (f e).parent = e.parent)
    (h : elParented s x) : elParented (updateElem s j f) x := by
  intro el hl
  rw [lookupElem_updateElem] at hl
  by_cases hij : x = j
  · rw [if_pos hij] at hl
    cases hle : lookupElem s x with
    | none => rw [hle] at hl; cases hl
    | some e0 =>
      rw [hle] at hl
      cases hl
      rw [hf e0]
      exact h e0 hle
  · rw [if_neg hij] at hl
    exact h el hl

theorem elParented_addChild_self (s : Surface) (p c : Nat) :
    elParented (addChild s p c) c := by
  intro el hl
  simp only [addChild] at hl
  rw [lookupElem_updateElem, if_pos rfl] at hl
  cases hle : lookupElem (updateElem s p
      (fun e => if c ∈ e.children then e
        else { e with children := e.children ++ [c] })) c with
  | none => rw [hle] at hl; cases hl
  | some e0 =>
    rw [hle] at hl
    cases hl
    intro hc
    cases hc

theorem elParented_updateElem_ne (s : Surface) (j : Nat)
    (f : Element → Element) (x : Nat) (hj : j ≠ x)
    (h : elParented s x) : elParented (updateElem s j f) x := by
  intro el hl
  rw [lookupElem_updateElem, if_neg (fun hc : x = j => hj hc.symm)] at hl
  exact h el hl

theorem lookupElem_congr_reg {s1 s2 : Surface} (h : s1.reg = s2.reg)
    (i : Nat) : lookupElem s1 i = lookupElem s2 i := by
  unfold lookupElem
  rw [h]

theorem invCore_congr_reg {s1 s2 : Surface} (h : s1.reg = s2.reg)
    (hs : invCore s2) : invCore s1 := by
  obtain ⟨h1, h2, h3, h4⟩ := hs
  refine ⟨by rw [h]; exact h1, ?_, ?_, ?_⟩
  · intro id el hl
    rw [lookupElem_congr_reg h] at hl
    exact h2 id el hl
  · intro id el hl
    rw [lookupElem_congr_reg h] at hl
    exact h3 id el hl
  · intro el hl
    rw [lookupElem_congr_reg h] at hl
    exact h4 el hl

theorem liveUX_congr_reg {s1 s2 : Surface} (h : s1.reg = s2.reg) (x : Nat)
    (hs : liveUX s2 x) : liveUX s1 x := by
  intro id el hl
  rw [lookupElem_congr_reg h] at hl
  exact hs id el hl

theorem elParented_congr_reg {s1 s2 : Surface} (h : s1.reg = s2.reg)
    (x : Nat) (hs : elParented s2 x) : elParented s1 x := by
  intro el hl
  rw [lookupElem_congr_reg h] at hl
  exact hs el hl

theorem invCore_addChild (s : Surface) (p c : Nat) (hc : c ≠ 0)
    (h : invCore s) : invCore (addChild s p c) := by
  obtain ⟨h1, h2, h3, h4⟩ := h
  refine ⟨h1, ?_, ?_, ?_⟩
  · exact cleanES_updateElem _ _ _ (fun e he => he)
      (cleanES_updateElem _ _ _
        (fun e he => by by_cases hm : c ∈ e.children <;> simp [hm, he]) h2)
  · refine rootNC_updateElem _ _ _ (fun e he => he)
      (rootNC_updateElem _ _ _ ?_ h3)
    intro e he
    by_cases hm : c ∈ e.children
    · simpa [hm] using he
    · simp only [hm, if_false]
      intro hmem
      rcases List.mem_append.mp hmem with hmem | hmem
      · exact he hmem
      · exact hc (List.mem_singleton.mp hmem).symm
  · exact rootUnparented_updateElem_ne _ _ _ hc
      (rootUnparented_updateElem _ _ _ (fun e he => by
        by_cases hm : c ∈ e.children <;> simp [hm, he]) h4)

theorem liveUX_addChild (s : Surface) (p c : Nat) (hc : c ≠ 0) (x : Nat)
    (h : liveUX s x) : liveUX (addChild s p c) x := by
  intro id el hl hdes hne
  simp only [addChild] at hl
  rw [lookupElem_updateElem] at hl
  by_cases hid : id = c
  · rw [if_pos hid] at hl
    cases hle : lookupElem (updateElem s p
        (fun e => if c ∈ e.children then e
          else { e with children := e.children ++ [c] })) id with
    | none => rw [hle] at hl; cases hl
    | some e0 =>
      rw [hle] at hl
      cases hl
      constructor
      · intro hp
        cases hp
      · intro h0
        exact absurd (h0 ▸ hid : (0 : Nat) = c) (fun hh => hc hh.symm)
  · rw [if_neg hid] at hl
    rw [lookupElem_updateElem] at hl
    by_cases hip : id = p
    · rw [if_pos hip] at hl
      cases hle : lookupElem s id with
      | none => rw [hle] at hl; cases hl
      | some e0 =>
        rw [hle] at hl
        by_cases hm : c ∈ e0.children
        · simp only [Option.map_some', if_pos hm] at hl
          cases hl
          exact h id _ hle hdes hne
        · simp only [Option.map_some', if_neg hm] at hl
          cases hl
          exact h id e0 hle hdes hne
    · rw [if_neg hip] at hl
      exact h id el hl hdes hne

theorem exist_addChild (s : Surface) (p c i : Nat) :
    (lookupElem (addChild s p c) i).isSome = (lookupElem s i).isSome := by
  simp only [addChild]
  rw [exist_updateElem, exist_updateElem]

theorem exist_removeChild (s : Surface) (p c i : Nat) :
    (lookupElem (removeChild s p c) i).isSome = (lookupElem s i).isSome := by
  simp only [removeChild]
  rw [exist_updateElem, exist_updateElem]

theorem invCore_removeChild (s : Surface) (p c : Nat) (hc : c ≠ 0)
    (h : invCore s) : invCore (removeChild s p c) := by
  obtain ⟨h1, h2, h3, h4⟩ := h
  refine ⟨h1, ?_, ?_, ?_⟩
  · exact cleanES_updateElem _ _ _ (fun e he => he)
      (cleanES_updateElem _ _ _ (fun e he => he) h2)
  · refine rootNC_updateElem _ _ _ (fun e he => he)
      (rootNC_updateElem _ _ _ ?_ h3)
    intro e he hmem
    exact he (List.erase_subset _ _ hmem)
  · exact rootUnparented_updateElem_ne _ _ _ hc
      (rootUnparented_updateElem _ _ _ (fun e he => he) h4)

theorem liveUX_removeChild_self (s : Surface) (p : Nat) (x : Nat)
    (h : liveUX s x) : liveUX (removeChild s p x) x := by
  refine liveUX_updateElem_self _ _ _ (liveUX_updateElem _ _ _ _ ?_ h)
  intro e
  constructor <;> rfl

theorem reparent_invCore (s : Surface) (elId pid : Nat) (helid : elId ≠ 0)
    (h : invCore s) :
    invCore (addChild
      (match (lookupElem s elId).bind (fun e => e.parent) with
       | some oldp => removeChild s oldp elId
       | none => s) pid elId) := by
  split
  · exact invCore_addChild _ _ _ helid (invCore_removeChild _ _ _ helid h)
  · exact invCore_addChild _ _ _ helid h

theorem reparent_liveUX (s : Surface) (elId pid : Nat) (helid : elId ≠ 0)
    (hx : liveUX s elId) :
    liveUX (addChild
      (match (lookupElem s elId).bind (fun e => e.parent) with
       | some oldp => removeChild s oldp elId
       | none => s) pid elId) elId := by
  split
  · exact liveUX_addChild _ _ _ helid _ (liveUX_removeChild_self _ _ _ hx)
  · exact liveUX_addChild _ _ _ helid _ hx

theorem reparent_exist (s : Surface) (elId pid : Nat) (i : Nat) :
    (lookupElem (addChild
      (match (lookupElem s elId).bind (fun e => e.parent) with
       | some oldp => removeChild s oldp elId
       | none => s) pid elId) i).isSome = (lookupElem s i).isSome := by
  rw [exist_addChild]
  split
  · rw [exist_removeChild]
  · rfl

theorem reparent_rootId (s : Surface) (elId pid : Nat) :
    (addChild
      (match (lookupElem s elId).bind (fun e => e.parent) with
       | some oldp => removeChild s oldp elId
       | none => s) pid elId).rootId = s.rootId := by
  split <;> rfl

theorem setLoop_cons_parent (f : Nat) (s : Surface) (elId : Nat) (v : Val)
    (rest : PropMap) :
    setLoop (f + 1) s elId (("parent", v) :: rest) =
      (match v with
       | Val.ref pid => do
         let s1 :=
           match (lookupElem s elId).bind (·.parent) with
           | some oldp => removeChild s oldp elId
           | none => s
         let s2 := addChild s1 pid elId
         let sc ← setLoop f s2 elId rest
         Except.ok (sc.1, sc.2 + 1)
       | _ => Except.error Err.typeError) := rfl

theorem setLoop_cons_states (f : Nat) (s : Surface) (elId : Nat) (v : Val)
    (rest : PropMap) :
    setLoop (f + 1) s elId (("states", v) :: rest) =
      (match v with
       | Val.states defs =>
         setLoop f (updateElem s elId
           (fun e => { e with states := addStatesList e.states defs }))
           elId rest
       | _ => setLoop f s elId rest) := rfl

theorem setLoop_cons_state (f : Nat) (s : Surface) (elId : Nat) (v : Val)
    (rest : PropMap) :
    setLoop (f + 1) s elId (("state", v) :: rest) =
      (do
        let s1 ← setStateM f s elId v
        let sc ← setLoop f s1 elId rest
        Except.ok (sc.1, sc.2 + 1)) := rfl

theorem setLoop_cons_shape (f : Nat) (s : Surface) (elId : Nat) (v : Val)
    (rest : PropMap) :
    setLoop (f + 1) s elId (("shape", v) :: rest) =
      (do
        let sc ← setLoop f s elId rest
        Except.ok (sc.1, sc.2 + 1)) := rfl

theorem getP_cons (k' : String) (v : Val) (rest : PropMap) (k : String) :
    getP ((k', v) :: rest) k = if k' = k then some v else getP rest k := rfl

theorem cleanOpts_tail {kv : String × Val} {rest : PropMap}
    (h : cleanOpts (kv :: rest)) : cleanOpts rest :=
  fun kv2 hkv2 => h kv2 (List.mem_cons_of_mem _ hkv2)

theorem getP_none_tail {k' : String} {v : Val} {rest : PropMap} {k : String}
    (h : getP ((k', v) :: rest) k = none) : getP rest k = none := by
  rw [getP_cons] at h
  by_cases hk : k' = k
  · rw [if_pos hk] at h
    cases h
  · rw [if_neg hk] at h
    exact h

theorem mem_setStateEntry
    (cur : List (String × StateProps)) (n : String) (p : StateProps) :
    ∀ d ∈ setStateEntry cur n p, d ∈ cur ∨ d = (n, p) := by
  induction cur with
  | nil =>
    intro d hd
    rcases List.mem_singleton.mp hd with rfl
    exact Or.inr rfl
  | cons a rest ih =>
    intro d hd
    obtain ⟨n', p'⟩ := a
    simp only [setStateEntry] at hd
    split at hd
    next heq =>
      rcases List.mem_cons.mp hd with rfl | hd
      · exact Or.inr (by rw [heq])
      · exact Or.inl (List.mem_cons_of_mem _ hd)
    next hne =>
      rcases List.mem_cons.mp hd with rfl | hd
      · exact Or.inl (List.mem_cons_self _ _)
      · rcases ih d hd with hd | hd
        · exact Or.inl (List.mem_cons_of_mem _ hd)
        · exact Or.inr hd

theorem cleanStateDefs_addStatesList :
    ∀ (defs cur : List (String × StateProps)),
      cleanStateDefs cur → cleanStateDefs defs →
      cleanStateDefs (addStatesList cur defs) := by
  intro defs
  induction defs with
  | nil => intro cur hc _; exact hc
  | cons a rest ih =>
    intro cur hc hd
    obtain ⟨n, p⟩ := a
    have hstep : cleanStateDefs (setStateEntry cur n p) := by
      intro d hdm
      rcases mem_setStateEntry cur n p d hdm with hdm | hdm
      · exact hc d hdm
      · subst hdm
        exact hd (n, p) (List.mem_cons_self _ _)
    exact ih (setStateEntry cur n p) hstep
      (fun d hdm => hd d (List.mem_cons_of_mem _ hdm))

theorem lookupState_mem (sts : List (String × StateProps)) (name : String)
    (props : StateProps) (h : lookupState sts name = some props) :
    (name, props) ∈ sts := by
  unfold lookupState at h
  cases hf : sts.find? (fun p => p.1 = name) with
  | none => rw [hf] at h; cases h
  | some p =>
    rw [hf] at h
    cases h
    have hp : p.1 = name := by simpa using List.find?_some hf
    have hm := List.mem_of_find?_eq_some hf
    rw [show p = (name, p.2) from by rw [← hp]] at hm
    exact hm

theorem cleanOpts_liftStateProps (props : StateProps) :
    cleanOpts (liftStateProps props) := by
  intro kv hkv defs hdefs
  unfold liftStateProps at hkv
  obtain ⟨p, _, rfl⟩ := List.mem_map.mp hkv
  cases hdefs

theorem getP_liftStateProps_none (props : StateProps) (k : String)
    (h : ∀ p ∈ props, p.1 ≠ k) : getP (liftStateProps props) k = none := by
  apply getP_eq_none_of_not_mem_keys
  intro hmem
  unfold liftStateProps keysOf at hmem
  rw [List.map_map] at hmem
  obtain ⟨p, hp, hpk⟩ := List.mem_map.mp hmem
  exact h p hp hpk

theorem accState_keys_mem :
    ∀ (stp : StateProps) (acc : List (String × List Scalar)) (k : String),
      k ∈ (accState acc stp).map Prod.fst →
      k ∈ acc.map Prod.fst ∨ k ∈ stp.map Prod.fst := by
  intro stp
  induction stp with
  | nil => intro acc k h; exact Or.inl h
  | cons a rest ih =>
    intro acc k h
    obtain ⟨k0, v0⟩ := a
    have hred : accState acc ((k0, v0) :: rest) =
        accState (pushAcc acc k0 v0) rest := rfl
    rw [hred] at h
    rcases ih (pushAcc acc k0 v0) k h with h | h
    · rw [pushAcc_keys] at h
      by_cases hm : k0 ∈ acc.map Prod.fst
      · rw [if_pos hm] at h
        exact Or.inl h
      · rw [if_neg hm] at h
        rcases List.mem_append.mp h with h | h
        · exact Or.inl h
        · right
          rw [List.mem_singleton.mp h]
          exact List.mem_cons_self _ _
    · exact Or.inr (List.mem_cons_of_mem _ h)

theorem liveUX_any (s : Surface) (x : Nat) (h0 : liveUX s 0)
    (hru : rootUnparented s) : liveUX s x := by
  intro id el hl hdes hne
  by_cases hid : id = 0
  · subst hid
    simp [hru el hl]
  · exact h0 id el hl hdes hid

theorem liveUX_zero_of (s : Surface) (x : Nat) (hx : x ≠ 0)
    (h : liveUX s x) (hp : elParented s x) : liveUX s 0 := by
  intro id el hl hdes hne0
  by_cases hix : id = x
  · subst hix
    constructor
    · intro hn
      exact absurd hn (hp el hl)
    · intro h0
      exact absurd h0 hne0
  · exact h id el hl hdes hix

theorem zero_not_mem_children (s : Surface) (i : Nat) (h : rootNotChild s) :
    0 ∉ ((lookupElem s i).map (fun e => e.children)).getD [] := by
  cases hl : lookupElem s i with
  | none => simp
  | some el =>
    simp only [Option.map_some', Option.getD_some]
    exact h i el hl

theorem elParented_addChild_pres (s : Surface) (p c x : Nat)
    (h : elParented s x) : elParented (addChild s p c) x := by
  by_cases hx : x = c
  · subst hx
    exact elParented_addChild_self s p x
  · exact elParented_updateElem_ne _ _ _ _ (fun hc => hx hc.symm)
      (elParented_updateElem_pres _ _ _ _
        (fun e => by by_cases hm : c ∈ e.children <;> simp [hm]) h)

theorem reparent_elParented_pres (s : Surface) (elId pid : Nat) (x : Nat)
    (h : elParented s x) :
    elParented (addChild
      (match (lookupElem s elId).bind (fun e => e.parent) with
       | some oldp => removeChild s oldp elId
       | none => s) pid elId) x := by
  by_cases hx : x = elId
  · subst hx
    exact elParented_addChild_self _ _ _
  · refine elParented_addChild_pres _ _ _ _ ?_
    split
    · exact elParented_updateElem_ne _ _ _ _ (fun hc => hx hc.symm)
        (elParented_updateElem_pres _ _ _ _ (fun e => rfl) h)
    · exact h

theorem cleanOpts_liftList (m : List (String × List Scalar)) :
    cleanOpts (m.map (fun kp => (kp.1, Val.list kp.2))) := by
  intro kv hkv defs hdefs
  obtain ⟨p, _, rfl⟩ := List.mem_map.mp hkv
  cases hdefs

theorem keysOf_liftList (m : List (String × List Scalar)) :
    keysOf (m.map (fun kp => (kp.1, Val.list kp.2))) = m.map Prod.fst := by
  induction m with
  | nil => rfl
  | cons a r ih => simp [keysOf, ih]

theorem getP_liftList_none (m : List (String × List Scalar)) (k : String)
    (hk : k ∉ m.map Prod.fst) :
    getP (m.map (fun kp => (kp.1, Val.list kp.2))) k = none := by
  apply getP_eq_none_of_not_mem_keys
  rw [keysOf_liftList]
  exact hk

theorem keysOf_liftStateProps (props : StateProps) :
    keysOf (liftStateProps props) = props.map Prod.fst := by
  induction props with
  | nil => rfl
  | cons a r ih => simp [keysOf, liftStateProps, ih]

theorem elSafe_of_elParented {s : Surface} {x : Nat}
    (h : elParented s x) : elSafe s x :=
  fun el hl _ => h el hl

theorem elSafe_congr_reg {s1 s2 : Surface} (h : s1.reg = s2.reg) (x : Nat)
    (hs : elSafe s2 x) : elSafe s1 x := by
  intro el hl
  rw [lookupElem_congr_reg h] at hl
  exact hs el hl

theorem elSafe_updateElem_pres (s : Surface) (j : Nat)
    (f : Element → Element) (x : Nat)
    (hf : ∀ e, (f e).parent = e.parent ∧ (f e).destroyed = e.destroyed)
    (h : elSafe s x) : elSafe (updateElem s j f) x := by
  intro el hl hdes
  rw [lookupElem_updateElem] at hl
  by_cases hij : x = j
  · rw [if_pos hij] at hl
    cases hle : lookupElem s x with
    | none => rw [hle] at hl; cases hl
    | some e0 =>
      rw [hle] at hl
      cases hl
      rw [(hf e0).1]
      exact h e0 hle (((hf e0).2).symm.trans hdes)
  · rw [if_neg hij] at hl
    exact h el hl hdes

theorem elSafe_updateElem_ne (s : Surface) (j : Nat)
    (f : Element → Element) (x : Nat) (hj : j ≠ x)
    (h : elSafe s x) : elSafe (updateElem s j f) x := by
  intro el hl
  rw [lookupElem_updateElem, if_neg (fun hc : x = j => hj hc.symm)] at hl
  exact h el hl

theorem elSafe_addChild_self (s : Surface) (p c : Nat) :
    elSafe (addChild s p c) c :=
  elSafe_of_elParented (elParented_addChild_self s p c)

theorem elSafe_addChild_pres (s : Surface) (p c x : Nat)
    (h : elSafe s x) : elSafe (addChild s p c) x := by
  by_cases hx : x = c
  · subst hx
    exact elSafe_addChild_self s p x
  · exact elSafe_updateElem_ne _ _ _ _ (fun hc => hx hc.symm)
      (elSafe_updateElem_pres _ _ _ _
        (fun e => by by_cases hm : c ∈ e.children <;> simp [hm]) h)

theorem reparent_elSafe_pres (s : Surface) (elId pid : Nat) (x : Nat)
    (h : elSafe s x) :
    elSafe (addChild
      (match (lookupElem s elId).bind (fun e => e.parent) with
       | some oldp => removeChild s oldp elId
       | none => s) pid elId) x := by
  by_cases hx : x = elId
  · subst hx
    exact elSafe_addChild_self _ _ _
  · refine elSafe_addChild_pres _ _ _ _ ?_
    split
    · exact elSafe_updateElem_ne _ _ _ _ (fun hc => hx hc.symm)
        (elSafe_updateElem_pres _ _ _ _ (fun e => ⟨rfl, rfl⟩) h)
    · exact h

theorem elSafe_of_liveUX0 (s : Surface) (x : Nat) (hx : x ≠ 0)
    (h : liveUX s 0) : elSafe s x := by
  intro el hl hdes hpnone
  exact hx ((h x el hl hdes hx).mp hpnone)

theorem liveUX_zero_of_safe (s : Surface) (x : Nat) (hx : x ≠ 0)
    (h : liveUX s x) (hp : elSafe s x) : liveUX s 0 := by
  intro id el hl hdes hne0
  by_cases hix : id = x
  · subst hix
    constructor
    · intro hn
      exact absurd hn (hp el hl hdes)
    · intro h0
      exact absurd h0 hne0
  · exact h id el hl hdes hix

theorem parentOk_cons (k : String) (v : Val) (rest : PropMap)
    (hk : ¬(k = "parent")) (h : parentOk rest) :
    parentOk ((k, v) :: rest) := by
  have hgp : getP ((k, v) :: rest) "parent" = getP rest "parent" := by
    rw [getP_cons, if_neg hk]
  rcases h with hp | ⟨pid, hp⟩
  · exact Or.inl (hgp.trans hp)
  · exact Or.inr ⟨pid, hgp.trans hp⟩

theorem setStateM_str (f : Nat) (s : Surface) (elId : Nat) (name : String) :
    setStateM (f + 1) s elId (Val.scalar (Scalar.str name)) =
      (match lookupElem s elId with
       | none => Except.error Err.missingElement
       | some e =>
         match lookupState e.states name with
         | some props => setM f s elId (liftStateProps props) 0
         | none => Except.error Err.unregisteredState) := rfl

/-- Joint invariant-preservation lemma for the `set` family: under clean,
root-marker-free options (with the root never explicitly reparented), a
successful call preserves the core registry invariant and the
one-unparented-root property (exempting the element being worked on,
which ends parented when it is not the root). -/
theorem set_family_inv :
    ∀ fuel,
      (∀ s elId opts depth s',
        invCore s → liveUX s elId → cleanOpts opts →
        truthy (getP opts "root") = false →
        (elId = 0 → getP opts "parent" = none) →
        setM fuel s elId opts depth = Except.ok s' →
        invCore s' ∧ liveUX s' elId ∧
        (∀ i, (lookupElem s' i).isSome = (lookupElem s i).isSome) ∧
        (∀ x, elSafe s x → elSafe s' x) ∧
        (elId ≠ 0 → elSafe s' elId)) ∧
      (∀ s cs opts depth s',
        invCore s → liveUX s 0 → cleanOpts opts →
        truthy (getP opts "root") = false →
        0 ∉ cs →
        setChildren fuel s cs opts depth = Except.ok s' →
        invCore s' ∧ liveUX s' 0 ∧
        (∀ i, (lookupElem s' i).isSome = (lookupElem s i).isSome) ∧
        (∀ x, elSafe s x → elSafe s' x)) ∧
      (∀ s elId opts sc,
        invCore s → liveUX s elId → cleanOpts opts →
        (elId = 0 → getP opts "parent" = none) →
        setLoop fuel s elId opts = Except.ok sc →
        invCore sc.1 ∧ liveUX sc.1 elId ∧
        (∀ i, (lookupElem sc.1 i).isSome = (lookupElem s i).isSome) ∧
        (∀ x, elSafe s x → elSafe sc.1 x) ∧
        (∀ pid, getP opts "parent" = some (Val.ref pid) →
          elSafe sc.1 elId) ∧
        parentOk opts) ∧
      (∀ s elId v s',
        invCore s → liveUX s elId →
        setStateM fuel s elId v = Except.ok s' →
        invCore s' ∧ liveUX s' elId ∧
        (∀ i, (lookupElem s' i).isSome = (lookupElem s i).isSome) ∧
        (∀ x, elSafe s x → elSafe s' x)) ∧
      (∀ s elId acc ns s',
        invCore s → liveUX s elId →
        "parent" ∉ acc.map Prod.fst → "root" ∉ acc.map Prod.fst →
        setStateGo fuel s elId acc ns = Except.ok s' →
        invCore s' ∧ liveUX s' elId ∧
        (∀ i, (lookupElem s' i).isSome = (lookupElem s i).isSome) ∧
        (∀ x, elSafe s x → elSafe s' x)) := by
  intro fuel
  induction fuel with
  | zero =>
    refine ⟨?_, ?_, ?_, ?_, ?_⟩
    · intro s elId opts depth s' _ _ _ _ _ h; cases h
    · intro s cs opts depth s' _ _ _ _ _ h; cases h
    · intro s elId opts sc _ _ _ _ h; cases h
    · intro s elId v s' _ _ h; cases h
    · intro s elId acc ns s' _ _ _ _ h; cases h
  | succ f ih =>
    obtain ⟨ihM, ihC, ihL, ihSM, ihSG⟩ := ih
    refine ⟨?_, ?_, ?_, ?_, ?_⟩
    -- setM
    · intro s elId opts depth s' hIC hLX hclean htroot hpar0 h
      unfold setM at h
      split at h
      · cases h
      next e0 he0 =>
        simp only [bind, Except.bind] at h
        split at h
        next er hc => cases h
        next sc hc =>
          obtain ⟨hIC1, hLX1, hEx1, hPers1, hPref1, hparOk⟩ :=
            ihL s elId opts sc hIC hLX hclean hpar0 hc
          generalize hx : (if sc.2 ≠ 0 then elementUpdated sc.1 elId opts
            else sc.1) = x at h
          have hxreg : x.reg = sc.1.reg ∧ x.rootId = sc.1.rootId := by
            rw [← hx]
            split
            · exact ⟨addCommand_reg _ _ _ _, addCommand_rootId _ _ _ _⟩
            · exact ⟨rfl, rfl⟩
          have hICx : invCore x := invCore_congr_reg hxreg.1 hIC1
          have hLXx : liveUX x elId := liveUX_congr_reg hxreg.1 elId hLX1
          have hExx : ∀ i, (lookupElem x i).isSome =
              (lookupElem s i).isSome := by
            intro i
            rw [lookupElem_congr_reg hxreg.1]
            exact hEx1 i
          have hPersx : ∀ x2, elSafe s x2 → elSafe x x2 :=
            fun x2 hp => elSafe_congr_reg hxreg.1 x2 (hPers1 x2 hp)
          have hPx : elId ≠ 0 →
              ¬(((lookupElem x elId).bind fun a => a.parent) = none ∧
                truthy (getP opts "parent") = false ∧
                truthy (getP opts "root") = false ∧ elId ≠ 0) →
              elSafe x elId := by
            intro hne0 hcond
            rcases hparOk with hnone | ⟨pid, href⟩
            · intro el hel hdes hpnone
              apply hcond
              refine ⟨?_, ?_, htroot, hne0⟩
              · rw [hel]
                exact hpnone
              · rw [hnone]
                rfl
            · exact elSafe_congr_reg hxreg.1 elId (hPref1 pid href)
          split at h
          next hcond =>
            have hne0 : elId ≠ 0 := hcond.2.2.2
            split at h
            · cases h
            next r hr =>
              simp only [pure, Except.pure] at h
              have hICa : invCore (addChild x r elId) :=
                invCore_addChild x r elId hne0 hICx
              have hLXa : liveUX (addChild x r elId) elId :=
                liveUX_addChild x r elId hne0 elId hLXx
              have hPa : elSafe (addChild x r elId) elId :=
                elSafe_addChild_self x r elId
              have hExa : ∀ i, (lookupElem (addChild x r elId) i).isSome =
                  (lookupElem s i).isSome := by
                intro i
                rw [exist_addChild]
                exact hExx i
              have hPersa : ∀ x2, elSafe s x2 →
                  elSafe (addChild x r elId) x2 :=
                fun x2 hp => elSafe_addChild_pres x r elId x2 (hPersx x2 hp)
              split at h
              next hd0 =>
                cases h
                exact ⟨hICa, hLXa, hExa, hPersa, fun _ => hPa⟩
              next hdn =>
                obtain ⟨hICc, hLXc, hExc, hPersc⟩ := ihC (addChild x r elId)
                  _ opts (depth - 1) s' hICa
                  (liveUX_zero_of_safe _ elId hne0 hLXa hPa) hclean htroot
                  (zero_not_mem_children _ _ hICa.2.2.1) h
                refine ⟨hICc, liveUX_any _ _ hLXc hICc.2.2.2, ?_, ?_, ?_⟩
                · intro i
                  rw [hExc i]
                  exact hExa i
                · intro x2 hp
                  exact hPersc x2 (hPersa x2 hp)
                · intro _
                  exact hPersc elId hPa
          next hcond =>
            simp only [pure, Except.pure] at h
            split at h
            next hd0 =>
              cases h
              exact ⟨hICx, hLXx, hExx, hPersx, fun hne0 => hPx hne0 hcond⟩
            next hdn =>
              have hLX0 : liveUX x 0 := by
                by_cases hne0 : elId = 0
                · rw [← hne0]
                  exact hLXx
                · exact liveUX_zero_of_safe _ elId hne0 hLXx (hPx hne0 hcond)
              obtain ⟨hICc, hLXc, hExc, hPersc⟩ := ihC x _ opts (depth - 1)
                s' hICx hLX0 hclean htroot
                (zero_not_mem_children _ _ hICx.2.2.1) h
              refine ⟨hICc, liveUX_any _ _ hLXc hICc.2.2.2, ?_, ?_, ?_⟩
              · intro i
                rw [hExc i]
                exact hExx i
              · intro x2 hp
                exact hPersc x2 (hPersx x2 hp)
              · intro hne0
                exact hPersc elId (hPx hne0 hcond)
    -- setChildren
    · intro s cs opts depth s' hIC hLX hclean htroot h0 h
      unfold setChildren at h
      match cs, h0 with
      | [], _ =>
        cases h
        exact ⟨hIC, hLX, fun i => rfl, fun x hp => hp⟩
      | c :: rest, h0 =>
        have hcne : c ≠ 0 := fun hc => h0 (hc ▸ List.mem_cons_self _ _)
        simp only [bind, Except.bind] at h
        split at h
        next er h1 => cases h
        next s1 h1 =>
          obtain ⟨hIC1, hLX1, hEx1, hPers1, hPar1⟩ := ihM s c opts depth s1
            hIC (liveUX_any s c hLX hIC.2.2.2) hclean htroot
            (fun hc0 => absurd hc0 hcne) h1
          obtain ⟨hIC2, hLX2, hEx2, hPers2⟩ := ihC s1 rest opts depth s'
            hIC1 (liveUX_zero_of_safe s1 c hcne hLX1 (hPar1 hcne)) hclean htroot
            (fun hc => h0 (List.mem_cons_of_mem _ hc)) h
          refine ⟨hIC2, hLX2, ?_, ?_⟩
          · intro i
            rw [hEx2 i]
            exact hEx1 i
          · intro x2 hp
            exact hPers2 x2 (hPers1 x2 hp)
    -- setLoop
    · intro s elId opts sc hIC hLX hclean hpar0 h
      match opts, hclean, hpar0 with
      | [], _, _ =>
        cases h
        refine ⟨hIC, hLX, fun i => rfl, fun x hp => hp, ?_, Or.inl rfl⟩
        intro pid hpid
        cases hpid
      | (k, v) :: rest, hclean, hpar0 =>
        by_cases hk1 : k = "parent"
        · subst hk1
          rw [setLoop_cons_parent] at h
          have helid : elId ≠ 0 := by
            intro h0
            have := hpar0 h0
            rw [getP_cons, if_pos rfl] at this
            cases this
          split at h
          next pid =>
            simp only [bind, Except.bind] at h
            split at h
            next er hc0 => cases h
            next sc0 hc0 =>
              cases h
              have hIC2 := reparent_invCore s elId pid helid hIC
              have hLX2 := reparent_liveUX s elId pid helid hLX
              have hP2 := elSafe_addChild_self
                (match (lookupElem s elId).bind (fun e => e.parent) with
                 | some oldp => removeChild s oldp elId
                 | none => s) pid elId
              obtain ⟨hIC3, hLX3, hEx3, hPers3, hPref3, hpo3⟩ :=
                ihL _ elId rest sc0 hIC2 hLX2 (cleanOpts_tail hclean)
                  (fun h0 => absurd h0 helid) hc0
              refine ⟨hIC3, hLX3, ?_, ?_, ?_, ?_⟩
              · intro i
                rw [hEx3 i]
                exact reparent_exist s elId pid i
              · intro x2 hp
                exact hPers3 x2 (reparent_elSafe_pres s elId pid x2 hp)
              · intro pid2 _
                exact hPers3 elId hP2
              · exact Or.inr ⟨pid, by rw [getP_cons, if_pos rfl]⟩
          next hnotref =>
            cases h
        · by_cases hk2 : k = "states"
          · subst hk2
            rw [setLoop_cons_states] at h
            have hgp : getP (("states", v) :: rest) "parent" =
                getP rest "parent" := by
              rw [getP_cons, if_neg (by decide)]
            have hgr : ∀ sc1, (∀ pid, getP rest "parent" =
                  some (Val.ref pid) → elSafe sc1 elId) →
                ∀ pid, getP (("states", v) :: rest) "parent" =
                  some (Val.ref pid) → elSafe sc1 elId := by
              intro sc1 hco pid hpid
              rw [hgp] at hpid
              exact hco pid hpid
            split at h
            next defs =>
              have hdefs : cleanStateDefs defs :=
                hclean ("states", Val.states defs) (List.mem_cons_self _ _)
                  defs rfl
              have hIC1 : invCore (updateElem s elId (fun e =>
                  { e with states := addStatesList e.states defs })) := by
                obtain ⟨h1, h2, h3, h4⟩ := hIC
                refine ⟨h1, ?_, ?_, ?_⟩
                · exact cleanES_updateElem _ _ _
                    (fun e he => cleanStateDefs_addStatesList defs e.states
                      he hdefs) h2
                · exact rootNC_updateElem _ _ _ (fun e he => he) h3
                · exact rootUnparented_updateElem _ _ _ (fun e he => he) h4
              obtain ⟨hIC3, hLX3, hEx3, hPers3, hPref3, hpo3⟩ :=
                ihL _ elId rest sc hIC1
                  (liveUX_updateElem _ _ _ _ (fun e => ⟨rfl, rfl⟩) hLX)
                  (cleanOpts_tail hclean)
                  (fun h0 => getP_none_tail (hpar0 h0)) h
              refine ⟨hIC3, hLX3, ?_, ?_, hgr sc.1 hPref3,
                parentOk_cons _ _ _ (by decide) hpo3⟩
              · intro i
                rw [hEx3 i, exist_updateElem]
              · intro x2 hp
                exact hPers3 x2 (elSafe_updateElem_pres _ _ _ _
                  (fun e => ⟨rfl, rfl⟩) hp)
            next =>
              obtain ⟨hIC3, hLX3, hEx3, hPers3, hPref3, hpo3⟩ :=
                ihL _ elId rest sc hIC hLX (cleanOpts_tail hclean)
                  (fun h0 => getP_none_tail (hpar0 h0)) h
              exact ⟨hIC3, hLX3, hEx3, hPers3, hgr sc.1 hPref3,
                parentOk_cons _ _ _ (by decide) hpo3⟩
          · by_cases hk3 : k = "state"
            · subst hk3
              rw [setLoop_cons_state] at h
              simp only [bind, Except.bind] at h
              split at h
              next er h1 => cases h
              next s1 h1 =>
                obtain ⟨hIC1, hLX1, hEx1, hPers1⟩ := ihSM s elId v s1 hIC
                  hLX h1
                split at h
                next er hc0 => cases h
                next sc0 hc0 =>
                  cases h
                  obtain ⟨hIC3, hLX3, hEx3, hPers3, hPref3, hpo3⟩ :=
                    ihL _ elId rest sc0 hIC1 hLX1 (cleanOpts_tail hclean)
                      (fun h0 => getP_none_tail (hpar0 h0)) hc0
                  have hgp : getP (("state", v) :: rest) "parent" =
                      getP rest "parent" := by
                    rw [getP_cons, if_neg (by decide)]
                  refine ⟨hIC3, hLX3, ?_, ?_, ?_,
                    parentOk_cons _ _ _ (by decide) hpo3⟩
                  · intro i
                    rw [hEx3 i, hEx1 i]
                  · intro x2 hp
                    exact hPers3 x2 (hPers1 x2 hp)
                  · intro pid hpid
                    rw [hgp] at hpid
                    exact hPref3 pid hpid
            · by_cases hk4 : k = "shape"
              · subst hk4
                rw [setLoop_cons_shape] at h
                simp only [bind, Except.bind] at h
                split at h
                next er hc0 => cases h
                next sc0 hc0 =>
                  cases h
                  obtain ⟨hIC3, hLX3, hEx3, hPers3, hPref3, hpo3⟩ :=
                    ihL _ elId rest sc0 hIC hLX (cleanOpts_tail hclean)
                      (fun h0 => getP_none_tail (hpar0 h0)) hc0
                  have hgp : getP (("shape", v) :: rest) "parent" =
                      getP rest "parent" := by
                    rw [getP_cons, if_neg (by decide)]
                  refine ⟨hIC3, hLX3, hEx3, hPers3, ?_,
                    parentOk_cons _ _ _ (by decide) hpo3⟩
                  · intro pid hpid
                    rw [hgp] at hpid
                    exact hPref3 pid hpid
              · rw [setLoop_cons_plain f s elId k v rest hk1 hk2 hk3 hk4]
                  at h
                have hgp : getP ((k, v) :: rest) "parent" =
                    getP rest "parent" := by
                  rw [getP_cons, if_neg hk1]
                split at h
                · cases h
                next e he =>
                  split at h
                  next hskip =>
                    obtain ⟨hIC3, hLX3, hEx3, hPers3, hPref3, hpo3⟩ :=
                      ihL _ elId rest sc hIC hLX (cleanOpts_tail hclean)
                        (fun h0 => getP_none_tail (hpar0 h0)) h
                    refine ⟨hIC3, hLX3, hEx3, hPers3, ?_,
                      parentOk_cons _ _ _ hk1 hpo3⟩
                    · intro pid hpid
                      rw [hgp] at hpid
                      exact hPref3 pid hpid
                  next hskip =>
                    simp only [bind, Except.bind] at h
                    split at h
                    next er hc0 => cases h
                    next sc0 hc0 =>
                      cases h
                      have hIC1 : invCore (updateElem s elId (fun e =>
                          { e with props := setP e.props k v })) := by
                        obtain ⟨h1, h2, h3, h4⟩ := hIC
                        refine ⟨h1, ?_, ?_, ?_⟩
                        · exact cleanES_updateElem _ _ _ (fun e he => he) h2
                        · exact rootNC_updateElem _ _ _ (fun e he => he) h3
                        · exact rootUnparented_updateElem _ _ _
                            (fun e he => he) h4
                      obtain ⟨hIC3, hLX3, hEx3, hPers3, hPref3, hpo3⟩ :=
                        ihL _ elId rest sc0 hIC1
                          (liveUX_updateElem _ _ _ _ (fun e => ⟨rfl, rfl⟩)
                            hLX)
                          (cleanOpts_tail hclean)
                          (fun h0 => getP_none_tail (hpar0 h0)) hc0
                      refine ⟨hIC3, hLX3, ?_, ?_, ?_,
                        parentOk_cons _ _ _ hk1 hpo3⟩
                      · intro i
                        rw [hEx3 i, exist_updateElem]
                      · intro x2 hp
                        exact hPers3 x2 (elSafe_updateElem_pres _ _ _ _
                          (fun e => ⟨rfl, rfl⟩) hp)
                      · intro pid hpid
                        rw [hgp] at hpid
                        exact hPref3 pid hpid
    -- setStateM
    · intro s elId v s' hIC hLX h
      cases v with
      | list names =>
        exact ihSG s elId [] names s' hIC hLX (by simp) (by simp) h
      | scalar sv =>
        cases sv with
        | str name =>
          rw [setStateM_str] at h
          split at h
          · cases h
          next e he =>
            split at h
            next props hprops =>
              have hcleanst : ∀ p ∈ props, p.1 ≠ "parent" ∧ p.1 ≠ "root" ∧
                  p.1 ≠ "state" ∧ p.1 ≠ "states" ∧ p.1 ≠ "shape" :=
                hIC.2.1 elId e he (name, props)
                  (lookupState_mem e.states name props hprops)
              have hgpar : getP (liftStateProps props) "parent" = none :=
                getP_liftStateProps_none props "parent"
                  (fun p hp => (hcleanst p hp).1)
              have hgroot : getP (liftStateProps props) "root" = none :=
                getP_liftStateProps_none props "root"
                  (fun p hp => (hcleanst p hp).2.1)
              obtain ⟨hIC1, hLX1, hEx1, hPers1, _⟩ := ihM s elId
                (liftStateProps props) 0 s' hIC hLX
                (cleanOpts_liftStateProps props)
                (by rw [hgroot]; rfl) (fun _ => hgpar) h
              exact ⟨hIC1, hLX1, hEx1, hPers1⟩
            next => cases h
        | int n => cases h
        | bool b => cases h
        | undef => cases h
      | ref r => cases h
      | states d => cases h
    -- setStateGo
    · intro s elId acc ns s' hIC hLX haccp haccr h
      cases ns with
      | nil =>
        cases h
        exact ⟨hIC, hLX, fun i => rfl, fun x hp => hp⟩
      | cons n rest =>
        cases n with
        | int n2 => cases h
        | bool b => cases h
        | undef => cases h
        | str name =>
          rw [setStateGo_cons] at h
          split at h
          · cases h
          next e he =>
            split at h
            · cases h
            next props hprops =>
              have hcleanst : ∀ p ∈ props, p.1 ≠ "parent" ∧ p.1 ≠ "root" ∧
                  p.1 ≠ "state" ∧ p.1 ≠ "states" ∧ p.1 ≠ "shape" :=
                hIC.2.1 elId e he (name, props)
                  (lookupState_mem e.states name props hprops)
              have hkeyp : "parent" ∉ (accState acc props).map Prod.fst := by
                intro hc
                rcases accState_keys_mem props acc _ hc with hc | hc
                · exact haccp hc
                · obtain ⟨p, hp, hpk⟩ := List.mem_map.mp hc
                  exact (hcleanst p hp).1 hpk
              have hkeyr : "root" ∉ (accState acc props).map Prod.fst := by
                intro hc
                rcases accState_keys_mem props acc _ hc with hc | hc
                · exact haccr hc
                · obtain ⟨p, hp, hpk⟩ := List.mem_map.mp hc
                  exact (hcleanst p hp).2.1 hpk
              simp only [bind, Except.bind] at h
              split at h
              next er h1 => cases h
              next s1 h1 =>
                obtain ⟨hIC1, hLX1, hEx1, hPers1, _⟩ := ihM s elId _ 0 s1
                  hIC hLX (cleanOpts_liftList _)
                  (by rw [getP_liftList_none _ _ hkeyr]; rfl)
                  (fun _ => getP_liftList_none _ _ hkeyp) h1
                obtain ⟨hIC2, hLX2, hEx2, hPers2⟩ := ihSG s1 elId
                  (accState acc props) rest s' hIC1 hLX1 hkeyp hkeyr h
                refine ⟨hIC2, hLX2, ?_, ?_⟩
                · intro i
                  rw [hEx2 i, hEx1 i]
                · intro x2 hp
                  exact hPers2 x2 (hPers1 x2 hp)

/-- `destroy()` preserves the core invariant and the
one-unparented-root property: the target is detached and flagged
destroyed, so at the end every live element is parented iff it is not
the root. -/
theorem destroy_family_inv :
    ∀ fuel,
      (∀ s elId s', invCore s → liveUX s 0 →
        destroyM fuel s elId = Except.ok s' →
        invCore s' ∧ liveUX s' 0) ∧
      (∀ s cs s', invCore s → liveUX s 0 →
        destroyChildren fuel s cs = Except.ok s' →
        invCore s' ∧ liveUX s' 0) := by
  intro fuel
  induction fuel with
  | zero =>
    constructor
    · intro s elId s' _ _ h; cases h
    · intro s cs s' _ _ h; cases h
  | succ f ih =>
    obtain ⟨ihd, ihc⟩ := ih
    constructor
    · intro s elId s' hIC hLX h
      unfold destroyM at h
      split at h
      · cases h
      next e he =>
        split at h
        · cases h
        next hdes =>
          simp only [bind, Except.bind] at h
          split at h
          next er hc => cases h
          next s1 hc =>
            obtain ⟨hIC1, hL1⟩ := ihc s e.children s1 hIC hLX hc
            split at h
            · cases h
            next e3 hlast =>
              split at h
              · cases h
              next he3 =>
                cases h
                have hICb : invCore (updateElem s1 elId
                    (fun e => { e with children := [] })) := by
                  obtain ⟨h1, h2, h3, h4⟩ := hIC1
                  refine ⟨h1, ?_, ?_, ?_⟩
                  · exact cleanES_updateElem _ _ _ (fun e he => he) h2
                  · exact rootNC_updateElem _ _ _ (fun e _ => by simp) h3
                  · exact rootUnparented_updateElem _ _ _ (fun e he => he) h4
                have hLb : liveUX (updateElem s1 elId
                    (fun e => { e with children := [] })) elId :=
                  liveUX_updateElem _ _ _ _ (fun e => ⟨rfl, rfl⟩)
                    (liveUX_any s1 elId hL1 hIC1.2.2.2)
                have hIC2 : invCore (match (lookupElem (updateElem s1 elId
                    (fun e => { e with children := [] })) elId).bind
                      (fun x => x.parent) with
                    | some p => removeChild (updateElem s1 elId
                        (fun e => { e with children := [] })) p elId
                    | none => updateElem s1 elId
                        (fun e => { e with children := [] })) := by
                  split
                  next p hp =>
                    refine invCore_removeChild _ _ _ ?_ hICb
                    intro h0
                    subst h0
                    cases hle : lookupElem (updateElem s1 0
                        (fun e => { e with children := [] })) 0 with
                    | none => rw [hle] at hp; cases hp
                    | some el =>
                      rw [hle] at hp
                      have hp2 : el.parent = some p := hp
                      rw [hICb.2.2.2 el hle] at hp2
                      cases hp2
                  next => exact hICb
                have hL2 : liveUX (match (lookupElem (updateElem s1 elId
                    (fun e => { e with children := [] })) elId).bind
                      (fun x => x.parent) with
                    | some p => removeChild (updateElem s1 elId
                        (fun e => { e with children := [] })) p elId
                    | none => updateElem s1 elId
                        (fun e => { e with children := [] })) elId := by
                  split
                  · exact liveUX_removeChild_self _ _ _ hLb
                  · exact hLb
                have hIC3 := invCore_congr_reg
                  (addCommand_reg _ CmdName.destroy elId []) hIC2
                have hL3 := liveUX_congr_reg
                  (addCommand_reg _ CmdName.destroy elId []) elId hL2
                constructor
                · obtain ⟨h1, h2, h3, h4⟩ := hIC3
                  refine ⟨h1, ?_, ?_, ?_⟩
                  · exact cleanES_updateElem _ _ _ (fun e he => he) h2
                  · exact rootNC_updateElem _ _ _ (fun e he => he) h3
                  · exact rootUnparented_updateElem _ _ _ (fun e he => he) h4
                · intro id el hl hdes2 hne0
                  rw [lookupElem_updateElem] at hl
                  by_cases hid : id = elId
                  · rw [if_pos hid] at hl
                    cases hle : lookupElem (elementDestroyed _ elId) id with
                    | none => rw [hle] at hl; cases hl
                    | some e0 =>
                      rw [hle] at hl
                      cases hl
                      cases hdes2
                  · rw [if_neg hid] at hl
                    exact hL3 id el hl hdes2 hid
    · intro s cs s' hIC hLX h
      unfold destroyChildren at h
      match cs with
      | [] =>
        cases h
        exact ⟨hIC, hLX⟩
      | c :: rest =>
        simp only [bind, Except.bind] at h
        split at h
        next er hd => cases h
        next s1 hd =>
          obtain ⟨hIC1, hL1⟩ := ihd s c s1 hIC hLX hd
          exact ihc s1 rest s' hIC1 hL1 h

theorem find_append_single {β : Type} (l : List (Nat × β)) (p : Nat × β)
    (i : Nat) :
    (l ++ [p]).find? (fun q => q.1 = i) =
      (l.find? (fun q => q.1 = i)).or
        (if p.1 = i then some p else none) := by
  induction l with
  | nil =>
    by_cases h : p.1 = i <;> simp [List.find?_cons, h]
  | cons a rest ih =>
    by_cases h : a.1 = i <;> simp [List.find?_cons, h, ih]

theorem or_some_cases {α : Type} {a b : Option α} {x : α}
    (h : a.or b = some x) : a = some x ∨ (a = none ∧ b = some x) := by
  cases a with
  | none => exact Or.inr ⟨rfl, by simpa using h⟩
  | some y => exact Or.inl (by simpa using h)

theorem lookupElem_snoc (s : Surface) (nid2 nid : Nat) (e : Element)
    (i : Nat) :
    lookupElem { s with reg := ⟨nid2, s.reg.elems ++ [(nid, e)]⟩ } i =
      (lookupElem s i).or (if nid = i then some e else none) := by
  simp only [lookupElem]
  rw [find_append_single]
  cases s.reg.elems.find? (fun q => q.1 = i) with
  | none =>
    by_cases h : nid = i <;> simp [h]
  | some p => simp

theorem mem_setP (m : PropMap) (k : String) (v : Val) :
    ∀ kv ∈ setP m k v, kv ∈ m ∨ kv = (k, v) := by
  induction m with
  | nil =>
    intro kv hkv
    rcases List.mem_singleton.mp hkv with rfl
    exact Or.inr rfl
  | cons a rest ih =>
    intro kv hkv
    obtain ⟨k', v'⟩ := a
    simp only [setP] at hkv
    split at hkv
    next heq =>
      rcases List.mem_cons.mp hkv with rfl | hkv
      · exact Or.inr (by rw [heq])
      · exact Or.inl (List.mem_cons_of_mem _ hkv)
    next hne =>
      rcases List.mem_cons.mp hkv with rfl | hkv
      · exact Or.inl (List.mem_cons_self _ _)
      · rcases ih kv hkv with hkv | hkv
        · exact Or.inl (List.mem_cons_of_mem _ hkv)
        · exact Or.inr hkv

theorem cleanOpts_append {a b : PropMap} (ha : cleanOpts a)
    (hb : cleanOpts b) : cleanOpts (a ++ b) := by
  intro kv hkv
  rcases List.mem_append.mp hkv with hkv | hkv
  · exact ha kv hkv
  · exact hb kv hkv

theorem cleanOpts_setP {m : PropMap} {k : String} {v : Val}
    (h : cleanOpts m)
    (hv : ∀ defs, v = Val.states defs → cleanStateDefs defs) :
    cleanOpts (setP m k v) := by
  intro kv hkv defs hdefs
  rcases mem_setP m k v kv hkv with hkv | hkv
  · exact h kv hkv defs hdefs
  · subst hkv
    exact hv defs hdefs

theorem cleanOpts_defaultsP :
    ∀ (d m : PropMap), cleanOpts m → cleanOpts d →
      cleanOpts (defaultsP m d) := by
  intro d
  induction d with
  | nil => intro m hm _; exact hm
  | cons a rest ih =>
    intro m hm hd
    obtain ⟨k, v⟩ := a
    have harm : cleanOpts (match getP m k with
        | none => m ++ [(k, v)]
        | some (Val.scalar Scalar.undef) => setP m k v
        | some _ => m) := by
      split
      all_goals first
        | exact hm
        | exact cleanOpts_append hm (fun kv hkv defs hdefs => by
            rcases List.mem_singleton.mp hkv with rfl
            exact hd (k, v) (List.mem_cons_self _ _) defs hdefs)
        | exact cleanOpts_setP hm (fun defs hdefs =>
            hd (k, v) (List.mem_cons_self _ _) defs hdefs)
    exact ih _ harm (cleanOpts_tail hd)

theorem getP_append_or (a b : PropMap) (k : String) :
    getP (a ++ b) k = (getP a k).or (getP b k) := by
  induction a with
  | nil => simp [getP]
  | cons kv rest ih =>
    obtain ⟨k', v⟩ := kv
    by_cases h : k' = k <;> simp [getP, h, ih]

theorem getP_defaultsP_ne :
    ∀ (d m : PropMap) (k0 : String), (∀ kv ∈ d, kv.1 ≠ k0) →
      getP (defaultsP m d) k0 = getP m k0 := by
  intro d
  induction d with
  | nil => intro m k0 _; rfl
  | cons a rest ih =>
    intro m k0 hd
    obtain ⟨k, v⟩ := a
    have hk : k ≠ k0 := hd (k, v) (List.mem_cons_self _ _)
    have harm : getP (match getP m k with
        | none => m ++ [(k, v)]
        | some (Val.scalar Scalar.undef) => setP m k v
        | some _ => m) k0 = getP m k0 := by
      split
      next hg =>
        rw [getP_append_or]
        simp [getP, hk]
      next hg => exact getP_setP_ne (fun hc => hk hc.symm)
      all_goals rfl
    exact (ih _ k0 (fun kv hkv => hd kv (List.mem_cons_of_mem _ hkv))).trans
      harm

theorem cleanOpts_of_no_states (m : PropMap)
    (h : ∀ kv ∈ m,
      (match kv.2 with | Val.states _ => false | _ => true) = true) :
    cleanOpts m := by
  intro kv hkv defs hdefs
  have hb := h kv hkv
  rw [hdefs] at hb
  cases hb

theorem cleanOpts_ite {c : Prop} [Decidable c] {a b : PropMap}
    (ha : cleanOpts a) (hb : cleanOpts b) : cleanOpts (if c then a else b) := by
  split <;> assumption

theorem troot_ite {c : Prop} [Decidable c] {a b : PropMap}
    (ha : truthy (getP a "root") = false)
    (hb : truthy (getP b "root") = false) :
    truthy (getP (if c then a else b) "root") = false := by
  split <;> assumption

theorem ctor_opts5_facts (opts1 : PropMap) (hcl1 : cleanOpts opts1)
    (hrt1 : truthy (getP opts1 "root") = false) :
    cleanOpts
      (let opts2 := defaultsP opts1
        [("type", Val.scalar (Scalar.str "Element")),
         ("strokeWidth", Val.scalar (Scalar.int 1)),
         ("fontSize", Val.scalar (Scalar.str "40px")),
         ("rotation", Val.scalar (Scalar.int 0))]
       let opts3 := if hasAnyKey opts2 ["state", "stroke", "fill", "pen"]
         then opts2 else opts2 ++ [("state", Val.scalar (Scalar.str "ks_normal"))]
       let opts4 := if truthy (getP opts3 "x") = false ∧
           truthy (getP opts3 "shape") = false
         then setP opts3 "x" (Val.scalar (Scalar.int 0)) else opts3
       if truthy (getP opts4 "y") = false ∧
           truthy (getP opts4 "shape") = false
         then setP opts4 "y" (Val.scalar (Scalar.int 0)) else opts4) ∧
    truthy (getP
      (let opts2 := defaultsP opts1
        [("type", Val.scalar (Scalar.str "Element")),
         ("strokeWidth", Val.scalar (Scalar.int 1)),
         ("fontSize", Val.scalar (Scalar.str "40px")),
         ("rotation", Val.scalar (Scalar.int 0))]
       let opts3 := if hasAnyKey opts2 ["state", "stroke", "fill", "pen"]
         then opts2 else opts2 ++ [("state", Val.scalar (Scalar.str "ks_normal"))]
       let opts4 := if truthy (getP opts3 "x") = false ∧
           truthy (getP opts3 "shape") = false
         then setP opts3 "x" (Val.scalar (Scalar.int 0)) else opts3
       if truthy (getP opts4 "y") = false ∧
           truthy (getP opts4 "shape") = false
         then setP opts4 "y" (Val.scalar (Scalar.int 0)) else opts4)
      "root") = false := by
  have hcl2 : cleanOpts (defaultsP opts1
      [("type", Val.scalar (Scalar.str "Element")),
       ("strokeWidth", Val.scalar (Scalar.int 1)),
       ("fontSize", Val.scalar (Scalar.str "40px")),
       ("rotation", Val.scalar (Scalar.int 0))]) :=
    cleanOpts_defaultsP _ _ hcl1
      (cleanOpts_of_no_states _ (by decide))
  have hrt2 : truthy (getP (defaultsP opts1
      [("type", Val.scalar (Scalar.str "Element")),
       ("strokeWidth", Val.scalar (Scalar.int 1)),
       ("fontSize", Val.scalar (Scalar.str "40px")),
       ("rotation", Val.scalar (Scalar.int 0))]) "root") = false := by
    rw [getP_defaultsP_ne _ _ _ (by decide)]
    exact hrt1
  have happ : cleanOpts (defaultsP opts1
      [("type", Val.scalar (Scalar.str "Element")),
       ("strokeWidth", Val.scalar (Scalar.int 1)),
       ("fontSize", Val.scalar (Scalar.str "40px")),
       ("rotation", Val.scalar (Scalar.int 0))] ++
      [("state", Val.scalar (Scalar.str "ks_normal"))]) :=
    cleanOpts_append hcl2 (cleanOpts_of_no_states
      [("state", Val.scalar (Scalar.str "ks_normal"))] (by decide))
  have hrtapp : truthy (getP (defaultsP opts1
      [("type", Val.scalar (Scalar.str "Element")),
       ("strokeWidth", Val.scalar (Scalar.int 1)),
       ("fontSize", Val.scalar (Scalar.str "40px")),
       ("rotation", Val.scalar (Scalar.int 0))] ++
      [("state", Val.scalar (Scalar.str "ks_normal"))]) "root") = false := by
    rw [getP_append_or,
      show getP [("state", Val.scalar (Scalar.str "ks_normal"))] "root" =
        none from rfl]
    cases hg : getP (defaultsP opts1
        [("type", Val.scalar (Scalar.str "Element")),
         ("strokeWidth", Val.scalar (Scalar.int 1)),
         ("fontSize", Val.scalar (Scalar.str "40px")),
         ("rotation", Val.scalar (Scalar.int 0))]) "root" with
    | none => rfl
    | some v =>
      rw [hg] at hrt2
      exact hrt2
  constructor
  · apply cleanOpts_ite
    · apply cleanOpts_setP
      · apply cleanOpts_ite
        · apply cleanOpts_setP
          · apply cleanOpts_ite
            · exact hcl2
            · exact happ
          · intro defs hdefs
            cases hdefs
        · apply cleanOpts_ite
          · exact hcl2
          · exact happ
      · intro defs hdefs
        cases hdefs
    · apply cleanOpts_ite
      · apply cleanOpts_setP
        · apply cleanOpts_ite
          · exact hcl2
          · exact happ
        · intro defs hdefs
          cases hdefs
      · apply cleanOpts_ite
        · exact hcl2
        · exact happ
  · apply troot_ite
    · rw [getP_setP_ne (show ("root" : String) ≠ "y" by decide)]
      apply troot_ite
      · rw [getP_setP_ne (show ("root" : String) ≠ "x" by decide)]
        apply troot_ite
        · exact hrt2
        · exact hrtapp
      · apply troot_ite
        · exact hrt2
        · exact hrtapp
    · apply troot_ite
      · rw [getP_setP_ne (show ("root" : String) ≠ "x" by decide)]
        apply troot_ite
        · exact hrt2
        · exact hrtapp
      · apply troot_ite
        · exact hrt2
        · exact hrtapp

theorem ctor_setM_inv (fuel : Nat) (s : Surface) (opts5 : PropMap)
    (s2 : Surface)
    (hIC : invCore s) (hLX : liveUX s 0) (hcl : cleanOpts opts5)
    (hrt : truthy (getP opts5 "root") = false)
    (h : setM fuel
      { s with reg := ⟨s.reg.nextID + 1,
        s.reg.elems ++ [(s.reg.nextID,
          ⟨[], addStatesList [] defaultStates, none, [], false⟩)]⟩ }
      s.reg.nextID opts5 0 = Except.ok s2) :
    invCore s2 ∧ liveUX s2 0 := by
  have hnid : s.reg.nextID ≠ 0 := by
    have := hIC.1
    omega
  have hIC1 : invCore { s with reg := ⟨s.reg.nextID + 1,
      s.reg.elems ++ [(s.reg.nextID,
        ⟨[], addStatesList [] defaultStates, none, [], false⟩)]⟩ } := by
    refine ⟨Nat.succ_le_succ (Nat.zero_le _), ?_, ?_, ?_⟩
    · intro id el hl
      rw [lookupElem_snoc] at hl
      rcases or_some_cases hl with hl | ⟨_, hl⟩
      · exact hIC.2.1 id el hl
      · split at hl
        · cases hl
          unfold cleanStateDefs
          decide
        · cases hl
    · intro id el hl
      rw [lookupElem_snoc] at hl
      rcases or_some_cases hl with hl | ⟨_, hl⟩
      · exact hIC.2.2.1 id el hl
      · split at hl
        · cases hl
          simp
        · cases hl
    · intro el hl
      rw [lookupElem_snoc] at hl
      rcases or_some_cases hl with hl | ⟨_, hl⟩
      · exact hIC.2.2.2 el hl
      · rw [if_neg hnid] at hl
        cases hl
  have hL1 : liveUX { s with reg := ⟨s.reg.nextID + 1,
      s.reg.elems ++ [(s.reg.nextID,
        ⟨[], addStatesList [] defaultStates, none, [], false⟩)]⟩ }
      s.reg.nextID := by
    intro id el hl hdes hne
    rw [lookupElem_snoc] at hl
    rcases or_some_cases hl with hl | ⟨_, hl⟩
    · exact liveUX_any s _ hLX hIC.2.2.2 id el hl hdes hne
    · rw [if_neg (fun hc => hne hc.symm)] at hl
      cases hl
  obtain ⟨hIC2, hLX2, _, _, hPar⟩ := (set_family_inv fuel).1 _
    s.reg.nextID opts5 0 s2 hIC1 hL1 hcl hrt (fun h0 => absurd h0 hnid) h
  exact ⟨hIC2, liveUX_zero_of_safe s2 _ hnid hLX2 (hPar hnid)⟩

theorem ctor_inv (fuel : Nat) (s : Surface) (kind : String) (opts : PropMap)
    (pr : Surface × Nat)
    (hIC : invCore s) (hLX : liveUX s 0) (hclean : cleanOpts opts)
    (htroot : truthy (getP opts "root") = false)
    (h : elementCtor fuel s kind opts = Except.ok pr) :
    invCore pr.1 ∧ liveUX pr.1 0 := by
  unfold elementCtor at h
  simp only [bind, Except.bind] at h
  by_cases hk1 : kind = "Rectangle"
  · rw [if_pos hk1] at h
    simp only [pure, Except.pure] at h
    have hcl1 : cleanOpts (defaultsP opts
        [("type", Val.scalar (Scalar.str "Rectangle")),
         ("cornerRadius", Val.scalar (Scalar.int 0))]) :=
      cleanOpts_defaultsP _ _ hclean
        (cleanOpts_of_no_states _ (by decide))
    have hrt1 : truthy (getP (defaultsP opts
        [("type", Val.scalar (Scalar.str "Rectangle")),
         ("cornerRadius", Val.scalar (Scalar.int 0))]) "root") = false := by
      rw [getP_defaultsP_ne _ _ _ (by decide)]
      exact htroot
    obtain ⟨hcl5, hrt5⟩ := ctor_opts5_facts _ hcl1 hrt1
    split at h
    · cases h
    next s2 hset =>
      cases h
      exact ctor_setM_inv fuel s _ s2 hIC hLX hcl5 hrt5 hset
  · rw [if_neg hk1] at h
    by_cases hk2 : kind = "Circle"
    · rw [if_pos hk2] at h
      simp only [pure, Except.pure] at h
      have hcl1 : cleanOpts (defaultsP opts
          [("type", Val.scalar (Scalar.str "Circle"))]) :=
        cleanOpts_defaultsP _ _ hclean
          (cleanOpts_of_no_states _ (by decide))
      have hrt1 : truthy (getP (defaultsP opts
          [("type", Val.scalar (Scalar.str "Circle"))]) "root") = false := by
        rw [getP_defaultsP_ne _ _ _ (by decide)]
        exact htroot
      obtain ⟨hcl5, hrt5⟩ := ctor_opts5_facts _ hcl1 hrt1
      split at h
      · cases h
      next s2 hset =>
        cases h
        exact ctor_setM_inv fuel s _ s2 hIC hLX hcl5 hrt5 hset
    · rw [if_neg hk2] at h
      by_cases hk3 : kind = "Element"
      · rw [if_pos hk3] at h
        simp only [pure, Except.pure] at h
        obtain ⟨hcl5, hrt5⟩ := ctor_opts5_facts opts hclean htroot
        split at h
        · cases h
        next s2 hset =>
          cases h
          exact ctor_setM_inv fuel s _ s2 hIC hLX hcl5 hrt5 hset
      · rw [if_neg hk3] at h
        cases h

theorem runOp_inv (fuel : Nat) (s : Surface) (op : WorkerOp) (s' : Surface)
    (hIC : invCore s) (hLX : liveUX s 0) (hwf : wfOp op)
    (h : runOp fuel s op = Except.ok s') :
    invCore s' ∧ liveUX s' 0 := by
  cases op with
  | create kind opts =>
    obtain ⟨htroot, hclean⟩ := hwf
    simp only [runOp] at h
    cases hctor : elementCtor fuel s kind opts with
    | error e => rw [hctor] at h; cases h
    | ok pr =>
      rw [hctor] at h
      cases h
      exact ctor_inv fuel s kind opts pr hIC hLX hclean htroot hctor
  | setOp elId opts depth =>
    obtain ⟨⟨htroot, hclean⟩, hpar0⟩ := hwf
    simp only [runOp] at h
    obtain ⟨hIC1, hLX1, _, hPers, hPar⟩ := (set_family_inv fuel).1 s elId
      opts depth s' hIC (liveUX_any s elId hLX hIC.2.2.2) hclean htroot
      hpar0 h
    refine ⟨hIC1, ?_⟩
    by_cases h0 : elId = 0
    · subst h0
      exact hLX1
    · exact liveUX_zero_of_safe s' elId h0 hLX1 (hPar h0)
  | setStateOp elId v =>
    simp only [runOp] at h
    obtain ⟨hIC1, hLX1, _, hPers⟩ := (set_family_inv fuel).2.2.2.1 s elId v
      s' hIC (liveUX_any s elId hLX hIC.2.2.2) h
    refine ⟨hIC1, ?_⟩
    by_cases h0 : elId = 0
    · subst h0
      exact hLX1
    · exact liveUX_zero_of_safe s' elId h0 hLX1
        (hPers elId (elSafe_of_liveUX0 s elId h0 hLX))
  | destroyOp elId =>
    simp only [runOp] at h
    exact (destroy_family_inv fuel).1 s elId s' hIC hLX h

theorem runOps_inv (fuel : Nat) :
    ∀ (ops : List WorkerOp) (s s' : Surface),
      invCore s → liveUX s 0 → (∀ op ∈ ops, wfOp op) →
      runOps fuel s ops = Except.ok s' → invCore s' ∧ liveUX s' 0 := by
  intro ops
  induction ops with
  | nil =>
    intro s s' hIC hLX _ h
    cases h
    exact ⟨hIC, hLX⟩
  | cons op rest ih =>
    intro s s' hIC hLX hwf h
    unfold runOps at h
    simp only [bind, Except.bind] at h
    split at h
    next er h1 => cases h
    next s1 h1 =>
      obtain ⟨hIC1, hLX1⟩ := runOp_inv fuel s op s1 hIC hLX
        (hwf op (List.mem_cons_self _ _)) h1
      exact ih s1 s' hIC1 hLX1
        (fun o ho => hwf o (List.mem_cons_of_mem _ ho)) h

theorem liveU_of_bundle (s : Surface) (hru : rootUnparented s)
    (hLX : liveUX s 0) : liveUnparentedIffRoot s := by
  intro id el hl hdes
  by_cases h0 : id = 0
  · subst h0
    simp [hru el hl]
  · exact hLX id el hl hdes h0

theorem lookupElem_mem (s : Surface) (i : Nat) (el : Element)
    (h : lookupElem s i = some el) : (i, el) ∈ s.reg.elems := by
  unfold lookupElem at h
  cases hf : s.reg.elems.find? (fun p => p.1 = i) with
  | none => rw [hf] at h; cases h
  | some p =>
    rw [hf] at h
    cases h
    have hp : p.1 = i := by simpa using List.find?_some hf
    have hm := List.mem_of_find?_eq_some hf
    rw [show p = (i, p.2) from by rw [← hp]] at hm
    exact hm

theorem bundle_of_entries (s : Surface)
    (h1 : 1 ≤ s.reg.nextID)
    (h2 : ∀ p ∈ s.reg.elems, ∀ d ∈ p.2.states, ∀ q ∈ d.2,
      q.1 ≠ "parent" ∧ q.1 ≠ "root" ∧ q.1 ≠ "state" ∧ q.1 ≠ "states" ∧
        q.1 ≠ "shape")
    (h3 : ∀ p ∈ s.reg.elems, 0 ∉ p.2.children)
    (h4 : ∀ p ∈ s.reg.elems, p.1 = 0 → p.2.parent = none)
    (h5 : ∀ p ∈ s.reg.elems, p.2.destroyed = false → p.1 ≠ 0 →
      p.2.parent ≠ none) :
    invCore s ∧ liveUX s 0 := by
  refine ⟨⟨h1, ?_, ?_, ?_⟩, ?_⟩
  · intro id el hl
    exact h2 (id, el) (lookupElem_mem s id el hl)
  · intro id el hl
    exact h3 (id, el) (lookupElem_mem s id el hl)
  · intro el hl
    exact h4 (0, el) (lookupElem_mem s 0 el hl) rfl
  · intro id el hl hdes hne
    constructor
    · intro hp
      exact absurd hp (h5 (id, el) (lookupElem_mem s id el hl) hdes hne)
    · intro h0
      exact absurd h0 hne

theorem setLoop_plain_parent (elId : Nat) :
    ∀ fuel (m : PropMap) (s : Surface) (sc : Surface × Nat),
      (∀ kv ∈ m, kv.1 ≠ "parent" ∧ kv.1 ≠ "states" ∧ kv.1 ≠ "state" ∧
        kv.1 ≠ "shape") →
      setLoop fuel s elId m = Except.ok sc →
      (∀ i, (lookupElem sc.1 i).map (fun e => e.parent) =
        (lookupElem s i).map (fun e => e.parent)) ∧
      sc.1.rootId = s.rootId := by
  intro fuel
  induction fuel with
  | zero => intro m s sc _ h; cases h
  | succ f ih =>
    intro m s sc hm h
    match m with
    | [] =>
      cases h
      exact ⟨fun i => rfl, rfl⟩
    | (k, v) :: rest =>
      obtain ⟨h1, h2, h3, h4⟩ := hm (k, v) (List.mem_cons_self _ _)
      have hmr : ∀ kv ∈ rest, kv.1 ≠ "parent" ∧ kv.1 ≠ "states" ∧
          kv.1 ≠ "state" ∧ kv.1 ≠ "shape" :=
        fun kv hkv => hm kv (List.mem_cons_of_mem _ hkv)
      rw [setLoop_cons_plain f s elId k v rest h1 h2 h3 h4] at h
      split at h
      · cases h
      next e he =>
        split at h
        next hskip => exact ih rest s sc hmr h
        next hskip =>
          simp only [bind, Except.bind] at h
          split at h
          next er hc0 => cases h
          next sc0 hc0 =>
            cases h
            obtain ⟨ihp, ihr⟩ := ih rest _ sc0 hmr hc0
            refine ⟨?_, ihr⟩
            intro i
            rw [ihp i]
            exact lookupElem_updateElem_map _ _ _ _ _ (fun e => rfl)

/-- Part of C8: a depth-0 `set` with plain non-reserved keys, no root
marker, on a parentless non-root element of a surface with a current
root, reparents the element to that root. -/
theorem auto_attach_to_root (fuel : Nat) (s : Surface) (elId : Nat)
    (opts : PropMap) (r : Nat) (s' : Surface)
    (hkeys : ∀ kv ∈ opts, kv.1 ≠ "parent" ∧ kv.1 ≠ "states" ∧
      kv.1 ≠ "state" ∧ kv.1 ≠ "shape")
    (hroot : truthy (getP opts "root") = false)
    (helid : elId ≠ 0)
    (hcur : (lookupElem s elId).map (fun e => e.parent) = some none)
    (hrid : s.rootId = some r)
    (h : setM fuel s elId opts 0 = Except.ok s') :
    (lookupElem s' elId).map (fun e => e.parent) = some (some r) := by
  cases fuel with
  | zero => cases h
  | succ f =>
    unfold setM at h
    split at h
    · cases h
    next e0 he0 =>
      simp only [bind, Except.bind] at h
      split at h
      next er hc => cases h
      next sc hc =>
        obtain ⟨hpar, hrootid⟩ := setLoop_plain_parent elId f opts s sc
          hkeys hc
        generalize hx : (if sc.2 ≠ 0 then elementUpdated sc.1 elId opts
          else sc.1) = x at h
        have hxreg : x.reg = sc.1.reg ∧ x.rootId = sc.1.rootId := by
          rw [← hx]
          split
          · exact ⟨addCommand_reg _ _ _ _, addCommand_rootId _ _ _ _⟩
          · exact ⟨rfl, rfl⟩
        have hxpar : ∀ i, (lookupElem x i).map (fun e => e.parent) =
            (lookupElem s i).map (fun e => e.parent) := by
          intro i
          rw [lookupElem_congr_reg hxreg.1]
          exact hpar i
        have hxrid : x.rootId = some r :=
          hxreg.2.trans (hrootid.trans hrid)
        have hxcur : (lookupElem x elId).map (fun e => e.parent) =
            some none := (hxpar elId).trans hcur
        have hA : ((lookupElem x elId).bind (fun a => a.parent)) = none := by
          cases hlx : lookupElem x elId with
          | none => rfl
          | some ex =>
            rw [hlx] at hxcur
            exact Option.some.inj hxcur
        have hpk : getP opts "parent" = none := by
          apply getP_eq_none_of_not_mem_keys
          intro hmem
          obtain ⟨kv, hkv, hk⟩ := List.mem_map.mp hmem
          exact (hkeys kv hkv).1 hk
        split at h
        next hcond =>
          split at h
          · cases h
          next r2 hr2 =>
            have hr2r : r2 = r := Option.some.inj (hr2.symm.trans hxrid)
            subst hr2r
            simp only [pure, Except.pure, if_true] at h
            cases h
            simp only [addChild]
            rw [lookupElem_updateElem, if_pos rfl]
            cases hlx2 : lookupElem (updateElem x r2
                (fun e => if elId ∈ e.children then e
                  else { e with children := e.children ++ [elId] }))
                elId with
            | none =>
              exfalso
              have := lookupElem_updateElem_map x r2
                (fun e => if elId ∈ e.children then e
                  else { e with children := e.children ++ [elId] }) elId
                (fun e => e.parent)
                (fun e => by by_cases hm : elId ∈ e.children <;> simp [hm])
              rw [hlx2] at this
              rw [hxcur] at this
              cases this
            | some ey => rfl
        next hcond =>
          exact absurd ⟨hA, by rw [hpk]; rfl, hroot, helid⟩ hcond

/-- C8: (a) a `set(props)` call at depth 0 whose props carry only plain
property keys — in particular neither an explicit `parent` key nor a
truthy `root` marker — applied to a non-root element whose parent is
currently unset, attaches that element as a child of the current root;
(b) from any surface satisfying the core registry invariant in which
every live element other than the root is parented, any sequence of
well-formed mutator operations (creates without a root marker or dirty
state tables, sets that never explicitly reparent the root, setStates,
destroys) preserves the exactly-one-unparented property: in the resulting
surface, a live element is unparented iff it is the root. -/
theorem c8_auto_attach_single_unparented_root :
    (∀ fuel s elId opts r s',
      (∀ kv ∈ opts, kv.1 ≠ "parent" ∧ kv.1 ≠ "states" ∧ kv.1 ≠ "state" ∧
        kv.1 ≠ "shape") →
      truthy (getP opts "root") = false →
      elId ≠ 0 →
      (lookupElem s elId).map (fun e => e.parent) = some none →
      s.rootId = some r →
      setM fuel s elId opts 0 = Except.ok s' →
      (lookupElem s' elId).map (fun e => e.parent) = some (some r)) ∧
    (∀ fuel s ops s',
      invCore s → liveUX s 0 → (∀ op ∈ ops, wfOp op) →
      runOps fuel s ops = Except.ok s' →
      liveUnparentedIffRoot s' ∧ invCore s' ∧ liveUX s' 0) := by
  constructor
  · intro fuel s elId opts r s' hkeys hroot helid hcur hrid h
    exact auto_attach_to_root fuel s elId opts r s' hkeys hroot helid hcur
      hrid h
  · intro fuel s ops s' hIC hLX hwf h
    obtain ⟨hIC1, hLX1⟩ := runOps_inv fuel ops s s' hIC hLX hwf h
    exact ⟨liveU_of_bundle s' hIC1.2.2.2 hLX1, hIC1, hLX1⟩

theorem c8_witness :
    (lookupElem ((setM 60 c8S 1 [] 0).toOption.get (by decide)) 1).map
      (fun e => e.parent) = some (some 0) ∧
    liveUnparentedIffRoot
      ((runOps 60 c2S0 [WorkerOp.create "Rectangle" []]).toOption.get
        (by decide)) := by
  constructor
  · exact c8_auto_attach_single_unparented_root.1 60 c8S 1 [] 0
      ((setM 60 c8S 1 [] 0).toOption.get (by decide))
      (by decide) (by decide) (by decide) (by decide) (by decide)
      (by decide)
  · have hb := bundle_of_entries c2S0 (by decide) (by decide) (by decide)
      (by decide) (by decide)
    have hwf : ∀ op ∈ [WorkerOp.create "Rectangle" []], wfOp op := by
      intro op hop
      rw [List.mem_singleton] at hop
      subst hop
      exact ⟨by decide, fun kv hkv => absurd hkv (List.not_mem_nil kv)⟩
    exact (c8_auto_attach_single_unparented_root.2 60 c2S0
      [WorkerOp.create "Rectangle" []]
      ((runOps 60 c2S0 [WorkerOp.create "Rectangle" []]).toOption.get
        (by decide))
      hb.1 hb.2 hwf (by decide)).1
